import Mathlib

/-!
pgs3: an S3-like object gateway over PostgreSQL.

A shallow embedding of `src/pg/s3_api.c`, `src/pg/pg_client.c` and the listing
handler of `src/http/http_server.c`, together with a model of the parts of
libpq and of the PostgreSQL server that this code drives.

Conventions of the embedding.

* A C string is the list of its bytes before the terminating NUL.
* A pointer that may be NULL is an `Option`.
* A pointer into a C string is the suffix of the string that starts there, so
  `p > q` for two pointers into one string reads `p.length < q.length`.
* `(data, size)` of `s3_api_put_object` is one optional byte list: `size` is its
  length.
* `unsigned long` and `size_t` are 64 bits wide; their arithmetic is written
  on `Nat` with an explicit `% 2 ^ 64`.
* `malloc`, `realloc` and `strdup` succeed.
-/

namespace Pgs3

/-! ## Bytes and C strings -/

abbrev Byte := UInt8

abbrev CString := List UInt8

/-- Bytes of an ASCII literal. -/
def ascii (s : String) : CString :=
  s.toList.map (fun c => UInt8.ofNat c.toNat)

/-- Result of `snprintf (buf, n, ...)`: the formatted text cut to `n - 1` bytes. -/
def snprintf (n : Nat) (formatted : CString) : CString :=
  formatted.take (n - 1)

/-- First occurrence of the byte `c` in `s` (`strchr`, for `c` other than NUL). -/
def strchr : CString → Byte → Option CString
  | [], _ => none
  | b :: s, c => if b = c then some (b :: s) else strchr s c

/-- First occurrence of `pat` in `s` (`strstr`). -/
def strstr : CString → CString → Option CString
  | [], pat => if pat.isEmpty then some [] else none
  | b :: s, pat => if pat.isPrefixOf (b :: s) then some (b :: s) else strstr s pat

/-! ## The result envelope (`s3_api.h`) -/

inductive S3StatusEnum where
  | S3_SUCCESS
  | S3_ERROR_CONNECTION
  | S3_ERROR_EXECUTION
  | S3_ERROR_NOT_FOUND
  | S3_ERROR_PERMISSION
  | S3_ERROR_INVALID_INPUT
  | S3_ERROR_MEMORY
  deriving DecidableEq, Repr

structure S3Result where
  status : S3StatusEnum
  content_type : Option CString
  data : Option (List Byte)
  data_size : Nat
  error_message : Option CString
  deriving DecidableEq, Repr

/-- Fresh result of `s3_result_create`: zeroed, status `S3_SUCCESS`. -/
def s3_result_create : S3Result :=
  { status := S3StatusEnum.S3_SUCCESS, content_type := none, data := none,
    data_size := 0, error_message := none }

/-- Setter `s3_result_set_error`: status and a copy of the message. -/
def s3_result_set_error (result : S3Result) (status : S3StatusEnum)
    (message : Option CString) : S3Result :=
  { result with status := status, error_message := message }

/-! ## libpq and the server

The table `s3.objects` is a list of rows with pairwise distinct paths.  A
timestamp is kept as the text that
`to_char (last_modified, 'YYYY-MM-DD"T"HH24:MI:SS.MS"Z"')` renders. -/

inductive ConnStatusType where
  | CONNECTION_OK
  | CONNECTION_BAD
  deriving DecidableEq, Repr

inductive ExecStatusType where
  | PGRES_COMMAND_OK
  | PGRES_TUPLES_OK
  | PGRES_FATAL_ERROR
  deriving DecidableEq, Repr

structure PGresult where
  resultStatus : ExecStatusType
  tuples : List (List CString)
  errMsg : CString
  deriving DecidableEq, Repr

structure Row where
  path : CString
  content : List Byte
  content_type : CString
  size : Nat
  last_modified : CString
  deriving DecidableEq, Repr

/-- Connection together with the state of the server behind it.
`std_strings` is `standard_conforming_strings` as the server reported it (what
libpq keeps in `static_std_strings`); `rejects n` says that the server refuses
the statement number `n` (privileges, resources); `clock n` is the rendering of
`CURRENT_TIMESTAMP` while statement number `n` runs; `stmts` counts the
statements received so far. -/
structure PGconn where
  status : ConnStatusType
  std_strings : Bool
  rejects : Nat → Bool
  clock : Nat → CString
  stmts : Nat
  schema : Bool
  objects : Option (List Row)

/-- The six SQL statements the gateway sends, with their parameters. -/
inductive Stmt where
  | create_schema
  | create_objects
  | select_objects
  | select_object (path : CString)
  | upsert_object (path content content_type : CString) (size : Nat)
  | delete_object (path : CString)
  deriving DecidableEq, Repr

def PQstatus (conn : PGconn) : ConnStatusType :=
  conn.status

def PQresultStatus (res : Option PGresult) : ExecStatusType :=
  match res with
  | none => ExecStatusType.PGRES_FATAL_ERROR
  | some r => r.resultStatus

def PQresultErrorMessage (res : Option PGresult) : CString :=
  match res with
  | none => []
  | some r => r.errMsg

def PQntuples (res : PGresult) : Nat :=
  res.tuples.length

def PQgetvalue (res : PGresult) (i j : Nat) : CString :=
  (res.tuples.getD i []).getD j []

/-- Octal digit character of `d`. -/
def oct_char (d : Nat) : Byte :=
  UInt8.ofNat (48 + d)

/-- One byte in the escape format of `PQescapeBytea` (libpq, `fe-exec.c`): a
byte outside 0x20..0x7e becomes a backslash and three octal digits, an
apostrophe is doubled, a backslash is doubled; with
`standard_conforming_strings` off every backslash written is doubled once
more. -/
def escape_byte (std_strings : Bool) (c : Byte) : CString :=
  let bslash : CString := if std_strings then [92] else [92, 92]
  if c.toNat < 32 ∨ c.toNat > 126 then
    bslash ++ [oct_char (c.toNat / 64), oct_char (c.toNat / 8 % 8), oct_char (c.toNat % 8)]
  else if c = 39 then [39, 39]
  else if c = 92 then bslash ++ bslash
  else [c]

/-- Escaping `PQescapeBytea`: it has no connection argument, so it never uses
the hex format. -/
def PQescapeBytea (std_strings : Bool) (src : List Byte) : CString :=
  (src.map (escape_byte std_strings)).flatten

def is_oct (c : Byte) : Bool :=
  decide (48 ≤ c.toNat ∧ c.toNat ≤ 55)

def is_first_oct (c : Byte) : Bool :=
  decide (48 ≤ c.toNat ∧ c.toNat ≤ 51)

def oct_val (c : Byte) : Nat :=
  c.toNat - 48

/-- Value of a hexadecimal digit character (`get_hex`), if it is one. -/
def get_hex (c : Byte) : Option Nat :=
  if 48 ≤ c.toNat ∧ c.toNat ≤ 57 then some (c.toNat - 48)
  else if 97 ≤ c.toNat ∧ c.toNat ≤ 102 then some (c.toNat - 87)
  else if 65 ≤ c.toNat ∧ c.toNat ≤ 70 then some (c.toNat - 55)
  else none

/-- Escape-format branch of the server's `byteain`: a backslash starts either
three octal digits or a second backslash, every other byte stands for itself,
a lone backslash is an error. -/
def byteain_escape : CString → Option (List Byte)
  | [] => some []
  | c :: rest =>
    if c ≠ 92 then (byteain_escape rest).map (fun out => c :: out)
    else
      match rest with
      | d1 :: d2 :: d3 :: rest3 =>
        if is_first_oct d1 ∧ is_oct d2 ∧ is_oct d3 then
          (byteain_escape rest3).map
            (fun out => UInt8.ofNat (oct_val d1 * 64 + oct_val d2 * 8 + oct_val d3) :: out)
        else if d1 = 92 then
          (byteain_escape (d2 :: d3 :: rest3)).map (fun out => (92 : UInt8) :: out)
        else none
      | d1 :: rest1 =>
        if d1 = 92 then (byteain_escape rest1).map (fun out => (92 : UInt8) :: out)
        else none
      | [] => none

/-- Hex-format branch of `byteain` (`hex_decode`): pairs of hex digits, white
space allowed between pairs. -/
def byteain_hex : CString → Option (List Byte)
  | [] => some []
  | [c] => if c = 32 ∨ c = 10 ∨ c = 9 ∨ c = 13 then some [] else none
  | c :: c2 :: rest2 =>
    if c = 32 ∨ c = 10 ∨ c = 9 ∨ c = 13 then byteain_hex (c2 :: rest2)
    else
      match get_hex c, get_hex c2 with
      | some v1, some v2 => (byteain_hex rest2).map (fun out => UInt8.ofNat (v1 * 16 + v2) :: out)
      | _, _ => none

/-- The server's input function of type `bytea`, applied to the text of a
parameter. -/
def byteain (text : CString) : Option (List Byte) :=
  match text with
  | 92 :: 120 :: rest => byteain_hex rest
  | _ => byteain_escape text

/-- Lowercase hexadecimal digit character of `d`. -/
def hex_digit (d : Nat) : Byte :=
  if d < 10 then UInt8.ofNat (48 + d) else UInt8.ofNat (87 + d)

/-- The server's output function of type `bytea` in its default hex format. -/
def byteaout (bytes : List Byte) : CString :=
  [92, 120] ++ (bytes.map (fun b => [hex_digit (b.toNat / 16), hex_digit (b.toNat % 16)])).flatten

/-- Hex branch of `PQunescapeBytea`: bad input is silently skipped. -/
def unescape_hex : CString → List Byte
  | [] => []
  | [_] => []
  | c :: c2 :: rest2 =>
    match get_hex c with
    | none => unescape_hex (c2 :: rest2)
    | some v1 =>
      match get_hex c2 with
      | some v2 => UInt8.ofNat (v1 * 16 + v2) :: unescape_hex rest2
      | none => unescape_hex rest2

/-- Escape branch of `PQunescapeBytea`: a backslash before something that is no
escape sequence is dropped. -/
def unescape_escape : CString → List Byte
  | [] => []
  | c :: rest =>
    if c ≠ 92 then c :: unescape_escape rest
    else
      match rest with
      | [] => []
      | d1 :: d2 :: d3 :: rest3 =>
        if d1 = 92 then (92 : UInt8) :: unescape_escape (d2 :: d3 :: rest3)
        else if is_first_oct d1 ∧ is_oct d2 ∧ is_oct d3 then
          UInt8.ofNat (oct_val d1 * 64 + oct_val d2 * 8 + oct_val d3) :: unescape_escape rest3
        else unescape_escape (d1 :: d2 :: d3 :: rest3)
      | d1 :: rest1 =>
        if d1 = 92 then (92 : UInt8) :: unescape_escape rest1
        else unescape_escape (d1 :: rest1)

/-- Decoder `PQunescapeBytea` of libpq. -/
def PQunescapeBytea (strtext : CString) : List Byte :=
  match strtext with
  | 92 :: 120 :: rest => unescape_hex rest
  | _ => unescape_escape strtext

/-- Byte-wise comparison of two paths (`ORDER BY path`). -/
def path_le : CString → CString → Bool
  | [], _ => true
  | _ :: _, [] => false
  | a :: s, b :: t => if a < b then true else if b < a then false else path_le s t

def insert_by_path (r : Row) : List Row → List Row
  | [] => [r]
  | x :: xs => if path_le r.path x.path then r :: x :: xs else x :: insert_by_path r xs

def order_by_path (rows : List Row) : List Row :=
  rows.foldr insert_by_path []

/-- Row replacement of `INSERT ... ON CONFLICT (path) DO UPDATE`. -/
def upsert_row (r : Row) : List Row → List Row
  | [] => [r]
  | x :: xs => if x.path = r.path then r :: xs else x :: upsert_row r xs

/-- Decimal text of a `BIGINT`. -/
def bigint_out (n : Nat) : CString :=
  ascii (Nat.repr n)

def fatal (msg : CString) : PGresult :=
  { resultStatus := ExecStatusType.PGRES_FATAL_ERROR, tuples := [], errMsg := msg }

/-- What the server does with one statement it accepts. -/
def server_exec (conn : PGconn) : Stmt → PGresult × PGconn
  | Stmt.create_schema =>
    ({ resultStatus := ExecStatusType.PGRES_COMMAND_OK, tuples := [], errMsg := [] },
     { conn with schema := true })
  | Stmt.create_objects =>
    if conn.schema then
      ({ resultStatus := ExecStatusType.PGRES_COMMAND_OK, tuples := [], errMsg := [] },
       { conn with objects := some (conn.objects.getD []) })
    else (fatal (ascii "ERROR:  schema \"s3\" does not exist\n"), conn)
  | Stmt.select_objects =>
    match conn.objects with
    | none => (fatal (ascii "ERROR:  relation \"s3.objects\" does not exist\n"), conn)
    | some rows =>
      ({ resultStatus := ExecStatusType.PGRES_TUPLES_OK,
         tuples := (order_by_path rows).map
           (fun r => [r.path, bigint_out r.size, r.last_modified]),
         errMsg := [] }, conn)
  | Stmt.select_object path =>
    match conn.objects with
    | none => (fatal (ascii "ERROR:  relation \"s3.objects\" does not exist\n"), conn)
    | some rows =>
      ({ resultStatus := ExecStatusType.PGRES_TUPLES_OK,
         tuples := (rows.filter (fun r => r.path = path)).map
           (fun r => [byteaout r.content, r.content_type]),
         errMsg := [] }, conn)
  | Stmt.upsert_object path content content_type size =>
    match conn.objects with
    | none => (fatal (ascii "ERROR:  relation \"s3.objects\" does not exist\n"), conn)
    | some rows =>
      match byteain content with
      | none => (fatal (ascii "ERROR:  invalid input syntax for type bytea\n"), conn)
      | some bytes =>
        let now := conn.clock conn.stmts
        ({ resultStatus := ExecStatusType.PGRES_TUPLES_OK, tuples := [[now]], errMsg := [] },
         { conn with objects := some (upsert_row
             { path := path, content := bytes, content_type := content_type,
               size := size, last_modified := now } rows) })
  | Stmt.delete_object path =>
    match conn.objects with
    | none => (fatal (ascii "ERROR:  relation \"s3.objects\" does not exist\n"), conn)
    | some rows =>
      ({ resultStatus := ExecStatusType.PGRES_TUPLES_OK,
         tuples := (rows.filter (fun r => r.path = path)).map (fun _ => [ascii "1"]),
         errMsg := [] },
       { conn with objects := some (rows.filter (fun r => r.path ≠ path)) })

/-- Sending one statement (`PQexec`, `PQexecParams`): NULL when the connection
is not usable, else the server's answer. -/
def PQexec (conn : PGconn) (stmt : Stmt) : Option PGresult × PGconn :=
  if conn.status ≠ ConnStatusType.CONNECTION_OK then (none, conn)
  else if conn.rejects conn.stmts then
    (some (fatal (ascii "ERROR:  permission denied\n")), { conn with stmts := conn.stmts + 1 })
  else
    let r := server_exec conn stmt
    (some r.1, { r.2 with stmts := conn.stmts + 1 })

/-- Sending a statement through a handle that may be NULL (`PQexecParams`). -/
def PQexecParams (conn : Option PGconn) (stmt : Stmt) : Option PGresult × Option PGconn :=
  match conn with
  | none => (none, none)
  | some c => ((PQexec c stmt).1, some (PQexec c stmt).2)

/-! ## The gateway (`src/pg/s3_api.c`) -/

/-- Helper `execute_query`: NULL unless the connection is usable and the
statement ends with `PGRES_TUPLES_OK` or `PGRES_COMMAND_OK`. -/
def execute_query (conn : Option PGconn) (query : Stmt) : Option PGresult × Option PGconn :=
  match conn with
  | none => (none, none)
  | some c =>
    if PQstatus c ≠ ConnStatusType.CONNECTION_OK then (none, some c)
    else
      let r := PQexec c query
      if PQresultStatus r.1 ≠ ExecStatusType.PGRES_TUPLES_OK ∧
          PQresultStatus r.1 ≠ ExecStatusType.PGRES_COMMAND_OK then (none, some r.2)
      else (r.1, some r.2)

/-- Bootstrap `ensure_s3_schema`: 0 on success, -1 on error. -/
def ensure_s3_schema (conn : Option PGconn) : Int × Option PGconn :=
  match conn with
  | none => (-1, none)
  | some c =>
    let r1 := execute_query (some c) Stmt.create_schema
    match r1.1 with
    | none => (-1, r1.2)
    | some _ =>
      let r2 := execute_query r1.2 Stmt.create_objects
      match r2.1 with
      | none => (-1, r2.2)
      | some _ => (0, r2.2)

def buckets_json : CString :=
  ascii "[\x7b\"Name\":\"public\",\"CreationDate\":\"2023-01-01T00:00:00.000Z\"\x7d]"

def s3_api_list_buckets (conn : Option PGconn) : S3Result × Option PGconn :=
  let result := s3_result_create
  match conn with
  | none =>
    (s3_result_set_error result S3StatusEnum.S3_ERROR_CONNECTION
      (some (ascii "Invalid PostgreSQL connection")), none)
  | some c =>
    ({ result with data := some buckets_json, data_size := buckets_json.length,
                   content_type := some (ascii "application/json") }, some c)

/-- One element of the listing as `snprintf` leaves it in `obj_json [512]`. -/
def obj_json (i : Nat) (path size lastmod : CString) : CString :=
  snprintf 512
    ((if i > 0 then ascii "," else []) ++ ascii "\x7b\"Key\":\"" ++ path ++ ascii "\",\"Size\":" ++
      size ++ ascii ",\"LastModified\":\"" ++ lastmod ++ ascii "\"\x7d")

/-- The `for` loop of `s3_api_list_objects`: `n` rows are left, `i` is the
index of the next one, `buffer` holds `buffer_pos = buffer.length` bytes. -/
def list_objects_loop (res : PGresult) : Nat → Nat → List Byte → Nat → List Byte × Nat
  | 0, _, buffer, buffer_size => (buffer, buffer_size)
  | n + 1, i, buffer, buffer_size =>
    let o := obj_json i (PQgetvalue res i 0) (PQgetvalue res i 1) (PQgetvalue res i 2)
    let obj_len := o.length
    let buffer_size1 :=
      if buffer.length + obj_len + 2 > buffer_size then buffer_size * 2 % 2 ^ 64 else buffer_size
    list_objects_loop res n (i + 1) (buffer ++ o) buffer_size1

def s3_api_list_objects (conn : Option PGconn) (bucket : Option CString) :
    S3Result × Option PGconn :=
  let result := s3_result_create
  match conn with
  | none =>
    (s3_result_set_error result S3StatusEnum.S3_ERROR_CONNECTION
      (some (ascii "Invalid PostgreSQL connection")), none)
  | some c =>
    match bucket with
    | none =>
      (s3_result_set_error result S3StatusEnum.S3_ERROR_INVALID_INPUT
        (some (ascii "Bucket name is required")), some c)
    | some b =>
      if b ≠ ascii "public" then
        (s3_result_set_error result S3StatusEnum.S3_ERROR_NOT_FOUND
          (some (ascii "Bucket not found")), some c)
      else
        let e := ensure_s3_schema (some c)
        if e.1 ≠ 0 then
          (s3_result_set_error result S3StatusEnum.S3_ERROR_EXECUTION
            (some (ascii "Failed to ensure schema")), e.2)
        else
          let q := execute_query e.2 Stmt.select_objects
          match q.1 with
          | none =>
            (s3_result_set_error result S3StatusEnum.S3_ERROR_EXECUTION
              (some (ascii "Failed to query objects")), q.2)
          | some res =>
            let rows := PQntuples res
            if rows = 0 then
              ({ result with data := some (ascii "[]"), data_size := (ascii "[]").length,
                             content_type := some (ascii "application/json") }, q.2)
            else
              let l := list_objects_loop res rows 0 (ascii "[") 1024
              let buffer := l.1 ++ ascii "]"
              ({ result with data := some buffer, data_size := buffer.length,
                             content_type := some (ascii "application/json") }, q.2)

def s3_api_get_object (conn : Option PGconn) (bucket key : Option CString) :
    S3Result × Option PGconn :=
  let result := s3_result_create
  match conn with
  | none =>
    (s3_result_set_error result S3StatusEnum.S3_ERROR_CONNECTION
      (some (ascii "Invalid PostgreSQL connection")), none)
  | some c =>
    match bucket, key with
    | some b, some k =>
      if b ≠ ascii "public" then
        (s3_result_set_error result S3StatusEnum.S3_ERROR_NOT_FOUND
          (some (ascii "Bucket not found")), some c)
      else
        let e := ensure_s3_schema (some c)
        if e.1 ≠ 0 then
          (s3_result_set_error result S3StatusEnum.S3_ERROR_EXECUTION
            (some (ascii "Failed to ensure schema")), e.2)
        else
          let r := PQexecParams e.2 (Stmt.select_object k)
          match r.1 with
          | none =>
            (s3_result_set_error result S3StatusEnum.S3_ERROR_EXECUTION
              (some (ascii "Failed to query object")), r.2)
          | some res =>
            if res.resultStatus ≠ ExecStatusType.PGRES_TUPLES_OK then
              (s3_result_set_error result S3StatusEnum.S3_ERROR_EXECUTION
                (some (ascii "Failed to query object")), r.2)
            else if PQntuples res = 0 then
              (s3_result_set_error result S3StatusEnum.S3_ERROR_NOT_FOUND
                (some (ascii "Object not found")), r.2)
            else
              let content := PQunescapeBytea (PQgetvalue res 0 0)
              let content_type := PQgetvalue res 0 1
              ({ result with data := some content, data_size := content.length,
                             content_type := some content_type }, r.2)
    | _, _ =>
      (s3_result_set_error result S3StatusEnum.S3_ERROR_INVALID_INPUT
        (some (ascii "Bucket name and key are required")), some c)

/-- One round of the hash loop: `hash = ((hash << 5) + hash) + bytes[i]` in
`unsigned long`. -/
def hash_step (hash : Nat) (b : Byte) : Nat :=
  (((hash <<< 5) % 2 ^ 64 + hash) % 2 ^ 64 + b.toNat) % 2 ^ 64

/-- The hash loop of `s3_api_put_object`, started at 5381. -/
def hash_loop (bytes : List Byte) : Nat :=
  bytes.foldl hash_step 5381

/-- Hexadecimal digits of `v`, most significant first; `k` bounds their number. -/
def hex_digits : Nat → Nat → CString
  | 0, _ => []
  | k + 1, v => if v < 16 then [hex_digit v] else hex_digits k (v / 16) ++ [hex_digit (v % 16)]

/-- Conversion `%08lx` of an `unsigned long`: at most 16 lowercase hex digits,
padded with zeros on the left to 8. -/
def fmt_08lx (v : Nat) : CString :=
  let ds := hex_digits 16 v
  List.replicate (8 - ds.length) (48 : UInt8) ++ ds

/-- The buffer `etag [32]` after `snprintf (etag, sizeof (etag), "\"%08lx\"", hash)`. -/
def etag_of (data : List Byte) : CString :=
  snprintf 32 (ascii "\"" ++ fmt_08lx (hash_loop data) ++ ascii "\"")

/-- The buffer `json_response [256]` of `s3_api_put_object`. -/
def json_response (etag lastmod : CString) : CString :=
  snprintf 256
    (ascii "\x7b\"ETag\":\"" ++ etag ++ ascii "\",\"LastModified\":\"" ++ lastmod ++ ascii "\"\x7d")

def s3_api_put_object (conn : Option PGconn) (bucket key : Option CString)
    (data : Option (List Byte)) (content_type : Option CString) : S3Result × Option PGconn :=
  let result := s3_result_create
  match conn with
  | none =>
    (s3_result_set_error result S3StatusEnum.S3_ERROR_CONNECTION
      (some (ascii "Invalid PostgreSQL connection")), none)
  | some c =>
    match bucket, key, data with
    | some b, some k, some d =>
      if d.length = 0 then
        (s3_result_set_error result S3StatusEnum.S3_ERROR_INVALID_INPUT
          (some (ascii "Bucket name, key, and data are required")), some c)
      else
        let content_type1 := content_type.getD (ascii "application/octet-stream")
        if b ≠ ascii "public" then
          (s3_result_set_error result S3StatusEnum.S3_ERROR_NOT_FOUND
            (some (ascii "Bucket not found")), some c)
        else
          let e := ensure_s3_schema (some c)
          if e.1 ≠ 0 then
            (s3_result_set_error result S3StatusEnum.S3_ERROR_EXECUTION
              (some (ascii "Failed to ensure schema")), e.2)
          else
            let escaped_data := PQescapeBytea c.std_strings d
            let r := PQexecParams e.2 (Stmt.upsert_object k escaped_data content_type1 d.length)
            match r.1 with
            | none =>
              (s3_result_set_error result S3StatusEnum.S3_ERROR_EXECUTION
                (some (PQresultErrorMessage none)), r.2)
            | some res =>
              if res.resultStatus ≠ ExecStatusType.PGRES_TUPLES_OK then
                (s3_result_set_error result S3StatusEnum.S3_ERROR_EXECUTION
                  (some (PQresultErrorMessage (some res))), r.2)
              else
                let lastmod := PQgetvalue res 0 0
                let j := json_response (etag_of d) lastmod
                ({ result with data := some j, data_size := j.length,
                               content_type := some (ascii "application/json") }, r.2)
    | _, _, _ =>
      (s3_result_set_error result S3StatusEnum.S3_ERROR_INVALID_INPUT
        (some (ascii "Bucket name, key, and data are required")), some c)

def s3_api_delete_object (conn : Option PGconn) (bucket key : Option CString) :
    S3Result × Option PGconn :=
  let result := s3_result_create
  match conn with
  | none =>
    (s3_result_set_error result S3StatusEnum.S3_ERROR_CONNECTION
      (some (ascii "Invalid PostgreSQL connection")), none)
  | some c =>
    match bucket, key with
    | some b, some k =>
      if b ≠ ascii "public" then
        (s3_result_set_error result S3StatusEnum.S3_ERROR_NOT_FOUND
          (some (ascii "Bucket not found")), some c)
      else
        let r := PQexecParams (some c) (Stmt.delete_object k)
        match r.1 with
        | none =>
          (s3_result_set_error result S3StatusEnum.S3_ERROR_EXECUTION
            (some (ascii "Failed to delete object")), r.2)
        | some res =>
          if res.resultStatus ≠ ExecStatusType.PGRES_TUPLES_OK then
            (s3_result_set_error result S3StatusEnum.S3_ERROR_EXECUTION
              (some (PQresultErrorMessage (some res))), r.2)
          else
            ({ result with data := some (ascii "\x7b\x7d"), data_size := 2,
                           content_type := some (ascii "application/json") }, r.2)
    | _, _ =>
      (s3_result_set_error result S3StatusEnum.S3_ERROR_INVALID_INPUT
        (some (ascii "Bucket name and key are required")), some c)

/-! ## The client wrapper (`src/pg/pg_client.c`) -/

structure PgClient where
  conninfo : CString
  conn : Option PGconn

/-- Wrapper `pg_client_list_objects`: NULL without a client, a connection or a
bucket. -/
def pg_client_list_objects (client : Option PgClient) (bucket : Option CString) :
    Option S3Result × Option PgClient :=
  match client with
  | none => (none, none)
  | some cl =>
    match cl.conn, bucket with
    | some c, some b =>
      let r := s3_api_list_objects (some c) (some b)
      (some r.1, some { cl with conn := r.2 })
    | _, _ => (none, some cl)

/-! ## The listing handler (`src/http/http_server.c`) -/

structure HttpServer where
  port : Nat
  pg_client : Option PgClient

/-- What a handler reads from the connection: the value of the query argument
`prefix`, if the request has one. -/
structure MHD_Connection where
  pfx : Option CString

/-- Response queued on the connection (`MHD_create_response_from_buffer`,
`MHD_queue_response`).  `body` is what the buffer given to libmicrohttpd holds
when the response is queued.  `body_freed` says that libmicrohttpd was given no
copy (`MHD_RESPMEM_PERSISTENT`) of a buffer that the handler releases
(`s3_result_free`) before it returns, that is before the response is sent: the
bytes that the client gets are then read from freed memory, and the program
does not determine them.  Bodies that are string literals, copies
(`MHD_RESPMEM_MUST_COPY`) or buffers handed over (`MHD_RESPMEM_MUST_FREE`) are
not freed. -/
structure HttpResponse where
  status_code : Nat
  body : List Byte
  content_type : Option CString
  body_freed : Bool := false
  deriving DecidableEq, Repr

def MHD_HTTP_OK : Nat := 200

def MHD_HTTP_INTERNAL_SERVER_ERROR : Nat := 500

/-- The `while (obj_start)` loop of the filter in `handle_list_objects`.
`filtered` holds `pos = filtered.length` bytes.  The result is `none` only when
the rounds allowed by the first argument are used up. -/
def filter_loop (pfx : CString) :
    Nat → Option CString → List Byte → Nat → Option (List Byte × Nat)
  | _, none, filtered, count => some (filtered, count)
  | 0, some _, _, _ => none
  | fuel + 1, some obj_start, filtered, count =>
    match strchr obj_start 125 with
    | none => some (filtered, count)
    | some obj_end =>
      match strstr obj_start (ascii "\"Key\":\"") with
      | none => filter_loop pfx fuel (strchr obj_end 123) filtered count
      | some key_start0 =>
        if key_start0.length < obj_end.length then
          filter_loop pfx fuel (strchr obj_end 123) filtered count
        else
          let key_start := key_start0.drop 7
          match strchr key_start 34 with
          | none => filter_loop pfx fuel (strchr obj_end 123) filtered count
          | some key_end =>
            if key_end.length < obj_end.length then
              filter_loop pfx fuel (strchr obj_end 123) filtered count
            else
              let prefix_len := pfx.length
              let key_len := key_start.length - key_end.length
              if key_len ≥ prefix_len ∧ key_start.take prefix_len = pfx then
                let filtered1 := if count > 0 then filtered ++ [44] else filtered
                let obj_len := obj_start.length - obj_end.length + 1
                filter_loop pfx fuel (strchr obj_end 123)
                  (filtered1 ++ obj_start.take obj_len) (count + 1)
              else
                filter_loop pfx fuel (strchr obj_end 123) filtered count

/-- The bytes the filter leaves in `filtered` before the terminating NUL. -/
def filter_by_pfx (pfx json : CString) : Option (List Byte) :=
  (filter_loop pfx (json.length + 1) (strchr json 123) (ascii "[") 0).map
    (fun r => r.1 ++ ascii "]")

/-- Handler `handle_list_objects` (GET /public).  The result is `none` only if
the filter loop is cut short, which `filter_by_pfx` never is.  The error
message of a result that is not a success is not copied and is released before
the response is sent. -/
def handle_list_objects (server : HttpServer) (connection : MHD_Connection) :
    Option HttpResponse × HttpServer :=
  let pfx := connection.pfx
  let r := pg_client_list_objects server.pg_client (some (ascii "public"))
  let server1 := { server with pg_client := r.2 }
  match r.1 with
  | none =>
    (some { status_code := MHD_HTTP_INTERNAL_SERVER_ERROR,
            body := ascii "Internal Server Error", content_type := none }, server1)
  | some result =>
    if result.status ≠ S3StatusEnum.S3_SUCCESS then
      (some { status_code := MHD_HTTP_INTERNAL_SERVER_ERROR,
              body := result.error_message.getD (ascii "Internal Server Error"),
              content_type := none,
              body_freed := result.error_message.isSome }, server1)
    else
      match pfx, result.data with
      | some p, some json =>
        if p ≠ [] then
          ((filter_by_pfx p json).map
            (fun filtered => { status_code := MHD_HTTP_OK, body := filtered,
                               content_type := result.content_type }), server1)
        else
          (some { status_code := MHD_HTTP_OK, body := json.take result.data_size,
                  content_type := result.content_type }, server1)
      | _, _ =>
        (some { status_code := MHD_HTTP_OK, body := (result.data.getD []).take result.data_size,
                content_type := result.content_type }, server1)

/-! ## The other client wrappers (`src/pg/pg_client.c`) -/

/-- Wrapper `pg_client_list_buckets`: NULL without a client or a connection. -/
def pg_client_list_buckets (client : Option PgClient) : Option S3Result × Option PgClient :=
  match client with
  | none => (none, none)
  | some cl =>
    match cl.conn with
    | some c =>
      let r := s3_api_list_buckets (some c)
      (some r.1, some { cl with conn := r.2 })
    | none => (none, some cl)

/-- Wrapper `pg_client_get_object`: NULL without a client, a connection, a
bucket or a key. -/
def pg_client_get_object (client : Option PgClient) (bucket key : Option CString) :
    Option S3Result × Option PgClient :=
  match client with
  | none => (none, none)
  | some cl =>
    match cl.conn, bucket, key with
    | some c, some b, some k =>
      let r := s3_api_get_object (some c) (some b) (some k)
      (some r.1, some { cl with conn := r.2 })
    | _, _, _ => (none, some cl)

/-- Wrapper `pg_client_put_object`: NULL without a client, a connection, a
bucket, a key or data, and NULL when the size is 0. -/
def pg_client_put_object (client : Option PgClient) (bucket key : Option CString)
    (data : Option (List Byte)) (content_type : Option CString) :
    Option S3Result × Option PgClient :=
  match client with
  | none => (none, none)
  | some cl =>
    match cl.conn, bucket, key, data with
    | some c, some b, some k, some d =>
      if d.length = 0 then (none, some cl)
      else
        let r := s3_api_put_object (some c) (some b) (some k) (some d) content_type
        (some r.1, some { cl with conn := r.2 })
    | _, _, _, _ => (none, some cl)

/-- Wrapper `pg_client_delete_object`: NULL without a client, a connection, a
bucket or a key. -/
def pg_client_delete_object (client : Option PgClient) (bucket key : Option CString) :
    Option S3Result × Option PgClient :=
  match client with
  | none => (none, none)
  | some cl =>
    match cl.conn, bucket, key with
    | some c, some b, some k =>
      let r := s3_api_delete_object (some c) (some b) (some k)
      (some r.1, some { cl with conn := r.2 })
    | _, _, _ => (none, some cl)

/-! ## The other handlers and the router (`src/http/http_server.c`)

The handlers `handle_list_buckets`, `handle_put_object` and
`handle_delete_object` share, word for word, the code that follows the gateway
call; it is written once, as `respond_ok_or_500`.  The code that follows the
gateway call in `handle_get_object` is `respond_get`. -/

def MHD_HTTP_FORBIDDEN : Nat := 403

def MHD_HTTP_NOT_FOUND : Nat := 404

def S3_PATH_LIST_BUCKETS : CString := ascii "/"

def S3_PATH_LIST_OBJECTS : CString := ascii "/public"

def S3_PATH_OBJECT_PREFIX : CString := ascii "/public/"

/-- Response of `handle_list_buckets`, `handle_put_object` and
`handle_delete_object` to what the gateway returned: 500 with the error message
(or `Internal Server Error`) unless the status is Success, else 200 with a copy
of the payload.  The error message is not copied: the response points at
`result->error_message`, which `s3_result_free` releases right after the
response is queued. -/
def respond_ok_or_500 (result : Option S3Result) : HttpResponse :=
  match result with
  | none =>
    { status_code := MHD_HTTP_INTERNAL_SERVER_ERROR, body := ascii "Internal Server Error",
      content_type := none }
  | some r =>
    if r.status ≠ S3StatusEnum.S3_SUCCESS then
      { status_code := MHD_HTTP_INTERNAL_SERVER_ERROR,
        body := r.error_message.getD (ascii "Internal Server Error"), content_type := none,
        body_freed := r.error_message.isSome }
    else
      { status_code := MHD_HTTP_OK, body := (r.data.getD []).take r.data_size,
        content_type := r.content_type }

/-- Response of `handle_get_object` to what the gateway returned.  As in
`respond_ok_or_500` the error message is not copied and is released before the
response is sent. -/
def respond_get (result : Option S3Result) : HttpResponse :=
  match result with
  | none =>
    { status_code := MHD_HTTP_INTERNAL_SERVER_ERROR, body := ascii "Internal Server Error",
      content_type := none }
  | some r =>
    if r.status ≠ S3StatusEnum.S3_SUCCESS then
      let status_code :=
        if r.status = S3StatusEnum.S3_ERROR_NOT_FOUND then MHD_HTTP_NOT_FOUND
        else if r.status = S3StatusEnum.S3_ERROR_PERMISSION then MHD_HTTP_FORBIDDEN
        else MHD_HTTP_INTERNAL_SERVER_ERROR
      { status_code := status_code, body := r.error_message.getD (ascii "Error"),
        content_type := none, body_freed := r.error_message.isSome }
    else
      { status_code := MHD_HTTP_OK, body := (r.data.getD []).take r.data_size,
        content_type := r.content_type }

/-- Handler `handle_list_buckets` (GET /). -/
def handle_list_buckets (server : HttpServer) : HttpResponse × HttpServer :=
  let r := pg_client_list_buckets server.pg_client
  (respond_ok_or_500 r.1, { server with pg_client := r.2 })

/-- Handler `handle_get_object` (GET /public/key): the key is the URL without
its first `strlen ("/public/")` bytes. -/
def handle_get_object (server : HttpServer) (url : CString) : HttpResponse × HttpServer :=
  let key := url.drop S3_PATH_OBJECT_PREFIX.length
  let r := pg_client_get_object server.pg_client (some (ascii "public")) (some key)
  (respond_get r.1, { server with pg_client := r.2 })

/-- Context of one request (`RequestContext`): `data` is NULL or the buffer, of
which the first `size` bytes are kept here. -/
structure RequestContext where
  data : Option (List Byte)
  size : Nat
  capacity : Nat
  content_type : Option CString
  url : CString
  method : CString

/-- Handler `handle_put_object` (PUT /public/key): key from the URL kept in the
context, data and size from the context. -/
def handle_put_object (server : HttpServer) (ctx : RequestContext) : HttpResponse × HttpServer :=
  let key := ctx.url.drop S3_PATH_OBJECT_PREFIX.length
  let r := pg_client_put_object server.pg_client (some (ascii "public")) (some key)
    (ctx.data.map (fun d => d.take ctx.size)) ctx.content_type
  (respond_ok_or_500 r.1, { server with pg_client := r.2 })

/-- Handler `handle_delete_object` (DELETE /public/key). -/
def handle_delete_object (server : HttpServer) (url : CString) : HttpResponse × HttpServer :=
  let key := url.drop S3_PATH_OBJECT_PREFIX.length
  let r := pg_client_delete_object server.pg_client (some (ascii "public")) (some key)
  (respond_ok_or_500 r.1, { server with pg_client := r.2 })

/-- Lower case of an ASCII letter (`tolower` in the C locale). -/
def tolower (b : Byte) : Byte :=
  if 65 ≤ b.toNat ∧ b.toNat ≤ 90 then b + 32 else b

/-- Test `strcasecmp (a, b) == 0`. -/
def strcasecmp_eq (a b : CString) : Bool :=
  a.map tolower == b.map tolower

/-- Callback `put_data_handler`, run over every request header in turn: a header
named `Content-Type`, in any case, sets the content type of the context. -/
def put_data_handler (ctx : RequestContext) (header : CString × CString) : RequestContext :=
  if strcasecmp_eq header.1 (ascii "Content-Type") then
    { ctx with content_type := some header.2 }
  else ctx

/-- What one call of `request_handler` leaves behind: the response it queued,
if any, the context in `*con_cls`, the value of `*upload_data_size`, and the
server. -/
structure HandlerOutcome where
  response : Option HttpResponse
  con_cls : Option RequestContext
  upload_data_size : Nat
  server : HttpServer

/-- Callback `request_handler`; `headers` are the request headers that
`MHD_get_connection_values` walks through, `upload_data` is the chunk of
`*upload_data_size` bytes.  The first call of a request only builds the
context; a call of a PUT request with a non-empty chunk only stores the chunk;
every other call routes the request.  Every call returns `MHD_YES`. -/
def request_handler (server : HttpServer) (connection : MHD_Connection)
    (headers : List (CString × CString)) (url method : CString) (upload_data : List Byte)
    (con_cls : Option RequestContext) : HandlerOutcome :=
  match con_cls with
  | none =>
    let ctx0 : RequestContext :=
      { data := none, size := 0, capacity := 0, content_type := none, url := url,
        method := method }
    let ctx :=
      if method = ascii "PUT" then
        let ctx1 := headers.foldl put_data_handler ctx0
        if ctx1.content_type = none then
          { ctx1 with content_type := some (ascii "application/octet-stream") }
        else ctx1
      else ctx0
    { response := none, con_cls := some ctx, upload_data_size := upload_data.length,
      server := server }
  | some ctx =>
    if method = ascii "PUT" ∧ upload_data.length > 0 then
      let capacity1 :=
        if ctx.capacity < ctx.size + upload_data.length then
          (if ctx.capacity = 0 then upload_data.length * 2
           else (ctx.size + upload_data.length) * 2) % 2 ^ 64
        else ctx.capacity
      { response := none,
        con_cls := some { ctx with
          data := some ((ctx.data.getD []).take ctx.size ++ upload_data),
          size := ctx.size + upload_data.length, capacity := capacity1 },
        upload_data_size := 0, server := server }
    else if method = ascii "GET" ∧ url = S3_PATH_LIST_BUCKETS then
      let r := handle_list_buckets server
      { response := some r.1, con_cls := some ctx, upload_data_size := upload_data.length,
        server := r.2 }
    else if method = ascii "GET" ∧ url = S3_PATH_LIST_OBJECTS then
      let r := handle_list_objects server connection
      { response := r.1, con_cls := some ctx, upload_data_size := upload_data.length,
        server := r.2 }
    else if method = ascii "GET" ∧ S3_PATH_OBJECT_PREFIX.isPrefixOf url then
      let r := handle_get_object server url
      { response := some r.1, con_cls := some ctx, upload_data_size := upload_data.length,
        server := r.2 }
    else if method = ascii "PUT" ∧ S3_PATH_OBJECT_PREFIX.isPrefixOf url then
      let r := handle_put_object server ctx
      { response := some r.1, con_cls := some ctx, upload_data_size := upload_data.length,
        server := r.2 }
    else if method = ascii "DELETE" ∧ S3_PATH_OBJECT_PREFIX.isPrefixOf url then
      let r := handle_delete_object server url
      { response := some r.1, con_cls := some ctx, upload_data_size := upload_data.length,
        server := r.2 }
    else
      { response := some { status_code := MHD_HTTP_NOT_FOUND, body := ascii "Not Found",
                           content_type := none },
        con_cls := some ctx, upload_data_size := upload_data.length, server := server }

/-! ## The command line (`src/main.c`) -/

/-- Text that `print_help` writes to standard output. -/
def help_text : CString :=
  ascii "PostgreSQL S3 CLI\n" ++
  ascii "Usage: pgs3 <command> [options]\n\n" ++
  ascii "Commands:\n" ++
  ascii "  ls [prefix]             List objects in the public bucket, optionally with prefix\n" ++
  ascii "  get <key>               Get object from public bucket\n" ++
  ascii "  put <key>               Put object from stdin into public bucket\n" ++
  ascii "  delete <key>            Delete object from public bucket\n" ++
  ascii "  serve [port]            Start HTTP server (default port: 9000)\n" ++
  ascii "\n" ++
  ascii "Environment variables:\n" ++
  ascii "  PGHOST                  PostgreSQL host (default: localhost)\n" ++
  ascii "  PGPORT                  PostgreSQL port (default: 5432)\n" ++
  ascii "  PGDATABASE              PostgreSQL database name (default: postgres)\n" ++
  ascii "  PGUSER                  PostgreSQL user (default: postgres)\n" ++
  ascii "  PGPASSWORD              PostgreSQL password (default: postgres)\n" ++
  ascii "  PGCONNSTRING            Full PostgreSQL connection string (overrides other variables)\n"

/-- Last occurrence of the byte `c` in `s` (`strrchr`, for `c` other than NUL). -/
def strrchr : CString → Byte → Option CString
  | [], _ => none
  | b :: s, c =>
    match strrchr s c with
    | some t => some t
    | none => if b = c then some (b :: s) else none

/-- Content type that the command `put` derives from the key. -/
def cli_content_type (key : CString) : CString :=
  match strrchr key 46 with
  | none => ascii "application/octet-stream"
  | some dot =>
    let ext := dot.drop 1
    if strcasecmp_eq ext (ascii "txt") then ascii "text/plain"
    else if strcasecmp_eq ext (ascii "html") ∨ strcasecmp_eq ext (ascii "htm") then
      ascii "text/html"
    else if strcasecmp_eq ext (ascii "css") then ascii "text/css"
    else if strcasecmp_eq ext (ascii "js") then ascii "application/javascript"
    else if strcasecmp_eq ext (ascii "json") then ascii "application/json"
    else if strcasecmp_eq ext (ascii "xml") then ascii "application/xml"
    else if strcasecmp_eq ext (ascii "png") then ascii "image/png"
    else if strcasecmp_eq ext (ascii "jpg") ∨ strcasecmp_eq ext (ascii "jpeg") then
      ascii "image/jpeg"
    else if strcasecmp_eq ext (ascii "gif") then ascii "image/gif"
    else if strcasecmp_eq ext (ascii "pdf") then ascii "application/pdf"
    else ascii "application/octet-stream"

/-- What a run of the program leaves behind: the value `main` returns, what it
wrote to standard output and to standard error, and the connection at the
end. -/
structure CliResult where
  exit_code : Int
  out : List Byte
  err : List Byte
  conn : Option PGconn

/-- Text of `PQerrorMessage` for a connection that could not be opened. -/
def PQerrorMessage (_ : PGconn) : CString :=
  ascii "connection to server failed\n"

/-- Constructor `pg_client_init`: NULL, after a line on standard error, when the
connection that `PQconnectdb` returns is not usable. -/
def pg_client_init (PQconnectdb : CString → PGconn) (conninfo : CString) :
    Option PgClient × List Byte :=
  let conn := PQconnectdb conninfo
  if PQstatus conn ≠ ConnStatusType.CONNECTION_OK then
    (none, ascii "Connection to database failed: " ++ PQerrorMessage conn ++ ascii "\n")
  else (some { conninfo := conninfo, conn := some conn }, [])

/-- Connection string that `main` builds from the environment. -/
def build_conninfo (getenv : CString → Option CString) : CString :=
  match getenv (ascii "PGCONNSTRING") with
  | some pgconnstring => pgconnstring.take 255
  | none =>
    snprintf 256
      (ascii "host=" ++ (getenv (ascii "PGHOST")).getD (ascii "localhost") ++
       ascii " port=" ++ (getenv (ascii "PGPORT")).getD (ascii "5432") ++
       ascii " dbname=" ++ (getenv (ascii "PGDATABASE")).getD (ascii "postgres") ++
       ascii " user=" ++ (getenv (ascii "PGUSER")).getD (ascii "postgres") ++
       ascii " password=" ++ (getenv (ascii "PGPASSWORD")).getD (ascii "postgres"))

/-- Program `main` for the commands that return: `argv` with the program name
first, `stdin` the bytes on standard input, `getenv` the environment,
`PQconnectdb` the connection a connection string leads to.  The command `serve`
hands over to the HTTP daemon and does not return while it runs; the answer for
it is `none`. -/
def main (getenv : CString → Option CString) (PQconnectdb : CString → PGconn)
    (argv : List CString) (stdin : List Byte) : Option CliResult :=
  let conninfo := build_conninfo getenv
  let argc := argv.length
  if argc < 2 then
    some { exit_code := 1, out := help_text, err := [], conn := none }
  else if argv.getD 1 [] = ascii "serve" then none
  else
    let init := pg_client_init PQconnectdb conninfo
    match init.1 with
    | none =>
      some { exit_code := 1, out := [],
             err := init.2 ++ ascii "Failed to connect to PostgreSQL\n", conn := none }
    | some client =>
      if argv.getD 1 [] = ascii "ls" then
        let out0 :=
          if argc > 2 then
            ascii "Listing objects with prefix: " ++ argv.getD 2 [] ++ ascii "\n"
          else []
        let r := pg_client_list_objects (some client) (some (ascii "public"))
        let conn1 := r.2.bind (fun cl => cl.conn)
        match r.1 with
        | some s3_result =>
          if s3_result.status = S3StatusEnum.S3_SUCCESS then
            some { exit_code := 0, out := out0 ++ s3_result.data.getD [] ++ ascii "\n",
                   err := [], conn := conn1 }
          else
            some { exit_code := 1, out := out0,
                   err := ascii "Failed to list objects\n" ++
                     (match s3_result.error_message with
                      | some m => m ++ ascii "\n"
                      | none => []),
                   conn := conn1 }
        | none =>
          some { exit_code := 1, out := out0, err := ascii "Failed to list objects\n",
                 conn := conn1 }
      else if argv.getD 1 [] = ascii "get" then
        if argc < 3 then
          some { exit_code := 1, out := [], err := ascii "Usage: pgs3 get <key>\n",
                 conn := client.conn }
        else
          let r := pg_client_get_object (some client) (some (ascii "public"))
            (some (argv.getD 2 []))
          let conn1 := r.2.bind (fun cl => cl.conn)
          match r.1 with
          | some result =>
            if result.status = S3StatusEnum.S3_SUCCESS then
              some { exit_code := 0, out := (result.data.getD []).take result.data_size,
                     err := [], conn := conn1 }
            else
              some { exit_code := 0, out := [],
                     err := ascii "Error: " ++
                       result.error_message.getD (ascii "Unknown error") ++ ascii "\n",
                     conn := conn1 }
          | none =>
            some { exit_code := 1, out := [], err := ascii "Failed to execute command\n",
                   conn := conn1 }
      else if argv.getD 1 [] = ascii "put" then
        if argc < 3 then
          some { exit_code := 1, out := [], err := ascii "Usage: pgs3 put <key>\n",
                 conn := client.conn }
        else
          let data := stdin
          let content_type := cli_content_type (argv.getD 2 [])
          let r := pg_client_put_object (some client) (some (ascii "public"))
            (some (argv.getD 2 [])) (some data) (some content_type)
          let conn1 := r.2.bind (fun cl => cl.conn)
          match r.1 with
          | some result =>
            if result.status = S3StatusEnum.S3_SUCCESS then
              some { exit_code := 0,
                     out := (result.data.getD []).take result.data_size ++ ascii "\n",
                     err := [], conn := conn1 }
            else
              some { exit_code := 0, out := [],
                     err := ascii "Error: " ++
                       result.error_message.getD (ascii "Unknown error") ++ ascii "\n",
                     conn := conn1 }
          | none =>
            some { exit_code := 1, out := [], err := ascii "Failed to execute command\n",
                   conn := conn1 }
      else if argv.getD 1 [] = ascii "delete" then
        if argc < 3 then
          some { exit_code := 1, out := [], err := ascii "Usage: pgs3 delete <key>\n",
                 conn := client.conn }
        else
          let r := pg_client_delete_object (some client) (some (ascii "public"))
            (some (argv.getD 2 []))
          let conn1 := r.2.bind (fun cl => cl.conn)
          match r.1 with
          | some result =>
            if result.status = S3StatusEnum.S3_SUCCESS then
              some { exit_code := 0, out := ascii "Object deleted successfully\n", err := [],
                     conn := conn1 }
            else
              some { exit_code := 0, out := [],
                     err := ascii "Error: " ++
                       result.error_message.getD (ascii "Unknown error") ++ ascii "\n",
                     conn := conn1 }
          | none =>
            some { exit_code := 1, out := [], err := ascii "Failed to execute command\n",
                   conn := conn1 }
      else
        some { exit_code := 1, out := help_text,
               err := ascii "Unknown command: " ++ argv.getD 1 [] ++ ascii "\n",
               conn := client.conn }

/-! ## Reference notions used in the statements -/

/-- Reference hash in the words of the specification: `h = 5381`, then
`h = h * 33 + byte` over every content byte in order, without any wrap-around. -/
def djb2_ref (bytes : List Byte) : Nat :=
  bytes.foldl (fun h b => h * 33 + b.toNat) 5381

/-- Lowercase hexadecimal digit characters: `0`..`9` and `a`..`f`. -/
def is_lower_hex (c : Byte) : Bool :=
  decide ((48 ≤ c.toNat ∧ c.toNat ≤ 57) ∨ (97 ≤ c.toNat ∧ c.toNat ≤ 102))

/-- Number that a string of hexadecimal digits denotes, most significant digit
first. -/
def hex_value (s : CString) : Nat :=
  s.foldl (fun acc c => acc * 16 + (get_hex c).getD 0) 0

/-- A server that is reachable, refuses nothing, has `standard_conforming_strings`
on and holds no schema yet; its clock always shows the same instant. -/
def fresh_conn : PGconn :=
  { status := ConnStatusType.CONNECTION_OK, std_strings := true, rejects := fun _ => false,
    clock := fun _ => ascii "2024-01-01T00:00:00.000Z", stmts := 0, schema := false,
    objects := none }

/-- The same server after the bootstrap, holding the one object `a.txt`. -/
def stocked_conn : PGconn :=
  { status := ConnStatusType.CONNECTION_OK, std_strings := true, rejects := fun _ => false,
    clock := fun _ => ascii "2024-01-01T00:00:00.000Z", stmts := 3, schema := true,
    objects := some [{ path := ascii "a.txt", content := ascii "hello",
                       content_type := ascii "text/plain", size := 5,
                       last_modified := ascii "2024-01-01T00:00:00.000Z" }] }

/-- An HTTP server whose client is connected to `stocked_conn`. -/
def stocked_server : HttpServer :=
  { port := 9000, pg_client := some { conninfo := [], conn := some stocked_conn } }

/-- A willing server that holds the two objects `a/1` and `b/1`. -/
def two_key_conn : PGconn :=
  { status := ConnStatusType.CONNECTION_OK, std_strings := true, rejects := fun _ => false,
    clock := fun _ => ascii "2024-01-01T00:00:00.000Z", stmts := 6, schema := true,
    objects := some [{ path := ascii "b/1", content := ascii "y",
                       content_type := ascii "text/plain", size := 1,
                       last_modified := ascii "2024-01-01T00:00:00.000Z" },
                     { path := ascii "a/1", content := ascii "x",
                       content_type := ascii "text/plain", size := 1,
                       last_modified := ascii "2024-01-01T00:00:00.000Z" }] }

/-- A willing server that holds one object whose key is 600 times the letter
`a`. -/
def long_key_conn : PGconn :=
  { status := ConnStatusType.CONNECTION_OK, std_strings := true, rejects := fun _ => false,
    clock := fun _ => ascii "2024-01-01T00:00:00.000Z", stmts := 3, schema := true,
    objects := some [{ path := List.replicate 600 97, content := ascii "x",
                       content_type := ascii "text/plain", size := 1,
                       last_modified := ascii "2024-01-01T00:00:00.000Z" }] }

/-- The element that `s3_api_list_objects` writes for the row `r` when it is
the row number `i` of the answer. -/
def element_of (i : Nat) (r : Row) : CString :=
  obj_json i r.path (bigint_out r.size) r.last_modified

/-- The elements for a run of rows, the first of which is row number `i`. -/
def elements_from : Nat → List Row → List CString
  | _, [] => []
  | i, r :: rs => element_of i r :: elements_from (i + 1) rs

/-- Pieces joined by commas. -/
def comma_joined : List CString → CString
  | [] => []
  | [o] => o
  | o :: p :: os => o ++ [44] ++ comma_joined (p :: os)

/-- Pieces as the filter loop appends them when `count` pieces were appended
before: a comma goes before every piece but the very first. -/
def joined_from : Nat → List CString → CString
  | _, [] => []
  | count, o :: os => (if count > 0 then [44] else []) ++ o ++ joined_from (count + 1) os

/-- Shape of a result envelope: the status is Success exactly when data and
content type are both present, and exactly when there is no error message; a
result with another status has an error message and neither data nor content
type. -/
def well_shaped (r : S3Result) : Prop :=
  (r.status = S3StatusEnum.S3_SUCCESS ↔ (r.data.isSome = true ∧ r.content_type.isSome = true)) ∧
  (r.status = S3StatusEnum.S3_SUCCESS ↔ r.error_message = none) ∧
  (r.status ≠ S3StatusEnum.S3_SUCCESS →
    r.error_message.isSome = true ∧ r.data = none ∧ r.content_type = none)

/-- The static table from extension, in lower case, to content type, in the
words of the specification. -/
def mime_table : List (CString × CString) :=
  [(ascii "txt", ascii "text/plain"), (ascii "html", ascii "text/html"),
   (ascii "htm", ascii "text/html"), (ascii "css", ascii "text/css"),
   (ascii "js", ascii "application/javascript"), (ascii "json", ascii "application/json"),
   (ascii "xml", ascii "application/xml"), (ascii "png", ascii "image/png"),
   (ascii "jpg", ascii "image/jpeg"), (ascii "jpeg", ascii "image/jpeg"),
   (ascii "gif", ascii "image/gif"), (ascii "pdf", ascii "application/pdf")]

/-- The request context after libmicrohttpd has delivered the body chunks
of one PUT request, one call of `request_handler` per chunk. -/
def deliver_chunks (server : HttpServer) (connection : MHD_Connection)
    (headers : List (CString × CString)) (url : CString) :
    List (List Byte) → Option RequestContext → Option RequestContext
  | [], con_cls => con_cls
  | chunk :: rest, con_cls =>
    deliver_chunks server connection headers url rest
      (request_handler server connection headers url (ascii "PUT") chunk con_cls).con_cls

/-- The `for` loop of `s3_api_list_objects` once more, with every
`strcpy (buffer + buffer_pos, obj_json)` checked against the size the buffer
has at that moment: the result is `none` as soon as an element and its
terminating NUL would not fit. -/
def list_objects_loop_checked (res : PGresult) :
    Nat → Nat → List Byte → Nat → Option (List Byte × Nat)
  | 0, _, buffer, buffer_size => some (buffer, buffer_size)
  | n + 1, i, buffer, buffer_size =>
    let o := obj_json i (PQgetvalue res i 0) (PQgetvalue res i 1) (PQgetvalue res i 2)
    let obj_len := o.length
    let buffer_size1 :=
      if buffer.length + obj_len + 2 > buffer_size then buffer_size * 2 % 2 ^ 64 else buffer_size
    if buffer.length + obj_len + 1 ≤ buffer_size1 then
      list_objects_loop_checked res n (i + 1) (buffer ++ o) buffer_size1
    else none

/-- An answer of three rows, two of them with keys of 700 bytes, so that the
third element no longer fits in the first 1024 bytes. -/
def three_row_result : PGresult :=
  { resultStatus := ExecStatusType.PGRES_TUPLES_OK,
    tuples := [[List.replicate 700 97, ascii "1", ascii "2024-01-01T00:00:00.000Z"],
               [List.replicate 700 98, ascii "2", ascii "2024-01-01T00:00:00.000Z"],
               [ascii "c", ascii "3", ascii "2024-01-01T00:00:00.000Z"]],
    errMsg := [] }

/-- The listing element for one object as the format of `s3_api_list_objects`
spells it, without the leading comma and before `obj_json [512]` cuts it. -/
def json_element (path size lastmod : CString) : CString :=
  ascii "\x7b\"Key\":\"" ++ path ++ ascii "\",\"Size\":" ++ size ++
    ascii ",\"LastModified\":\"" ++ lastmod ++ ascii "\"\x7d"

/-- The listing element of a stored row. -/
def row_element (r : Row) : CString :=
  json_element r.path (bigint_out r.size) r.last_modified

/-- The texts that `snprintf` is asked to print for a run of rows, the first
of which is row number `i`: every row but row 0 has a leading comma. -/
def formatted_from : Nat → List Row → List CString
  | _, [] => []
  | i, r :: rs => ((if i > 0 then ascii "," else []) ++ row_element r) :: formatted_from (i + 1) rs

/-- The text contains none of the characters ", { and }. -/
def plain (s : CString) : Bool :=
  s.all (fun b => b != 34 && b != 123 && b != 125)

/-- What follows an element in the payload of the listing when the elements of
`rows` come after it: each of them behind a comma, then the closing bracket. -/
def listing_tail : List Row → CString
  | [] => ascii "]"
  | r :: rs => ascii "," ++ row_element r ++ listing_tail rs

/-- A willing server that holds the three objects `b/1`, `a/2` and `a/1`, put
in that order. -/
def three_key_conn : PGconn :=
  { status := ConnStatusType.CONNECTION_OK, std_strings := true, rejects := fun _ => false,
    clock := fun _ => ascii "2024-01-01T00:00:00.000Z", stmts := 9, schema := true,
    objects := some [{ path := ascii "b/1", content := ascii "z",
                       content_type := ascii "text/plain", size := 1,
                       last_modified := ascii "2024-01-01T00:00:00.000Z" },
                     { path := ascii "a/2", content := ascii "yy",
                       content_type := ascii "text/plain", size := 2,
                       last_modified := ascii "2024-01-01T00:00:00.000Z" },
                     { path := ascii "a/1", content := ascii "x",
                       content_type := ascii "text/plain", size := 1,
                       last_modified := ascii "2024-01-01T00:00:00.000Z" }] }

/-- The transport status that the specification gives for a gateway status:
200 for Success, 404 for NotFound, 403 for PermissionDenied, 500 for every
other status. -/
def http_status_of (status : S3StatusEnum) : Nat :=
  if status = S3StatusEnum.S3_SUCCESS then 200
  else if status = S3StatusEnum.S3_ERROR_NOT_FOUND then 404
  else if status = S3StatusEnum.S3_ERROR_PERMISSION then 403
  else 500

/-- How a handler answers the gateway result `r`: with the status code of the
specification; for a success with a body that is not freed; for a result that
is not a success and carries a message with a body that points at that message
and is freed before the response is sent. -/
def answers_with_freed_message (response : HttpResponse) (r : S3Result) : Prop :=
  response.status_code = http_status_of r.status ∧
  (r.status = S3StatusEnum.S3_SUCCESS → response.body_freed = false) ∧
  (r.status ≠ S3StatusEnum.S3_SUCCESS → ∀ m, r.error_message = some m →
    response.body = m ∧ response.body_freed = true)

/-- An HTTP server whose client holds a connection that is `CONNECTION_BAD`. -/
def unreachable_server : HttpServer :=
  { port := 9000,
    pg_client := some { conninfo := [],
                        conn := some { fresh_conn with status := ConnStatusType.CONNECTION_BAD } } }

/-- A willing server that holds the object `a/1` and an object whose key is
`a/` followed by 448 times the letter `b`: the listing element of the second
is 511 bytes long. -/
def boundary_conn : PGconn :=
  { status := ConnStatusType.CONNECTION_OK, std_strings := true, rejects := fun _ => false,
    clock := fun _ => ascii "2024-01-01T00:00:00.000Z", stmts := 6, schema := true,
    objects := some [{ path := ascii "a/1", content := ascii "x",
                       content_type := ascii "text/plain", size := 1,
                       last_modified := ascii "2024-01-01T00:00:00.000Z" },
                     { path := ascii "a/" ++ List.replicate 448 98, content := ascii "y",
                       content_type := ascii "text/plain", size := 1,
                       last_modified := ascii "2024-01-01T00:00:00.000Z" }] }

/-- What the server stores for one content byte that went through
`PQescapeBytea` and a bound parameter: an apostrophe twice, any other byte
once. -/
def stored_byte (c : Byte) : List Byte :=
  if c = 39 then [39, 39] else [c]

/-! ## Hash and ETag -/

theorem hash_step_eq (h : Nat) (b : Byte) :
    hash_step (h % 2 ^ 64) b = (h * 33 + b.toNat) % 2 ^ 64 := by
  unfold hash_step
  rw [Nat.shiftLeft_eq]
  norm_num
  omega

theorem foldl_hash_step (bytes : List Byte) (h : Nat) :
    bytes.foldl hash_step (h % 2 ^ 64) =
      bytes.foldl (fun h b => h * 33 + b.toNat) h % 2 ^ 64 := by
  induction bytes generalizing h with
  | nil => simp
  | cons b rest ih =>
    simp only [List.foldl_cons]
    rw [hash_step_eq, ih]

theorem hash_loop_eq_ref (bytes : List Byte) :
    hash_loop bytes = djb2_ref bytes % 2 ^ 64 := by
  unfold hash_loop djb2_ref
  have h := foldl_hash_step bytes 5381
  rwa [show (5381 : Nat) % 2 ^ 64 = 5381 from by norm_num] at h

theorem hash_loop_lt (bytes : List Byte) : hash_loop bytes < 2 ^ 64 := by
  rw [hash_loop_eq_ref]
  exact Nat.mod_lt _ (by norm_num)

theorem ref_foldl_split (post : List Byte) (h : Nat) :
    post.foldl (fun h b => h * 33 + b.toNat) h =
      h * 33 ^ post.length + post.foldl (fun h b => h * 33 + b.toNat) 0 := by
  induction post generalizing h with
  | nil => simp
  | cons b rest ih =>
    simp only [List.foldl_cons, List.length_cons]
    rw [ih (h * 33 + b.toNat), ih (0 * 33 + b.toNat)]
    ring

theorem djb2_ref_one_byte (pre post : List Byte) (a : Byte) :
    djb2_ref (pre ++ a :: post) =
      (djb2_ref pre * 33 + a.toNat) * 33 ^ post.length +
        post.foldl (fun h b => h * 33 + b.toNat) 0 := by
  unfold djb2_ref
  rw [List.foldl_append, List.foldl_cons, ref_foldl_split]

theorem hash_loop_one_byte (pre post : List Byte) (a b : Byte)
    (h : hash_loop (pre ++ a :: post) = hash_loop (pre ++ b :: post)) : a = b := by
  rw [hash_loop_eq_ref, hash_loop_eq_ref, djb2_ref_one_byte, djb2_ref_one_byte] at h
  have h1 : (djb2_ref pre * 33 + a.toNat) * 33 ^ post.length ≡
      (djb2_ref pre * 33 + b.toNat) * 33 ^ post.length [MOD 2 ^ 64] :=
    Nat.ModEq.add_right_cancel' _ h
  have hc : Nat.gcd (2 ^ 64) (33 ^ post.length) = 1 :=
    Nat.Coprime.pow 64 post.length (by norm_num)
  have h2 := Nat.ModEq.cancel_right_of_coprime hc h1
  have h3 : a.toNat ≡ b.toNat [MOD 2 ^ 64] := Nat.ModEq.add_left_cancel' _ h2
  have ha := UInt8.toNat_lt a
  have hb := UInt8.toNat_lt b
  unfold Nat.ModEq at h3
  rw [Nat.mod_eq_of_lt (by omega), Nat.mod_eq_of_lt (by omega)] at h3
  exact UInt8.ext h3

theorem get_hex_hex_digit (d : Nat) (h : d < 16) : get_hex (hex_digit d) = some d := by
  interval_cases d <;> rfl

theorem is_lower_hex_hex_digit (d : Nat) (h : d < 16) : is_lower_hex (hex_digit d) = true := by
  interval_cases d <;> rfl

theorem hex_digit_ne_zero_char (d : Nat) (h0 : 0 < d) (h : d < 16) : hex_digit d ≠ 48 := by
  interval_cases d <;> decide

theorem hex_digits_length_le (k v : Nat) : (hex_digits k v).length ≤ k := by
  induction k generalizing v with
  | zero => simp [hex_digits]
  | succ k ih =>
    unfold hex_digits
    split
    · simp
    · have := ih (v / 16)
      simp only [List.length_append, List.length_singleton]
      omega

theorem hex_value_append (s : CString) (c : Byte) :
    hex_value (s ++ [c]) = hex_value s * 16 + (get_hex c).getD 0 := by
  simp [hex_value, List.foldl_append]

theorem hex_value_hex_digits (k v : Nat) (h : v < 16 ^ k) : hex_value (hex_digits k v) = v := by
  induction k generalizing v with
  | zero =>
    have h0 : v = 0 := by simpa using h
    subst h0
    rfl
  | succ k ih =>
    unfold hex_digits
    split
    · rename_i hv
      simp [hex_value, get_hex_hex_digit v hv]
    · have hd : v / 16 < 16 ^ k := by
        rw [Nat.div_lt_iff_lt_mul (by norm_num)]
        rw [pow_succ] at h
        exact h
      rw [hex_value_append, ih _ hd, get_hex_hex_digit _ (Nat.mod_lt _ (by norm_num))]
      simp only [Option.getD_some]
      omega

theorem hex_digits_lower (k v : Nat) : ∀ c ∈ hex_digits k v, is_lower_hex c = true := by
  induction k generalizing v with
  | zero => simp [hex_digits]
  | succ k ih =>
    unfold hex_digits
    split
    · rename_i hv
      intro c hc
      simp only [List.mem_singleton] at hc
      subst hc
      exact is_lower_hex_hex_digit v hv
    · intro c hc
      rw [List.mem_append] at hc
      rcases hc with hc | hc
      · exact ih _ c hc
      · simp only [List.mem_singleton] at hc
        subst hc
        exact is_lower_hex_hex_digit _ (Nat.mod_lt _ (by norm_num))

theorem hex_digits_head (k v : Nat) (h0 : 0 < v) (h : v < 16 ^ k) :
    ∃ m rest, 0 < m ∧ m < 16 ∧ hex_digits k v = hex_digit m :: rest := by
  induction k generalizing v with
  | zero =>
    have : v = 0 := by simpa using h
    omega
  | succ k ih =>
    unfold hex_digits
    split
    · rename_i hv
      exact ⟨v, [], h0, hv, rfl⟩
    · rename_i hv
      have hd : v / 16 < 16 ^ k := by
        rw [Nat.div_lt_iff_lt_mul (by norm_num)]
        rw [pow_succ] at h
        exact h
      have hp : 0 < v / 16 := Nat.div_pos (by omega) (by norm_num)
      obtain ⟨m, rest, hm0, hm, he⟩ := ih _ hp hd
      exact ⟨m, rest ++ [hex_digit (v % 16)], hm0, hm, by rw [he]; rfl⟩

theorem hex_value_replicate_zero (n : Nat) (s : CString) :
    hex_value (List.replicate n (48 : UInt8) ++ s) = hex_value s := by
  induction n with
  | zero => simp
  | succ n ih =>
    have h48 : get_hex (48 : UInt8) = some 0 := rfl
    simp only [hex_value, List.replicate_succ, List.cons_append, List.foldl_cons, h48] at ih ⊢
    simpa using ih

theorem fmt_08lx_value (v : Nat) (h : v < 2 ^ 64) : hex_value (fmt_08lx v) = v := by
  unfold fmt_08lx
  simp only
  rw [hex_value_replicate_zero]
  exact hex_value_hex_digits 16 v (by norm_num; omega)

theorem fmt_08lx_length_ge (v : Nat) : 8 ≤ (fmt_08lx v).length := by
  unfold fmt_08lx
  simp only [List.length_append, List.length_replicate]
  omega

theorem fmt_08lx_length_le (v : Nat) : (fmt_08lx v).length ≤ 16 := by
  unfold fmt_08lx
  have := hex_digits_length_le 16 v
  simp only [List.length_append, List.length_replicate]
  omega

theorem fmt_08lx_lower (v : Nat) : ∀ c ∈ fmt_08lx v, is_lower_hex c = true := by
  unfold fmt_08lx
  intro c hc
  simp only [List.mem_append] at hc
  rcases hc with hc | hc
  · have := List.eq_of_mem_replicate hc
    subst this
    rfl
  · exact hex_digits_lower 16 v c hc

theorem fmt_08lx_minimal (v : Nat) (h : v < 2 ^ 64) (hl : 8 < (fmt_08lx v).length) :
    (fmt_08lx v).head? ≠ some 48 := by
  unfold fmt_08lx at hl ⊢
  simp only [List.length_append, List.length_replicate] at hl
  have hlen : 8 < (hex_digits 16 v).length := by omega
  have hv : 0 < v := by
    by_contra hv0
    have : v = 0 := by omega
    subst this
    simp [hex_digits] at hlen
  obtain ⟨m, rest, hm0, hm, he⟩ := hex_digits_head 16 v hv (by norm_num; omega)
  have hz : 8 - (hex_digits 16 v).length = 0 := by omega
  show (List.replicate (8 - (hex_digits 16 v).length) (48 : UInt8) ++ hex_digits 16 v).head? ≠
    some 48
  rw [hz]
  simp only [List.replicate_zero, List.nil_append, he, List.head?_cons]
  intro hc
  exact hex_digit_ne_zero_char m hm0 hm (Option.some.inj hc)

theorem fmt_08lx_inj (v w : Nat) (hv : v < 2 ^ 64) (hw : w < 2 ^ 64)
    (h : fmt_08lx v = fmt_08lx w) : v = w := by
  rw [← fmt_08lx_value v hv, ← fmt_08lx_value w hw, h]

theorem etag_of_eq (data : List Byte) :
    etag_of data = ascii "\"" ++ fmt_08lx (hash_loop data) ++ ascii "\"" := by
  unfold etag_of snprintf
  apply List.take_of_length_le
  have := fmt_08lx_length_le (hash_loop data)
  simp only [List.length_append]
  have h1 : (ascii "\"").length = 1 := rfl
  omega

theorem etag_of_inj (d1 d2 : List Byte) (h : etag_of d1 = etag_of d2) :
    hash_loop d1 = hash_loop d2 := by
  rw [etag_of_eq, etag_of_eq] at h
  have h1 := List.append_cancel_right h
  have h2 := List.append_cancel_left h1
  exact fmt_08lx_inj _ _ (hash_loop_lt d1) (hash_loop_lt d2) h2

/-! ## Successful puts -/

theorem put_success_shape (conn : Option PGconn) (bucket key : Option CString)
    (data : Option (List Byte)) (content_type : Option CString)
    (h : (s3_api_put_object conn bucket key data content_type).1.status =
      S3StatusEnum.S3_SUCCESS) :
    ∃ d lastmod, data = some d ∧ d ≠ [] ∧
      (s3_api_put_object conn bucket key data content_type).1 =
        { status := S3StatusEnum.S3_SUCCESS,
          content_type := some (ascii "application/json"),
          data := some (json_response (etag_of d) lastmod),
          data_size := (json_response (etag_of d) lastmod).length,
          error_message := none } := by
  unfold s3_api_put_object at h ⊢
  simp only [s3_result_set_error, s3_result_create] at h ⊢
  split at h
  · simp at h
  · split at h
    · rename_i b k d
      split at h
      · simp at h
      · rename_i hd
        split at h
        · simp at h
        · split at h
          · simp at h
          · split at h
            · simp at h
            · rename_i res hres
              split at h
              · simp at h
              · refine ⟨d, PQgetvalue res 0 0, rfl, ?_, ?_⟩
                · intro h0
                  apply hd
                  simp [h0]
                · simp_all
    · simp at h

theorem json_response_eq (d : List Byte) (lastmod : CString) :
    ∃ tail, json_response (etag_of d) lastmod =
      ascii "\x7b\"ETag\":\"" ++ etag_of d ++ ascii "\",\"LastModified\":\"" ++ tail := by
  refine ⟨(lastmod ++ ascii "\"\x7d").take
    (255 - (ascii "\x7b\"ETag\":\"" ++ etag_of d ++ ascii "\",\"LastModified\":\"").length), ?_⟩
  unfold json_response snprintf
  have hl : (ascii "\x7b\"ETag\":\"" ++ etag_of d ++ ascii "\",\"LastModified\":\"").length ≤
      255 := by
    rw [etag_of_eq]
    have := fmt_08lx_length_le (hash_loop d)
    have h1 : (ascii "\"").length = 1 := rfl
    have h2 : (ascii "\x7b\"ETag\":\"").length = 9 := rfl
    have h3 : (ascii "\",\"LastModified\":\"").length = 18 := rfl
    simp only [List.length_append, h1, h2, h3]
    omega
  have e : ascii "\x7b\"ETag\":\"" ++ etag_of d ++ ascii "\",\"LastModified\":\"" ++ lastmod ++
      ascii "\"\x7d" =
      (ascii "\x7b\"ETag\":\"" ++ etag_of d ++ ascii "\",\"LastModified\":\"") ++
        (lastmod ++ ascii "\"\x7d") := by
    simp only [List.append_assoc]
  rw [e, show 256 - 1 = 255 from rfl, List.take_append_eq_append_take, List.take_of_length_le hl]

/-! ## The bytea codec -/

theorem oct_char_toNat (d : Nat) (h : d < 8) : (oct_char d).toNat = 48 + d := by
  unfold oct_char
  show (48 + d) % 256 = 48 + d
  omega

theorem UInt8_ofNat_toNat (c : Byte) : UInt8.ofNat c.toNat = c := by
  apply UInt8.ext
  show c.toNat % 256 = c.toNat
  have := UInt8.toNat_lt c
  omega

theorem byteain_escape_plain (c : Byte) (rest : CString) (h : c ≠ 92) :
    byteain_escape (c :: rest) = (byteain_escape rest).map (fun out => c :: out) := by
  rw [byteain_escape.eq_def]
  simp only [ne_eq, h, not_false_eq_true, if_true]

theorem byteain_escape_backslashes (rest : CString) :
    byteain_escape (92 :: 92 :: rest) =
      (byteain_escape rest).map (fun out => (92 : UInt8) :: out) := by
  have hf : is_first_oct (92 : UInt8) = false := by decide
  rw [byteain_escape.eq_def]
  simp only [ne_eq, not_true_eq_false, if_false]
  cases rest with
  | nil => simp
  | cons d2 rest2 =>
    cases rest2 with
    | nil => simp
    | cons d3 rest3 => simp [hf]

theorem byteain_escape_octal (d1 d2 d3 : Byte) (rest : CString)
    (h1 : is_first_oct d1 = true) (h2 : is_oct d2 = true) (h3 : is_oct d3 = true) :
    byteain_escape (92 :: d1 :: d2 :: d3 :: rest) =
      (byteain_escape rest).map
        (fun out => UInt8.ofNat (oct_val d1 * 64 + oct_val d2 * 8 + oct_val d3) :: out) := by
  rw [byteain_escape.eq_def]
  simp [h1, h2, h3]

theorem byteain_escape_escape_byte (c : Byte) (rest : CString) :
    byteain_escape (escape_byte true c ++ rest) =
      (byteain_escape rest).map (fun out => stored_byte c ++ out) := by
  have hc := UInt8.toNat_lt c
  unfold escape_byte stored_byte
  simp only [if_true]
  by_cases h1 : c.toNat < 32 ∨ c.toNat > 126
  · have h39 : c ≠ 39 := by
      intro h
      rw [h] at h1
      revert h1
      decide
    have a1 := oct_char_toNat (c.toNat / 64) (by omega)
    have a2 := oct_char_toNat (c.toNat / 8 % 8) (by omega)
    have a3 := oct_char_toNat (c.toNat % 8) (by omega)
    simp only [h1, if_true, h39, if_false, List.cons_append, List.nil_append, List.singleton_append]
    rw [byteain_escape_octal]
    · have e : oct_val (oct_char (c.toNat / 64)) * 64 + oct_val (oct_char (c.toNat / 8 % 8)) * 8 +
          oct_val (oct_char (c.toNat % 8)) = c.toNat := by
        simp only [oct_val, a1, a2, a3]
        omega
      rw [e, UInt8_ofNat_toNat]
    · simp only [is_first_oct, a1, decide_eq_true_eq]
      omega
    · simp only [is_oct, a2, decide_eq_true_eq]
      omega
    · simp only [is_oct, a3, decide_eq_true_eq]
      omega
  · simp only [h1, if_false]
    by_cases h39 : c = 39
    · subst h39
      simp only [if_true, List.cons_append, List.nil_append]
      rw [byteain_escape_plain _ _ (by decide), byteain_escape_plain _ _ (by decide),
        Option.map_map]
      rfl
    · simp only [h39, if_false]
      by_cases h92 : c = 92
      · subst h92
        simp only [if_true, List.cons_append, List.nil_append, List.singleton_append]
        rw [byteain_escape_backslashes]
      · simp only [h92, if_false, List.singleton_append]
        rw [byteain_escape_plain _ _ h92]

theorem byteain_escape_PQescapeBytea (d : List Byte) :
    byteain_escape (PQescapeBytea true d) = some (d.map stored_byte).flatten := by
  induction d with
  | nil => rfl
  | cons c d ih =>
    unfold PQescapeBytea at ih ⊢
    simp only [List.map_cons, List.flatten_cons]
    rw [byteain_escape_escape_byte, ih]
    rfl

theorem PQescapeBytea_not_hex (d : List Byte) (rest : CString) :
    PQescapeBytea true d ≠ 92 :: 120 :: rest := by
  cases d with
  | nil => simp [PQescapeBytea]
  | cons c d =>
    have hc := UInt8.toNat_lt c
    unfold PQescapeBytea escape_byte
    simp only [List.map_cons, List.flatten_cons, if_true]
    by_cases h1 : c.toNat < 32 ∨ c.toNat > 126
    · simp only [h1, if_true, List.cons_append, List.nil_append, List.singleton_append]
      intro h
      have h2 : oct_char (c.toNat / 64) = 120 := by
        have := List.cons.inj h
        exact (List.cons.inj this.2).1
      have a1 := oct_char_toNat (c.toNat / 64) (by omega)
      rw [h2] at a1
      have : (120 : UInt8).toNat = 120 := rfl
      omega
    · simp only [h1, if_false]
      by_cases h39 : c = 39
      · simp [h39]
      · simp only [h39, if_false]
        by_cases h92 : c = 92
        · simp [h92]
        · simp only [h92, if_false, List.singleton_append]
          intro h
          exact h92 (List.cons.inj h).1

theorem byteain_PQescapeBytea (d : List Byte) :
    byteain (PQescapeBytea true d) = some (d.map stored_byte).flatten := by
  rw [byteain.eq_2 _ (fun rest h => PQescapeBytea_not_hex d rest h)]
  exact byteain_escape_PQescapeBytea d

theorem unescape_hex_pairs (bytes : List Byte) :
    unescape_hex
      (bytes.map (fun b => [hex_digit (b.toNat / 16), hex_digit (b.toNat % 16)])).flatten =
      bytes := by
  induction bytes with
  | nil => rfl
  | cons b bytes ih =>
    have hb := UInt8.toNat_lt b
    simp only [List.map_cons, List.flatten_cons, List.cons_append, List.nil_append]
    rw [unescape_hex.eq_3, get_hex_hex_digit _ (by omega), get_hex_hex_digit _ (by omega)]
    simp only [ih]
    have e : b.toNat / 16 * 16 + b.toNat % 16 = b.toNat := by omega
    rw [e, UInt8_ofNat_toNat]

theorem PQunescapeBytea_byteaout (bytes : List Byte) :
    PQunescapeBytea (byteaout bytes) = bytes := by
  unfold byteaout
  rw [show ([92, 120] : CString) ++
      (bytes.map (fun b => [hex_digit (b.toNat / 16), hex_digit (b.toNat % 16)])).flatten =
      92 :: 120 ::
        (bytes.map (fun b => [hex_digit (b.toNat / 16), hex_digit (b.toNat % 16)])).flatten
    from rfl]
  rw [PQunescapeBytea.eq_1]
  exact unescape_hex_pairs bytes

/-! ## Put, then get, on a willing server -/

theorem ensure_s3_schema_ok (c : PGconn) (hs : c.status = ConnStatusType.CONNECTION_OK)
    (h0 : c.rejects c.stmts = false) (h1 : c.rejects (c.stmts + 1) = false) :
    ensure_s3_schema (some c) =
      (0, some { c with stmts := c.stmts + 2, schema := true,
                        objects := some (c.objects.getD []) }) := by
  simp [ensure_s3_schema, execute_query, PQexec, PQstatus, PQresultStatus, server_exec, hs, h0, h1]

theorem upsert_row_filter (r : Row) (rows : List Row) :
    ∃ tl, (upsert_row r rows).filter (fun x => x.path = r.path) = r :: tl := by
  induction rows with
  | nil => exact ⟨[], by simp [upsert_row]⟩
  | cons x xs ih =>
    unfold upsert_row
    split
    · exact ⟨xs.filter (fun x => x.path = r.path), by simp⟩
    · rename_i hx
      obtain ⟨tl, ht⟩ := ih
      exact ⟨tl, by rw [List.filter_cons_of_neg (by simpa using hx)]; exact ht⟩

theorem put_on_willing_server (c : PGconn) (k : CString) (d : List Byte) (ct : Option CString)
    (hs : c.status = ConnStatusType.CONNECTION_OK) (hstd : c.std_strings = true)
    (hr : ∀ n, c.rejects n = false) (hd : d ≠ []) :
    s3_api_put_object (some c) (some (ascii "public")) (some k) (some d) ct =
      ({ status := S3StatusEnum.S3_SUCCESS, content_type := some (ascii "application/json"),
         data := some (json_response (etag_of d) (c.clock (c.stmts + 2))),
         data_size := (json_response (etag_of d) (c.clock (c.stmts + 2))).length,
         error_message := none },
       some { c with stmts := c.stmts + 3, schema := true,
                     objects := some (upsert_row
                       { path := k, content := (d.map stored_byte).flatten,
                         content_type := ct.getD (ascii "application/octet-stream"),
                         size := d.length, last_modified := c.clock (c.stmts + 2) }
                       (c.objects.getD [])) }) := by
  have hl : d.length ≠ 0 := fun h => hd (List.length_eq_zero.mp h)
  unfold s3_api_put_object
  simp only [hl, if_false, ne_eq, not_true_eq_false]
  rw [ensure_s3_schema_ok c hs (hr _) (hr _)]
  simp only [if_false, ne_eq, not_true_eq_false, hstd, PQexecParams, PQexec, server_exec, hs, hr,
    byteain_PQescapeBytea, Bool.false_eq_true, s3_result_create, PQgetvalue]
  rfl

theorem get_on_willing_server (c : PGconn) (k : CString) (rows tl : List Row) (r : Row)
    (hs : c.status = ConnStatusType.CONNECTION_OK) (hr : ∀ n, c.rejects n = false)
    (ho : c.objects = some rows) (hf : rows.filter (fun x => x.path = k) = r :: tl) :
    (s3_api_get_object (some c) (some (ascii "public")) (some k)).1 =
      { status := S3StatusEnum.S3_SUCCESS, content_type := some r.content_type,
        data := some r.content, data_size := r.content.length, error_message := none } := by
  unfold s3_api_get_object
  simp only [if_false, ne_eq, not_true_eq_false]
  rw [ensure_s3_schema_ok c hs (hr _) (hr _)]
  simp only [if_false, ne_eq, not_true_eq_false, PQexecParams, PQexec, server_exec, hs, hr, ho,
    Bool.false_eq_true, s3_result_create, PQgetvalue, PQntuples, Option.getD_some, hf]
  simp [PQunescapeBytea_byteaout]

theorem get_after_put (c : PGconn) (k : CString) (d : List Byte) (ct : Option CString)
    (hs : c.status = ConnStatusType.CONNECTION_OK) (hstd : c.std_strings = true)
    (hr : ∀ n, c.rejects n = false) (hd : d ≠ []) :
    (s3_api_get_object
        (s3_api_put_object (some c) (some (ascii "public")) (some k) (some d) ct).2
        (some (ascii "public")) (some k)).1 =
      { status := S3StatusEnum.S3_SUCCESS,
        content_type := some (ct.getD (ascii "application/octet-stream")),
        data := some (d.map stored_byte).flatten,
        data_size := (d.map stored_byte).flatten.length,
        error_message := none } := by
  rw [put_on_willing_server c k d ct hs hstd hr hd]
  obtain ⟨tl, ht⟩ := upsert_row_filter
    { path := k, content := (d.map stored_byte).flatten,
      content_type := ct.getD (ascii "application/octet-stream"),
      size := d.length, last_modified := c.clock (c.stmts + 2) } (c.objects.getD [])
  exact get_on_willing_server
    { c with stmts := c.stmts + 3, schema := true,
             objects := some (upsert_row
               { path := k, content := (d.map stored_byte).flatten,
                 content_type := ct.getD (ascii "application/octet-stream"),
                 size := d.length, last_modified := c.clock (c.stmts + 2) }
               (c.objects.getD [])) }
    k _ tl _ hs hr rfl ht

theorem stored_without_apostrophe (d : List Byte) (h : (39 : UInt8) ∉ d) :
    (d.map stored_byte).flatten = d := by
  induction d with
  | nil => rfl
  | cons c d ih =>
    have hc : c ≠ 39 := fun e => h (by rw [e]; exact List.mem_cons_self _ _)
    have hd : (39 : UInt8) ∉ d := fun e => h (List.mem_cons_of_mem _ e)
    simp only [List.map_cons, List.flatten_cons, stored_byte, hc, if_false, ih hd,
      List.singleton_append]

theorem stored_length_le (d : List Byte) : d.length ≤ (d.map stored_byte).flatten.length := by
  induction d with
  | nil => simp
  | cons c d ih =>
    simp only [List.map_cons, List.flatten_cons, List.length_append, List.length_cons]
    have h1 : 1 ≤ (stored_byte c).length := by
      unfold stored_byte
      split <;> simp
    omega

theorem stored_with_apostrophe (d : List Byte) (h : (39 : UInt8) ∈ d) :
    d.length < (d.map stored_byte).flatten.length := by
  induction d with
  | nil => simp at h
  | cons c d ih =>
    simp only [List.map_cons, List.flatten_cons, List.length_append, List.length_cons]
    by_cases hc : c = 39
    · have := stored_length_le d
      simp only [stored_byte, hc, if_true, List.length_cons, List.length_nil]
      omega
    · have hd : (39 : UInt8) ∈ d := by
        rcases List.mem_cons.mp h with e | e
        · exact absurd e.symm hc
        · exact e
      have := ih hd
      simp only [stored_byte, hc, if_false, List.length_cons, List.length_nil]
      omega

/-! ## The filter loop always ends -/

theorem strchr_some (s : CString) (c : Byte) (t : CString) (h : strchr s c = some t) :
    t.length ≤ s.length ∧ ∃ rest, t = c :: rest := by
  induction s with
  | nil => simp [strchr] at h
  | cons b s ih =>
    unfold strchr at h
    split at h
    · rename_i hb
      have ht : b :: s = t := Option.some.inj h
      subst ht
      exact ⟨Nat.le_refl _, s, by rw [hb]⟩
    · obtain ⟨hl, hr⟩ := ih h
      exact ⟨by simp only [List.length_cons]; omega, hr⟩

theorem next_obj_start_shorter (obj_start obj_end t : CString)
    (h1 : strchr obj_start 125 = some obj_end) (h2 : strchr obj_end 123 = some t) :
    t.length < obj_start.length := by
  obtain ⟨hl, rest, hr⟩ := strchr_some _ _ _ h1
  subst hr
  have h3 : strchr rest 123 = some t := by
    unfold strchr at h2
    simpa using h2
  have := (strchr_some _ _ _ h3).1
  simp only [List.length_cons] at hl
  omega

theorem filter_loop_some (pfx : CString) (fuel : Nat) (start : Option CString)
    (filtered : List Byte) (count : Nat)
    (h : ∀ s, start = some s → s.length < fuel) :
    ∃ r, filter_loop pfx fuel start filtered count = some r := by
  induction fuel generalizing start filtered count with
  | zero =>
    cases start with
    | none => exact ⟨_, by unfold filter_loop; rfl⟩
    | some s => exact absurd (h s rfl) (Nat.not_lt_zero _)
  | succ fuel ih =>
    cases start with
    | none => exact ⟨_, by unfold filter_loop; rfl⟩
    | some obj_start =>
      unfold filter_loop
      cases h1 : strchr obj_start 125 with
      | none => exact ⟨_, rfl⟩
      | some obj_end =>
        have hnext : ∀ f c, ∃ r, filter_loop pfx fuel (strchr obj_end 123) f c = some r := by
          intro f c
          apply ih
          intro t ht
          have := next_obj_start_shorter obj_start obj_end t h1 ht
          have := h obj_start rfl
          omega
        simp only
        split
        · exact hnext _ _
        · split
          · exact hnext _ _
          · split
            · exact hnext _ _
            · split
              · exact hnext _ _
              · split
                · exact hnext _ _
                · exact hnext _ _

theorem filter_by_pfx_some (pfx json : CString) : ∃ body, filter_by_pfx pfx json = some body := by
  unfold filter_by_pfx
  obtain ⟨r, hr⟩ := filter_loop_some pfx (json.length + 1) (strchr json 123) (ascii "[") 0
    (by
      intro s hs
      have := (strchr_some _ _ _ hs).1
      omega)
  exact ⟨r.1 ++ ascii "]", by rw [hr]; rfl⟩

theorem handle_list_objects_some (server : HttpServer) (connection : MHD_Connection) :
    ∃ response, (handle_list_objects server connection).1 = some response := by
  unfold handle_list_objects
  simp only
  split
  · exact ⟨_, rfl⟩
  · split
    · exact ⟨_, rfl⟩
    · split
      · split
        · rename_i p json _ _ _
          obtain ⟨body, hb⟩ := filter_by_pfx_some p json
          exact ⟨_, by rw [hb]; rfl⟩
        · exact ⟨_, rfl⟩
      · exact ⟨_, rfl⟩

/-! ## The claims -/

/-- C1 (what the code does instead): on a reachable server that refuses no
statement and has `standard_conforming_strings` on, `s3_api_put_object` of a
non-empty content succeeds and the following `s3_api_get_object` of the same
key succeeds with the content type that was put, but its data is the content
with every apostrophe doubled: equal to the content when it holds no
apostrophe, longer than the content when it holds one.  `PQescapeBytea`
doubles the apostrophe for an SQL literal, and the text is then bound as a
parameter, which the server reads without undoing the doubling. -/
theorem put_then_get_doubles_apostrophes (c : PGconn) (k : CString) (d : List Byte)
    (ct : Option CString) (hs : c.status = ConnStatusType.CONNECTION_OK)
    (hstd : c.std_strings = true) (hr : ∀ n, c.rejects n = false) (hd : d ≠ []) :
    (s3_api_put_object (some c) (some (ascii "public")) (some k) (some d) ct).1.status =
      S3StatusEnum.S3_SUCCESS ∧
    (s3_api_get_object
        (s3_api_put_object (some c) (some (ascii "public")) (some k) (some d) ct).2
        (some (ascii "public")) (some k)).1 =
      { status := S3StatusEnum.S3_SUCCESS,
        content_type := some (ct.getD (ascii "application/octet-stream")),
        data := some (d.map stored_byte).flatten,
        data_size := (d.map stored_byte).flatten.length,
        error_message := none } ∧
    ((39 : UInt8) ∉ d → (d.map stored_byte).flatten = d) ∧
    ((39 : UInt8) ∈ d → d.length < (d.map stored_byte).flatten.length) := by
  refine ⟨?_, get_after_put c k d ct hs hstd hr hd, stored_without_apostrophe d,
    stored_with_apostrophe d⟩
  rw [put_on_willing_server c k d ct hs hstd hr hd]

/-- C1 at the failing input: the four bytes `it's` come back as the five bytes
`it''s`. -/
theorem put_then_get_doubles_apostrophes_witness :
    (s3_api_get_object
        (s3_api_put_object (some fresh_conn) (some (ascii "public")) (some (ascii "a.txt"))
          (some (ascii "it's")) (some (ascii "text/plain"))).2
        (some (ascii "public")) (some (ascii "a.txt"))).1 =
      { status := S3StatusEnum.S3_SUCCESS, content_type := some (ascii "text/plain"),
        data := some (ascii "it''s"), data_size := 5, error_message := none } ∧
    (ascii "it's").length < ((ascii "it's").map stored_byte).flatten.length :=
  have h := put_then_get_doubles_apostrophes fresh_conn (ascii "a.txt") (ascii "it's")
    (some (ascii "text/plain")) rfl rfl (fun _ => rfl) (by decide)
  ⟨h.2.1, h.2.2.2 (by decide)⟩

/-- C2: the ETag is a function of the content alone.  Whenever two calls of
`s3_api_put_object` with the same content succeed, whatever their connections,
store states, buckets, keys and content types, both payloads start with
`{"ETag":"` followed by the same ETag `etag_of d` and `","LastModified":"`. -/
theorem etag_function_of_content (conn1 conn2 : Option PGconn)
    (bucket1 bucket2 key1 key2 ct1 ct2 : Option CString) (data : Option (List Byte))
    (h1 : (s3_api_put_object conn1 bucket1 key1 data ct1).1.status = S3StatusEnum.S3_SUCCESS)
    (h2 : (s3_api_put_object conn2 bucket2 key2 data ct2).1.status = S3StatusEnum.S3_SUCCESS) :
    ∃ d tail1 tail2, data = some d ∧
      (s3_api_put_object conn1 bucket1 key1 data ct1).1.data =
        some (ascii "\x7b\"ETag\":\"" ++ etag_of d ++ ascii "\",\"LastModified\":\"" ++ tail1) ∧
      (s3_api_put_object conn2 bucket2 key2 data ct2).1.data =
        some (ascii "\x7b\"ETag\":\"" ++ etag_of d ++ ascii "\",\"LastModified\":\"" ++ tail2) := by
  obtain ⟨d1, l1, hd1, _, e1⟩ := put_success_shape conn1 bucket1 key1 data ct1 h1
  obtain ⟨d2, l2, hd2, _, e2⟩ := put_success_shape conn2 bucket2 key2 data ct2 h2
  have hd : d2 = d1 := by
    rw [hd1] at hd2
    exact (Option.some.inj hd2).symm
  subst hd
  obtain ⟨t1, ht1⟩ := json_response_eq d2 l1
  obtain ⟨t2, ht2⟩ := json_response_eq d2 l2
  refine ⟨d2, t1, t2, hd1, ?_, ?_⟩
  · rw [e1, ht1]
  · rw [e2, ht2]

/-- C2 on two puts of `hello`, under different keys, content types and
statement counters. -/
theorem etag_function_of_content_witness :
    ∃ d tail1 tail2, some (ascii "hello") = some d ∧
      (s3_api_put_object (some fresh_conn) (some (ascii "public")) (some (ascii "a.txt"))
          (some (ascii "hello")) (some (ascii "text/plain"))).1.data =
        some (ascii "\x7b\"ETag\":\"" ++ etag_of d ++ ascii "\",\"LastModified\":\"" ++ tail1) ∧
      (s3_api_put_object (some { fresh_conn with stmts := 7 }) (some (ascii "public"))
          (some (ascii "b.bin")) (some (ascii "hello")) none).1.data =
        some (ascii "\x7b\"ETag\":\"" ++ etag_of d ++ ascii "\",\"LastModified\":\"" ++ tail2) :=
  etag_function_of_content (some fresh_conn) (some { fresh_conn with stmts := 7 })
    (some (ascii "public")) (some (ascii "public")) (some (ascii "a.txt")) (some (ascii "b.bin"))
    (some (ascii "text/plain")) none (some (ascii "hello")) (by decide) (by decide)

/-- C3: changing one byte changes the ETag.  Two contents of the same length
that differ at position `i` and nowhere else get different ETags (the hash is
taken modulo 2 ^ 64, where multiplying by 33 is invertible). -/
theorem etag_changes_with_one_byte (d1 d2 : List Byte) (i : Nat)
    (hlen : d1.length = d2.length) (hi : i < d1.length)
    (hdiff : d1[i]? ≠ d2[i]?) (hsame : ∀ j, j ≠ i → d1[j]? = d2[j]?) :
    etag_of d1 ≠ etag_of d2 := by
  have hi2 : i < d2.length := by omega
  have htake : d1.take i = d2.take i := by
    apply List.ext_getElem?
    intro j
    by_cases hj : j < i
    · rw [List.getElem?_take_of_lt hj, List.getElem?_take_of_lt hj]
      exact hsame j (by omega)
    · rw [List.getElem?_eq_none (by simp; omega), List.getElem?_eq_none (by simp; omega)]
  have hdrop : d1.drop (i + 1) = d2.drop (i + 1) := by
    apply List.ext_getElem?
    intro j
    rw [List.getElem?_drop, List.getElem?_drop]
    exact hsame _ (by omega)
  have e1 : d1 = d1.take i ++ d1[i] :: d1.drop (i + 1) := by
    rw [← List.drop_eq_getElem_cons hi, List.take_append_drop]
  have e2 : d2 = d1.take i ++ d2[i] :: d1.drop (i + 1) := by
    rw [htake, hdrop, ← List.drop_eq_getElem_cons hi2, List.take_append_drop]
  intro he
  have hh := etag_of_inj d1 d2 he
  rw [e1, e2] at hh
  have hab := hash_loop_one_byte _ _ _ _ hh
  apply hdiff
  rw [List.getElem?_eq_getElem hi, List.getElem?_eq_getElem hi2, hab]

/-- C3 on `hello` and `hallo`, which differ at position 1 only. -/
theorem etag_changes_with_one_byte_witness :
    etag_of (ascii "hello") ≠ etag_of (ascii "hallo") :=
  etag_changes_with_one_byte (ascii "hello") (ascii "hallo") 1 (by decide) (by decide)
    (by decide) (by
      intro j hj
      match j with
      | 0 => rfl
      | 1 => exact absurd rfl hj
      | 2 => rfl
      | 3 => rfl
      | 4 => rfl
      | _ + 5 => rfl)

/-- C4: the shift-and-add loop of `s3_api_put_object` computes the reference
hash `h = 5381; h = h * 33 + byte` modulo 2 ^ 64, and the ETag is that value
between two quote characters, written with lowercase hexadecimal digits only,
denoting exactly that value, at least 8 digits long and without a leading zero
beyond the eighth digit; for `hello` the digits are `310f923099`. -/
theorem etag_hash_is_djb2 (data : List Byte) :
    hash_loop data = djb2_ref data % 2 ^ 64 ∧
    etag_of data = ascii "\"" ++ fmt_08lx (djb2_ref data % 2 ^ 64) ++ ascii "\"" ∧
    (∀ c ∈ fmt_08lx (djb2_ref data % 2 ^ 64), is_lower_hex c = true) ∧
    hex_value (fmt_08lx (djb2_ref data % 2 ^ 64)) = djb2_ref data % 2 ^ 64 ∧
    8 ≤ (fmt_08lx (djb2_ref data % 2 ^ 64)).length ∧
    (8 < (fmt_08lx (djb2_ref data % 2 ^ 64)).length →
      (fmt_08lx (djb2_ref data % 2 ^ 64)).head? ≠ some 48) ∧
    fmt_08lx (hash_loop (ascii "hello")) = ascii "310f923099" := by
  have hlt : djb2_ref data % 2 ^ 64 < 2 ^ 64 := Nat.mod_lt _ (by norm_num)
  refine ⟨hash_loop_eq_ref data, ?_, fmt_08lx_lower _, fmt_08lx_value _ hlt,
    fmt_08lx_length_ge _, fmt_08lx_minimal _ hlt, by decide⟩
  rw [etag_of_eq, hash_loop_eq_ref]

/-- C5 (what the code does instead): in the payload of every successful
`s3_api_put_object` the text `{"ETag":"` is followed by a second quote
character, then the hexadecimal digits, then two quote characters: the ETag
buffer already carries its own quotes and is pasted between the quotes of the
JSON text. -/
theorem put_payload_doubles_quotes (conn : Option PGconn) (bucket key : Option CString)
    (data : Option (List Byte)) (content_type : Option CString)
    (h : (s3_api_put_object conn bucket key data content_type).1.status =
      S3StatusEnum.S3_SUCCESS) :
    ∃ d tail, data = some d ∧
      (s3_api_put_object conn bucket key data content_type).1.data =
        some (ascii "\x7b\"ETag\":\"\"" ++ fmt_08lx (hash_loop d) ++
          ascii "\"\",\"LastModified\":\"" ++ tail) := by
  obtain ⟨d, l, hd, _, e⟩ := put_success_shape conn bucket key data content_type h
  obtain ⟨t, ht⟩ := json_response_eq d l
  refine ⟨d, t, hd, ?_⟩
  rw [e, ht, etag_of_eq]
  simp only [List.append_assoc]
  rfl

/-- C5 at the failing input: the payload of a put of `hello`. -/
theorem put_payload_doubles_quotes_witness :
    (s3_api_put_object (some fresh_conn) (some (ascii "public")) (some (ascii "a.txt"))
        (some (ascii "hello")) (some (ascii "text/plain"))).1.data =
      some (ascii
        "\x7b\"ETag\":\"\"310f923099\"\",\"LastModified\":\"2024-01-01T00:00:00.000Z\"\x7d") ∧
    ∃ d tail, some (ascii "hello") = some d ∧
      (s3_api_put_object (some fresh_conn) (some (ascii "public")) (some (ascii "a.txt"))
          (some (ascii "hello")) (some (ascii "text/plain"))).1.data =
        some (ascii "\x7b\"ETag\":\"\"" ++ fmt_08lx (hash_loop d) ++
          ascii "\"\",\"LastModified\":\"" ++ tail) :=
  ⟨by decide,
   put_payload_doubles_quotes (some fresh_conn) (some (ascii "public")) (some (ascii "a.txt"))
     (some (ascii "hello")) (some (ascii "text/plain")) (by decide)⟩

/-- C6 as stated fails: with bucket `other` and empty content
`s3_api_put_object` answers InvalidInput, not NotFound. -/
theorem other_bucket_empty_content_invalid :
    ascii "other" ≠ ascii "public" ∧
    (s3_api_put_object (some fresh_conn) (some (ascii "other")) (some (ascii "k"))
        (some []) (some (ascii "text/plain"))).1.status ≠ S3StatusEnum.S3_ERROR_NOT_FOUND := by
  decide

/-- C6, amended: for a bucket name other than `public` and a connection handle,
`s3_api_list_objects` returns NotFound, `s3_api_get_object` and
`s3_api_delete_object` return NotFound for every key that is present, and
`s3_api_put_object` returns NotFound for every key that is present and every
content that is present and not empty; the connection is left as it was. -/
theorem other_bucket_not_found (c : PGconn) (b k : CString) (d : List Byte)
    (ct : Option CString) (hb : b ≠ ascii "public") (hd : d ≠ []) :
    s3_api_list_objects (some c) (some b) =
      (s3_result_set_error s3_result_create S3StatusEnum.S3_ERROR_NOT_FOUND
        (some (ascii "Bucket not found")), some c) ∧
    s3_api_get_object (some c) (some b) (some k) =
      (s3_result_set_error s3_result_create S3StatusEnum.S3_ERROR_NOT_FOUND
        (some (ascii "Bucket not found")), some c) ∧
    s3_api_put_object (some c) (some b) (some k) (some d) ct =
      (s3_result_set_error s3_result_create S3StatusEnum.S3_ERROR_NOT_FOUND
        (some (ascii "Bucket not found")), some c) ∧
    s3_api_delete_object (some c) (some b) (some k) =
      (s3_result_set_error s3_result_create S3StatusEnum.S3_ERROR_NOT_FOUND
        (some (ascii "Bucket not found")), some c) := by
  have hl : d.length ≠ 0 := by
    intro h
    exact hd (List.length_eq_zero.mp h)
  refine ⟨?_, ?_, ?_, ?_⟩
  · simp [s3_api_list_objects, hb]
  · simp [s3_api_get_object, hb]
  · simp [s3_api_put_object, hb, hd]
  · simp [s3_api_delete_object, hb]

/-- C6, amended, on the bucket name `other`. -/
theorem other_bucket_not_found_witness :
    (s3_api_list_objects (some fresh_conn) (some (ascii "other"))).1.status =
      S3StatusEnum.S3_ERROR_NOT_FOUND ∧
    (s3_api_get_object (some fresh_conn) (some (ascii "other")) (some (ascii "k"))).1.status =
      S3StatusEnum.S3_ERROR_NOT_FOUND ∧
    (s3_api_put_object (some fresh_conn) (some (ascii "other")) (some (ascii "k"))
      (some (ascii "x")) none).1.status = S3StatusEnum.S3_ERROR_NOT_FOUND ∧
    (s3_api_delete_object (some fresh_conn) (some (ascii "other")) (some (ascii "k"))).1.status =
      S3StatusEnum.S3_ERROR_NOT_FOUND := by
  have h := other_bucket_not_found fresh_conn (ascii "other") (ascii "k") (ascii "x") none
    (by decide) (by decide)
  refine ⟨?_, ?_, ?_, ?_⟩
  · rw [h.1]; rfl
  · rw [h.2.1]; rfl
  · rw [h.2.2.1]; rfl
  · rw [h.2.2.2]; rfl

/-- C7: with empty content (size 0, the data pointer NULL or not),
`s3_api_put_object` returns InvalidInput with an error message, no data and no
content type, for every bucket, key and content type, and hands the connection
back untouched: no statement was counted and the table is the same. -/
theorem put_empty_content_invalid (c : PGconn) (bucket key content_type : Option CString) :
    s3_api_put_object (some c) bucket key (some []) content_type =
      ({ status := S3StatusEnum.S3_ERROR_INVALID_INPUT, content_type := none, data := none,
         data_size := 0,
         error_message := some (ascii "Bucket name, key, and data are required") }, some c) ∧
    s3_api_put_object (some c) bucket key none content_type =
      ({ status := S3StatusEnum.S3_ERROR_INVALID_INPUT, content_type := none, data := none,
         data_size := 0,
         error_message := some (ascii "Bucket name, key, and data are required") }, some c) := by
  cases bucket <;> cases key <;>
    simp [s3_api_put_object, s3_result_set_error, s3_result_create]

/-- C8 as stated fails: an empty bucket name is answered with NotFound, and an
empty key is accepted: the put succeeds and a row with the empty path is
stored. -/
theorem empty_key_or_bucket_not_invalid :
    (s3_api_put_object (some fresh_conn) (some []) (some (ascii "k")) (some (ascii "x"))
        none).1.status = S3StatusEnum.S3_ERROR_NOT_FOUND ∧
    (s3_api_put_object (some fresh_conn) (some (ascii "public")) (some []) (some (ascii "x"))
        none).1.status = S3StatusEnum.S3_SUCCESS ∧
    ((s3_api_put_object (some fresh_conn) (some (ascii "public")) (some []) (some (ascii "x"))
        none).2.bind (fun c => c.objects)) =
      some [{ path := [], content := ascii "x",
              content_type := ascii "application/octet-stream", size := 1,
              last_modified := ascii "2024-01-01T00:00:00.000Z" }] := by
  decide

/-- C8, amended: for non-empty content, `s3_api_put_object` with a NULL key or
a NULL bucket returns InvalidInput and leaves the connection untouched; with
the empty string as bucket name it returns NotFound and leaves the connection
untouched. -/
theorem put_missing_key_or_bucket (c : PGconn) (d : List Byte) (ct : Option CString)
    (hd : d ≠ []) :
    (∀ bucket, s3_api_put_object (some c) bucket none (some d) ct =
      (s3_result_set_error s3_result_create S3StatusEnum.S3_ERROR_INVALID_INPUT
        (some (ascii "Bucket name, key, and data are required")), some c)) ∧
    (∀ key, s3_api_put_object (some c) none key (some d) ct =
      (s3_result_set_error s3_result_create S3StatusEnum.S3_ERROR_INVALID_INPUT
        (some (ascii "Bucket name, key, and data are required")), some c)) ∧
    (∀ k, s3_api_put_object (some c) (some []) (some k) (some d) ct =
      (s3_result_set_error s3_result_create S3StatusEnum.S3_ERROR_NOT_FOUND
        (some (ascii "Bucket not found")), some c)) := by
  have hne : ([] : CString) ≠ ascii "public" := by decide
  refine ⟨?_, ?_, ?_⟩
  · intro bucket
    cases bucket <;> simp [s3_api_put_object]
  · intro key
    cases key <;> simp [s3_api_put_object]
  · intro k
    simp [s3_api_put_object, hd, hne]

/-- C8, amended, on the content `x` and a server that holds one object. -/
theorem put_missing_key_or_bucket_witness :
    (s3_api_put_object (some stocked_conn) (some (ascii "public")) none (some (ascii "x"))
        none) =
      (s3_result_set_error s3_result_create S3StatusEnum.S3_ERROR_INVALID_INPUT
        (some (ascii "Bucket name, key, and data are required")), some stocked_conn) ∧
    (s3_api_put_object (some stocked_conn) none (some (ascii "k")) (some (ascii "x"))
        none) =
      (s3_result_set_error s3_result_create S3StatusEnum.S3_ERROR_INVALID_INPUT
        (some (ascii "Bucket name, key, and data are required")), some stocked_conn) ∧
    (s3_api_put_object (some stocked_conn) (some []) (some (ascii "k")) (some (ascii "x"))
        none) =
      (s3_result_set_error s3_result_create S3StatusEnum.S3_ERROR_NOT_FOUND
        (some (ascii "Bucket not found")), some stocked_conn) :=
  have h := put_missing_key_or_bucket stocked_conn (ascii "x") none (by decide)
  ⟨h.1 _, h.2.1 _, h.2.2 _⟩

/-- C9: whenever the server executes the delete statement,
`s3_api_delete_object` on bucket `public` returns Success with payload `{}`,
data_size 2, content type `application/json` and no error message, whether or
not a row with this key was stored, and afterwards no row has this key. -/
theorem delete_succeeds_and_removes (c : PGconn) (key : CString)
    (h : PQresultStatus (PQexec c (Stmt.delete_object key)).1 =
      ExecStatusType.PGRES_TUPLES_OK) :
    (s3_api_delete_object (some c) (some (ascii "public")) (some key)).1 =
      { status := S3StatusEnum.S3_SUCCESS, content_type := some (ascii "application/json"),
        data := some (ascii "\x7b\x7d"), data_size := 2, error_message := none } ∧
    ∃ c1 rows, (s3_api_delete_object (some c) (some (ascii "public")) (some key)).2 = some c1 ∧
      c1.objects = some rows ∧ ∀ r ∈ rows, r.path ≠ key := by
  unfold PQexec at h
  unfold s3_api_delete_object PQexecParams PQexec
  simp only [s3_result_set_error, s3_result_create]
  by_cases hs : c.status = ConnStatusType.CONNECTION_OK
  · by_cases hr : c.rejects c.stmts = true
    · simp [hs, hr, PQresultStatus, fatal] at h
    · cases ho : c.objects with
      | none => simp [hs, hr, PQresultStatus, fatal, server_exec, ho] at h
      | some rows =>
        simp [hs, hr, server_exec, ho]
  · simp [hs, PQresultStatus] at h

/-- C9 on a server that holds `a.txt`: deleting `a.txt` and deleting `missing`. -/
theorem delete_succeeds_and_removes_witness :
    ((s3_api_delete_object (some stocked_conn) (some (ascii "public"))
        (some (ascii "a.txt"))).1 =
      { status := S3StatusEnum.S3_SUCCESS, content_type := some (ascii "application/json"),
        data := some (ascii "\x7b\x7d"), data_size := 2, error_message := none } ∧
    ∃ c1 rows,
      (s3_api_delete_object (some stocked_conn) (some (ascii "public"))
        (some (ascii "a.txt"))).2 = some c1 ∧
      c1.objects = some rows ∧ ∀ r ∈ rows, r.path ≠ ascii "a.txt") ∧
    ((s3_api_delete_object (some stocked_conn) (some (ascii "public"))
        (some (ascii "missing"))).1 =
      { status := S3StatusEnum.S3_SUCCESS, content_type := some (ascii "application/json"),
        data := some (ascii "\x7b\x7d"), data_size := 2, error_message := none } ∧
    ∃ c1 rows,
      (s3_api_delete_object (some stocked_conn) (some (ascii "public"))
        (some (ascii "missing"))).2 = some c1 ∧
      c1.objects = some rows ∧ ∀ r ∈ rows, r.path ≠ ascii "missing") :=
  ⟨delete_succeeds_and_removes stocked_conn (ascii "a.txt") (by decide),
   delete_succeeds_and_removes stocked_conn (ascii "missing") (by decide)⟩

/-- C10 (code at the failing input): the only stored key is `a}b`, which starts
with the requested `a`.  The unfiltered listing shows the object, but the body
for `a` is `[]`: the filter takes the brace inside the key for the end of
the object. -/
theorem listing_filter_loses_key_with_brace :
    (ascii "a").isPrefixOf (ascii "a\x7db") = true ∧
    (handle_list_objects
        { port := 9000,
          pg_client := some { conninfo := [], conn :=
            (s3_api_put_object (some fresh_conn) (some (ascii "public"))
              (some (ascii "a\x7db")) (some (ascii "x")) none).2 } }
        { pfx := none }).1 =
      some { status_code := 200,
             body := ascii
               "[\x7b\"Key\":\"a\x7db\",\"Size\":1,\"LastModified\":\"2024-01-01T00:00:00.000Z\"\x7d]",
             content_type := some (ascii "application/json") } ∧
    (handle_list_objects
        { port := 9000,
          pg_client := some { conninfo := [], conn :=
            (s3_api_put_object (some fresh_conn) (some (ascii "public"))
              (some (ascii "a\x7db")) (some (ascii "x")) none).2 } }
        { pfx := some (ascii "a") }).1 =
      some { status_code := 200, body := ascii "[]",
             content_type := some (ascii "application/json") } := by
  decide

/-! ## Claims C11 to C20: helper lemmas -/

theorem put_on_willing_server_bytes (c : PGconn) (k : CString) (d bytes : List Byte)
    (ct : Option CString) (hs : c.status = ConnStatusType.CONNECTION_OK)
    (hr : ∀ n, c.rejects n = false) (hd : d ≠ [])
    (hb : byteain (PQescapeBytea c.std_strings d) = some bytes) :
    s3_api_put_object (some c) (some (ascii "public")) (some k) (some d) ct =
      ({ status := S3StatusEnum.S3_SUCCESS, content_type := some (ascii "application/json"),
         data := some (json_response (etag_of d) (c.clock (c.stmts + 2))),
         data_size := (json_response (etag_of d) (c.clock (c.stmts + 2))).length,
         error_message := none },
       some { c with stmts := c.stmts + 3, schema := true,
                     objects := some (upsert_row
                       { path := k, content := bytes,
                         content_type := ct.getD (ascii "application/octet-stream"),
                         size := d.length, last_modified := c.clock (c.stmts + 2) }
                       (c.objects.getD [])) }) := by
  have hl : d.length ≠ 0 := fun h => hd (List.length_eq_zero.mp h)
  unfold s3_api_put_object
  simp only [hl, if_false, ne_eq, not_true_eq_false]
  rw [ensure_s3_schema_ok c hs (hr _) (hr _)]
  simp only [if_false, ne_eq, not_true_eq_false, PQexecParams, PQexec, server_exec, hs, hr,
    hb, Bool.false_eq_true, s3_result_create, PQgetvalue]
  rfl

theorem put_on_willing_server_rejected (c : PGconn) (k : CString) (d : List Byte)
    (ct : Option CString) (hs : c.status = ConnStatusType.CONNECTION_OK)
    (hr : ∀ n, c.rejects n = false) (hd : d ≠ [])
    (hb : byteain (PQescapeBytea c.std_strings d) = none) :
    (s3_api_put_object (some c) (some (ascii "public")) (some k) (some d) ct).1.status =
      S3StatusEnum.S3_ERROR_EXECUTION := by
  have hl : d.length ≠ 0 := fun h => hd (List.length_eq_zero.mp h)
  unfold s3_api_put_object
  simp only [hl, if_false, ne_eq, not_true_eq_false]
  rw [ensure_s3_schema_ok c hs (hr _) (hr _)]
  simp [PQexecParams, PQexec, server_exec, hs, hr, hb, s3_result_create, s3_result_set_error,
    fatal]

theorem filter_path_of_missing (rows : List Row) (key : CString)
    (h : ∀ r ∈ rows, r.path ≠ key) : rows.filter (fun r => r.path = key) = [] := by
  rw [List.filter_eq_nil_iff]
  intro r hr
  simpa using h r hr

theorem get_missing_on_willing_server (c : PGconn) (key : CString)
    (hs : c.status = ConnStatusType.CONNECTION_OK) (hr : ∀ n, c.rejects n = false)
    (hm : ∀ r ∈ c.objects.getD [], r.path ≠ key) :
    s3_api_get_object (some c) (some (ascii "public")) (some key) =
      ({ status := S3StatusEnum.S3_ERROR_NOT_FOUND, content_type := none, data := none,
         data_size := 0, error_message := some (ascii "Object not found") },
       some { c with stmts := c.stmts + 3, schema := true,
                     objects := some (c.objects.getD []) }) := by
  unfold s3_api_get_object
  simp only [if_false, ne_eq, not_true_eq_false]
  rw [ensure_s3_schema_ok c hs (hr _) (hr _)]
  simp [PQexecParams, PQexec, server_exec, hs, hr, s3_result_create, s3_result_set_error,
    PQntuples, filter_path_of_missing _ key hm]

theorem upsert_row_mem (r : Row) (rows : List Row) : r ∈ upsert_row r rows := by
  induction rows with
  | nil => simp [upsert_row]
  | cons x xs ih =>
    unfold upsert_row
    split
    · exact List.mem_cons_self _ _
    · exact List.mem_cons_of_mem _ ih

/-! ## The claims C11 to C20 -/

/-- C12: on a reachable server that refuses no statement, for a key that no row
of the table carries, `s3_api_get_object` on bucket `public` returns NotFound
with the message `Object not found`, no data and no content type, and
`handle_get_object`, called for the URL `/public/` followed by the key, answers
with status 404; the body it queues is that message, yet by reference only: the
handler frees the message before the response is sent, so that the bytes the
client gets are read from freed memory. -/
theorem get_missing_body_is_freed (c : PGconn) (key conninfo : CString) (port : Nat)
    (hs : c.status = ConnStatusType.CONNECTION_OK) (hr : ∀ n, c.rejects n = false)
    (hm : ∀ r ∈ c.objects.getD [], r.path ≠ key) :
    (s3_api_get_object (some c) (some (ascii "public")) (some key)).1 =
      { status := S3StatusEnum.S3_ERROR_NOT_FOUND, content_type := none, data := none,
        data_size := 0, error_message := some (ascii "Object not found") } ∧
    ascii "Object not found" ≠ [] ∧
    (handle_get_object
        { port := port, pg_client := some { conninfo := conninfo, conn := some c } }
        (ascii "/public/" ++ key)).1 =
      { status_code := 404, body := ascii "Object not found", content_type := none,
        body_freed := true } := by
  have h := get_missing_on_willing_server c key hs hr hm
  refine ⟨by rw [h], by decide, ?_⟩
  have hk : (ascii "/public/" ++ key).drop S3_PATH_OBJECT_PREFIX.length = key := by
    rw [show S3_PATH_OBJECT_PREFIX.length = (ascii "/public/").length from rfl]
    exact List.drop_left' rfl
  unfold handle_get_object pg_client_get_object
  simp only [hk, h]
  rfl

/-- C12 on a server that holds `a.txt` only, asked for `missing`. -/
theorem get_missing_body_is_freed_witness :
    stocked_conn.status = ConnStatusType.CONNECTION_OK ∧
    (∀ n, stocked_conn.rejects n = false) ∧
    (∀ r ∈ stocked_conn.objects.getD [], r.path ≠ ascii "missing") ∧
    (s3_api_get_object (some stocked_conn) (some (ascii "public")) (some (ascii "missing"))).1 =
      { status := S3StatusEnum.S3_ERROR_NOT_FOUND, content_type := none, data := none,
        data_size := 0, error_message := some (ascii "Object not found") } ∧
    ascii "Object not found" ≠ [] ∧
    (handle_get_object
        { port := 9000, pg_client := some { conninfo := [], conn := some stocked_conn } }
        (ascii "/public/" ++ ascii "missing")).1 =
      { status_code := 404, body := ascii "Object not found", content_type := none,
        body_freed := true } :=
  ⟨rfl, fun _ => rfl, by decide,
    get_missing_body_is_freed stocked_conn (ascii "missing") [] 9000 rfl (fun _ => rfl)
      (by decide)⟩

/-- C17: for every connection handle and every state of the server behind it,
`s3_api_list_buckets` returns Success with the fixed one-bucket text as payload,
its length as data_size and content type `application/json`, and hands the
connection back untouched: no statement was sent. -/
theorem list_buckets_is_fixed (c : PGconn) :
    s3_api_list_buckets (some c) =
      ({ status := S3StatusEnum.S3_SUCCESS, content_type := some (ascii "application/json"),
         data := some (ascii
           "[\x7b\"Name\":\"public\",\"CreationDate\":\"2023-01-01T00:00:00.000Z\"\x7d]"),
         data_size := (ascii
           "[\x7b\"Name\":\"public\",\"CreationDate\":\"2023-01-01T00:00:00.000Z\"\x7d]").length,
         error_message := none }, some c) := by
  rfl

/-- C19 as stated fails: with a connection handle whose status is
`CONNECTION_BAD`, the three operations on bucket `public` return Execution. -/
theorem unreachable_backend_is_execution :
    (s3_api_list_objects (some { fresh_conn with status := ConnStatusType.CONNECTION_BAD })
        (some (ascii "public"))).1.status = S3StatusEnum.S3_ERROR_EXECUTION ∧
    (s3_api_get_object (some { fresh_conn with status := ConnStatusType.CONNECTION_BAD })
        (some (ascii "public")) (some (ascii "a.txt"))).1.status =
      S3StatusEnum.S3_ERROR_EXECUTION ∧
    (s3_api_put_object (some { fresh_conn with status := ConnStatusType.CONNECTION_BAD })
        (some (ascii "public")) (some (ascii "a.txt")) (some (ascii "hello")) none).1.status =
      S3StatusEnum.S3_ERROR_EXECUTION := by
  decide

/-- C19, amended: with a connection handle whose status is not `CONNECTION_OK`,
`s3_api_list_objects`, `s3_api_get_object` and `s3_api_put_object` (key present,
content not empty) on bucket `public` return Execution with the message
`Failed to ensure schema` and leave the connection as it was; with a NULL
handle they return Connection. -/
theorem unreachable_backend_status (c : PGconn) (k : CString) (d : List Byte)
    (ct : Option CString) (hs : c.status ≠ ConnStatusType.CONNECTION_OK) (hd : d ≠ []) :
    s3_api_list_objects (some c) (some (ascii "public")) =
      (s3_result_set_error s3_result_create S3StatusEnum.S3_ERROR_EXECUTION
        (some (ascii "Failed to ensure schema")), some c) ∧
    s3_api_get_object (some c) (some (ascii "public")) (some k) =
      (s3_result_set_error s3_result_create S3StatusEnum.S3_ERROR_EXECUTION
        (some (ascii "Failed to ensure schema")), some c) ∧
    s3_api_put_object (some c) (some (ascii "public")) (some k) (some d) ct =
      (s3_result_set_error s3_result_create S3StatusEnum.S3_ERROR_EXECUTION
        (some (ascii "Failed to ensure schema")), some c) ∧
    (s3_api_list_objects none (some (ascii "public"))).1.status =
      S3StatusEnum.S3_ERROR_CONNECTION ∧
    (s3_api_get_object none (some (ascii "public")) (some k)).1.status =
      S3StatusEnum.S3_ERROR_CONNECTION ∧
    (s3_api_put_object none (some (ascii "public")) (some k) (some d) ct).1.status =
      S3StatusEnum.S3_ERROR_CONNECTION := by
  have he : ensure_s3_schema (some c) = (-1, some c) := by
    simp [ensure_s3_schema, execute_query, PQstatus, hs]
  have hl : d.length ≠ 0 := fun h => hd (List.length_eq_zero.mp h)
  refine ⟨?_, ?_, ?_, rfl, rfl, rfl⟩
  · simp [s3_api_list_objects, he]
  · simp [s3_api_get_object, he]
  · simp [s3_api_put_object, he, hd]

/-- C19, amended, on a server whose connection is `CONNECTION_BAD`. -/
theorem unreachable_backend_status_witness :
    s3_api_list_objects (some { fresh_conn with status := ConnStatusType.CONNECTION_BAD })
        (some (ascii "public")) =
      (s3_result_set_error s3_result_create S3StatusEnum.S3_ERROR_EXECUTION
        (some (ascii "Failed to ensure schema")),
        some { fresh_conn with status := ConnStatusType.CONNECTION_BAD }) :=
  (unreachable_backend_status { fresh_conn with status := ConnStatusType.CONNECTION_BAD }
    (ascii "a.txt") (ascii "hello") none (by decide) (by decide)).1

/-- C20: on a reachable server that refuses no statement, whenever
`s3_api_put_object` of a non-empty content on bucket `public` succeeds, the
table holds a row for the key whose content type is the one supplied, or
`application/octet-stream` when none (NULL) was supplied, and the following
`s3_api_get_object` of the key succeeds and returns that content type. -/
theorem put_stores_content_type (c : PGconn) (k : CString) (d : List Byte)
    (ct : Option CString) (hs : c.status = ConnStatusType.CONNECTION_OK)
    (hr : ∀ n, c.rejects n = false) (hd : d ≠ [])
    (hp : (s3_api_put_object (some c) (some (ascii "public")) (some k) (some d) ct).1.status =
      S3StatusEnum.S3_SUCCESS) :
    (∃ c1 rows r,
      (s3_api_put_object (some c) (some (ascii "public")) (some k) (some d) ct).2 = some c1 ∧
      c1.objects = some rows ∧ r ∈ rows ∧ r.path = k ∧
      r.content_type = ct.getD (ascii "application/octet-stream")) ∧
    (s3_api_get_object
        (s3_api_put_object (some c) (some (ascii "public")) (some k) (some d) ct).2
        (some (ascii "public")) (some k)).1.status = S3StatusEnum.S3_SUCCESS ∧
    (s3_api_get_object
        (s3_api_put_object (some c) (some (ascii "public")) (some k) (some d) ct).2
        (some (ascii "public")) (some k)).1.content_type =
      some (ct.getD (ascii "application/octet-stream")) := by
  cases hb : byteain (PQescapeBytea c.std_strings d) with
  | none =>
    rw [put_on_willing_server_rejected c k d ct hs hr hd hb] at hp
    exact absurd hp (by decide)
  | some bytes =>
    rw [put_on_willing_server_bytes c k d bytes ct hs hr hd hb]
    obtain ⟨tl, ht⟩ := upsert_row_filter
      { path := k, content := bytes,
        content_type := ct.getD (ascii "application/octet-stream"),
        size := d.length, last_modified := c.clock (c.stmts + 2) } (c.objects.getD [])
    have hg := get_on_willing_server
      { c with stmts := c.stmts + 3, schema := true,
               objects := some (upsert_row
                 { path := k, content := bytes,
                   content_type := ct.getD (ascii "application/octet-stream"),
                   size := d.length, last_modified := c.clock (c.stmts + 2) }
                 (c.objects.getD [])) }
      k _ tl _ hs hr rfl ht
    exact ⟨⟨_, _, _, rfl, rfl, upsert_row_mem _ _, rfl, rfl⟩, by rw [hg], by rw [hg]⟩

/-- C20 on a fresh server: a put of `hello` without content type, and one with
`text/plain`. -/
theorem put_stores_content_type_witness :
    (s3_api_get_object
        (s3_api_put_object (some fresh_conn) (some (ascii "public")) (some (ascii "a.bin"))
          (some (ascii "hello")) none).2
        (some (ascii "public")) (some (ascii "a.bin"))).1.content_type =
      some (ascii "application/octet-stream") ∧
    (s3_api_get_object
        (s3_api_put_object (some fresh_conn) (some (ascii "public")) (some (ascii "a.txt"))
          (some (ascii "hello")) (some (ascii "text/plain"))).2
        (some (ascii "public")) (some (ascii "a.txt"))).1.content_type =
      some (ascii "text/plain") :=
  ⟨(put_stores_content_type fresh_conn (ascii "a.bin") (ascii "hello") none rfl
      (fun _ => rfl) (by decide) (by decide)).2.2,
   (put_stores_content_type fresh_conn (ascii "a.txt") (ascii "hello")
      (some (ascii "text/plain")) rfl (fun _ => rfl) (by decide) (by decide)).2.2⟩

theorem main_with_client (getenv : CString → Option CString) (PQconnectdb : CString → PGconn)
    (hs : (PQconnectdb (build_conninfo getenv)).status = ConnStatusType.CONNECTION_OK) :
    (pg_client_init PQconnectdb (build_conninfo getenv)).1 =
      some { conninfo := build_conninfo getenv,
             conn := some (PQconnectdb (build_conninfo getenv)) } := by
  simp [pg_client_init, PQstatus, hs]

/-- C13 (what the code does instead): once the connection is open, the commands
`get` and `delete`, and `put` with a non-empty standard input, end with exit
code 0 whatever status the gateway returns: the status is only printed. -/
theorem cli_exit_code_ignores_status (getenv : CString → Option CString)
    (PQconnectdb : CString → PGconn) (prog key : CString) (stdin : List Byte)
    (hs : (PQconnectdb (build_conninfo getenv)).status = ConnStatusType.CONNECTION_OK) :
    (main getenv PQconnectdb [prog, ascii "get", key] stdin).map (fun r => r.exit_code) =
      some 0 ∧
    (main getenv PQconnectdb [prog, ascii "delete", key] stdin).map (fun r => r.exit_code) =
      some 0 ∧
    (stdin ≠ [] →
      (main getenv PQconnectdb [prog, ascii "put", key] stdin).map (fun r => r.exit_code) =
        some 0) := by
  have hc := main_with_client getenv PQconnectdb hs
  have n1 : ascii "get" ≠ ascii "serve" := by decide
  have n2 : ascii "get" ≠ ascii "ls" := by decide
  have n3 : ascii "delete" ≠ ascii "serve" := by decide
  have n4 : ascii "delete" ≠ ascii "ls" := by decide
  have n5 : ascii "delete" ≠ ascii "get" := by decide
  have n6 : ascii "delete" ≠ ascii "put" := by decide
  have n7 : ascii "put" ≠ ascii "serve" := by decide
  have n8 : ascii "put" ≠ ascii "ls" := by decide
  have n9 : ascii "put" ≠ ascii "get" := by decide
  refine ⟨?_, ?_, ?_⟩
  · unfold main
    simp only [List.length_cons, List.length_nil, List.getD_cons_succ, List.getD_cons_zero, hc,
      n1, n2, if_false, if_true, pg_client_get_object]
    simp only [Nat.reduceAdd, Nat.reduceLT, Nat.lt_irrefl, zero_add, if_false, if_true]
    split <;> rfl
  · unfold main
    simp only [List.length_cons, List.length_nil, List.getD_cons_succ, List.getD_cons_zero, hc,
      n3, n4, n5, n6, if_false, if_true, pg_client_delete_object]
    simp only [Nat.reduceAdd, Nat.reduceLT, Nat.lt_irrefl, zero_add, if_false, if_true]
    split <;> rfl
  · intro hne
    have hl : stdin.length ≠ 0 := fun h => hne (List.length_eq_zero.mp h)
    unfold main
    simp only [List.length_cons, List.length_nil, List.getD_cons_succ, List.getD_cons_zero, hc,
      n7, n8, n9, if_false, if_true, pg_client_put_object, hl]
    simp only [Nat.reduceAdd, Nat.reduceLT, Nat.lt_irrefl, zero_add, if_false, if_true]
    split <;> rfl

/-- C13 at the failing input: `pgs3 get missing` on a fresh server. The gateway
returns NotFound, the message goes to standard error, the exit code is 0. -/
theorem cli_exit_code_ignores_status_witness :
    (s3_api_get_object (some fresh_conn) (some (ascii "public"))
        (some (ascii "missing"))).1.status = S3StatusEnum.S3_ERROR_NOT_FOUND ∧
    (main (fun _ => none) (fun _ => fresh_conn) [ascii "pgs3", ascii "get", ascii "missing"]
        []).map (fun r => (r.exit_code, r.out, r.err)) =
      some (0, [], ascii "Error: Object not found\n") ∧
    (main (fun _ => none) (fun _ => fresh_conn) [ascii "pgs3", ascii "get", ascii "missing"]
        []).map (fun r => r.exit_code) = some 0 :=
  ⟨by decide, by decide,
   (cli_exit_code_ignores_status (fun _ => none) (fun _ => fresh_conn) (ascii "pgs3")
     (ascii "missing") [] rfl).1⟩

/-- C16 (what the code does instead): once the connection is open, the command
`ls` with an argument writes one more line, which names the argument, and then
exactly what `ls` without argument writes, with the same exit code: the
listing is not restricted. -/
theorem cli_ls_lists_everything (getenv : CString → Option CString)
    (PQconnectdb : CString → PGconn) (prog p : CString) (stdin : List Byte)
    (hs : (PQconnectdb (build_conninfo getenv)).status = ConnStatusType.CONNECTION_OK) :
    (main getenv PQconnectdb [prog, ascii "ls", p] stdin).map
        (fun r => (r.exit_code, r.out, r.err)) =
      (main getenv PQconnectdb [prog, ascii "ls"] stdin).map
        (fun r => (r.exit_code,
          ascii "Listing objects with prefix: " ++ p ++ ascii "\n" ++ r.out, r.err)) := by
  have hc := main_with_client getenv PQconnectdb hs
  have n1 : ascii "ls" ≠ ascii "serve" := by decide
  unfold main
  simp only [List.length_cons, List.length_nil, List.getD_cons_succ, List.getD_cons_zero, hc,
    n1, if_false, if_true, Nat.reduceAdd, Nat.reduceLT, Nat.lt_irrefl, zero_add,
    Nat.reduceGT, gt_iff_lt]
  split
  · split <;> simp
  · simp

set_option maxRecDepth 20000 in
/-- C16 at the failing input: `pgs3 ls a/` on a server that holds `a/1` and
`b/1` also lists `b/1`, which does not start with `a/`. -/
theorem cli_ls_lists_everything_witness :
    (ascii "a/").isPrefixOf (ascii "b/1") = false ∧
    (main (fun _ => none) (fun _ => two_key_conn) [ascii "pgs3", ascii "ls", ascii "a/"]
        []).map (fun r => (r.exit_code, r.out, r.err)) =
      some (0,
        ascii "Listing objects with prefix: a/\n" ++
        ascii "[\x7b\"Key\":\"a/1\",\"Size\":1,\"LastModified\":\"2024-01-01T00:00:00.000Z\"\x7d," ++
        ascii "\x7b\"Key\":\"b/1\",\"Size\":1,\"LastModified\":\"2024-01-01T00:00:00.000Z\"\x7d]\n",
        []) ∧
    (main (fun _ => none) (fun _ => two_key_conn) [ascii "pgs3", ascii "ls", ascii "a/"]
        []).map (fun r => (r.exit_code, r.out, r.err)) =
      (main (fun _ => none) (fun _ => two_key_conn) [ascii "pgs3", ascii "ls"] []).map
        (fun r => (r.exit_code,
          ascii "Listing objects with prefix: " ++ ascii "a/" ++ ascii "\n" ++ r.out, r.err)) :=
  ⟨by decide, by decide,
   cli_ls_lists_everything (fun _ => none) (fun _ => two_key_conn) (ascii "pgs3") (ascii "a/")
     [] rfl⟩

theorem list_buckets_status (conn : Option PGconn) :
    (s3_api_list_buckets conn).1.status ≠ S3StatusEnum.S3_ERROR_NOT_FOUND ∧
    (s3_api_list_buckets conn).1.status ≠ S3StatusEnum.S3_ERROR_PERMISSION := by
  unfold s3_api_list_buckets
  split <;> exact ⟨by simp [s3_result_set_error, s3_result_create],
    by simp [s3_result_set_error, s3_result_create]⟩

theorem list_objects_public_status (conn : Option PGconn) :
    (s3_api_list_objects conn (some (ascii "public"))).1.status ≠
      S3StatusEnum.S3_ERROR_NOT_FOUND ∧
    (s3_api_list_objects conn (some (ascii "public"))).1.status ≠
      S3StatusEnum.S3_ERROR_PERMISSION := by
  unfold s3_api_list_objects
  simp only [ne_eq, not_true_eq_false, if_false]
  repeat' split
  all_goals exact ⟨by simp [s3_result_set_error, s3_result_create],
    by simp [s3_result_set_error, s3_result_create]⟩

theorem put_object_public_status (conn : Option PGconn) (key : Option CString)
    (data : Option (List Byte)) (content_type : Option CString) :
    (s3_api_put_object conn (some (ascii "public")) key data content_type).1.status ≠
      S3StatusEnum.S3_ERROR_NOT_FOUND ∧
    (s3_api_put_object conn (some (ascii "public")) key data content_type).1.status ≠
      S3StatusEnum.S3_ERROR_PERMISSION := by
  unfold s3_api_put_object
  simp only [ne_eq, not_true_eq_false, if_false]
  repeat' split
  all_goals (refine ⟨?_, ?_⟩ <;> simp_all [s3_result_set_error, s3_result_create])

theorem delete_object_public_status (conn : Option PGconn) (key : Option CString) :
    (s3_api_delete_object conn (some (ascii "public")) key).1.status ≠
      S3StatusEnum.S3_ERROR_NOT_FOUND ∧
    (s3_api_delete_object conn (some (ascii "public")) key).1.status ≠
      S3StatusEnum.S3_ERROR_PERMISSION := by
  unfold s3_api_delete_object
  simp only [ne_eq, not_true_eq_false, if_false]
  repeat' split
  all_goals (refine ⟨?_, ?_⟩ <;> simp_all [s3_result_set_error, s3_result_create])

theorem pg_client_list_buckets_result (client : Option PgClient) (r : S3Result)
    (h : (pg_client_list_buckets client).1 = some r) :
    ∃ conn, r = (s3_api_list_buckets conn).1 := by
  unfold pg_client_list_buckets at h
  split at h
  · simp at h
  · split at h
    · exact ⟨_, (Option.some.inj h).symm⟩
    · simp at h

theorem pg_client_list_objects_result (client : Option PgClient) (bucket : Option CString)
    (r : S3Result) (h : (pg_client_list_objects client bucket).1 = some r) :
    ∃ conn, r = (s3_api_list_objects conn bucket).1 := by
  unfold pg_client_list_objects at h
  split at h
  · simp at h
  · split at h
    · exact ⟨_, (Option.some.inj h).symm⟩
    · simp at h

theorem pg_client_put_object_result (client : Option PgClient) (bucket key : Option CString)
    (data : Option (List Byte)) (content_type : Option CString) (r : S3Result)
    (h : (pg_client_put_object client bucket key data content_type).1 = some r) :
    ∃ conn, r = (s3_api_put_object conn bucket key data content_type).1 := by
  unfold pg_client_put_object at h
  split at h
  · simp at h
  · split at h
    · split at h
      · simp at h
      · exact ⟨_, (Option.some.inj h).symm⟩
    · simp at h

theorem pg_client_delete_object_result (client : Option PgClient) (bucket key : Option CString)
    (r : S3Result) (h : (pg_client_delete_object client bucket key).1 = some r) :
    ∃ conn, r = (s3_api_delete_object conn bucket key).1 := by
  unfold pg_client_delete_object at h
  split at h
  · simp at h
  · split at h
    · exact ⟨_, (Option.some.inj h).symm⟩
    · simp at h

theorem respond_get_answers (r : S3Result) :
    answers_with_freed_message (respond_get (some r)) r := by
  unfold answers_with_freed_message respond_get http_status_of
  refine ⟨?_, ?_, ?_⟩
  · simp only [ne_eq, ite_not]
    split
    · rfl
    · split
      · rfl
      · split <;> rfl
  · intro hs
    simp [hs]
  · intro hne m hm
    simp [hne, hm]

theorem respond_ok_or_500_answers (r : S3Result)
    (h1 : r.status ≠ S3StatusEnum.S3_ERROR_NOT_FOUND)
    (h2 : r.status ≠ S3StatusEnum.S3_ERROR_PERMISSION) :
    answers_with_freed_message (respond_ok_or_500 (some r)) r := by
  unfold answers_with_freed_message respond_ok_or_500 http_status_of
  refine ⟨?_, ?_, ?_⟩
  · simp only [ne_eq, ite_not, h1, h2, if_false]
    split <;> rfl
  · intro hs
    simp [hs]
  · intro hne m hm
    simp [hne, hm]

theorem handle_list_objects_answers (server : HttpServer) (connection : MHD_Connection)
    (r : S3Result)
    (hr : (pg_client_list_objects server.pg_client (some (ascii "public"))).1 = some r) :
    ∃ response, (handle_list_objects server connection).1 = some response ∧
      answers_with_freed_message response r := by
  obtain ⟨conn, hc⟩ := pg_client_list_objects_result _ _ r hr
  have hst := list_objects_public_status conn
  rw [← hc] at hst
  by_cases hs : r.status = S3StatusEnum.S3_SUCCESS
  · obtain ⟨response, hresp⟩ := handle_list_objects_some server connection
    refine ⟨response, hresp, ?_⟩
    unfold handle_list_objects at hresp
    simp only [hr, hs, ne_eq, not_true_eq_false, if_false] at hresp
    have hshape : response.status_code = 200 ∧ response.body_freed = false := by
      split at hresp
      · split at hresp
        · rw [Option.map_eq_some'] at hresp
          obtain ⟨body, _, hb⟩ := hresp
          rw [← hb]
          exact ⟨rfl, rfl⟩
        · rw [← Option.some.inj hresp]
          exact ⟨rfl, rfl⟩
      · rw [← Option.some.inj hresp]
        exact ⟨rfl, rfl⟩
    refine ⟨?_, fun _ => hshape.2, fun hne => absurd hs hne⟩
    rw [hshape.1, hs]
    rfl
  · refine ⟨respond_ok_or_500 (some r), ?_, respond_ok_or_500_answers r hst.1 hst.2⟩
    simp [handle_list_objects, hr, hs, respond_ok_or_500]

/-- C14: every handler answers every result that the gateway hands it with the
status code of the specification: 200 for Success, 404 for NotFound, 403 for
PermissionDenied, 500 for every other status (the handlers other than
`handle_get_object` call the gateway for bucket `public` and so get no NotFound
and no PermissionDenied result).  But the error message of a result that is
not a success is queued as body by reference and freed before the response is
sent: the bytes the client gets are read from freed memory.  So it is for
DELETE /public/a.txt on a server whose connection is bad: status 500, and the
message `Failed to delete object` freed before it is sent; and for
GET /public/missing on the server that holds `a.txt` only: status 404, and the
message `Object not found` freed before it is sent. -/
theorem error_body_is_freed_before_sending :
    (∀ (server : HttpServer) (connection : MHD_Connection) (url : CString)
        (ctx : RequestContext) (r : S3Result),
      ((pg_client_list_buckets server.pg_client).1 = some r →
        answers_with_freed_message (handle_list_buckets server).1 r) ∧
      ((pg_client_list_objects server.pg_client (some (ascii "public"))).1 = some r →
        ∃ response, (handle_list_objects server connection).1 = some response ∧
          answers_with_freed_message response r) ∧
      ((pg_client_get_object server.pg_client (some (ascii "public"))
          (some (url.drop 8))).1 = some r →
        answers_with_freed_message (handle_get_object server url).1 r) ∧
      ((pg_client_put_object server.pg_client (some (ascii "public"))
          (some (ctx.url.drop 8)) (ctx.data.map (fun d => d.take ctx.size))
          ctx.content_type).1 = some r →
        answers_with_freed_message (handle_put_object server ctx).1 r) ∧
      ((pg_client_delete_object server.pg_client (some (ascii "public"))
          (some (url.drop 8))).1 = some r →
        answers_with_freed_message (handle_delete_object server url).1 r)) ∧
    (handle_delete_object unreachable_server (ascii "/public/a.txt")).1 =
      { status_code := 500, body := ascii "Failed to delete object", content_type := none,
        body_freed := true } ∧
    (handle_get_object stocked_server (ascii "/public/missing")).1 =
      { status_code := 404, body := ascii "Object not found", content_type := none,
        body_freed := true } := by
  refine ⟨?_, by decide, by decide⟩
  intro server connection url ctx r
  refine ⟨?_, handle_list_objects_answers server connection r, ?_, ?_, ?_⟩
  · intro h
    have hresp : (handle_list_buckets server).1 = respond_ok_or_500 (some r) := by
      rw [← h]
      rfl
    rw [hresp]
    have hst : r.status ≠ S3StatusEnum.S3_ERROR_NOT_FOUND ∧
        r.status ≠ S3StatusEnum.S3_ERROR_PERMISSION := by
      obtain ⟨conn, hc⟩ := pg_client_list_buckets_result _ r h
      rw [hc]
      exact list_buckets_status conn
    exact respond_ok_or_500_answers r hst.1 hst.2
  · intro h
    have hresp : (handle_get_object server url).1 = respond_get (some r) := by
      rw [← h]
      rfl
    rw [hresp]
    exact respond_get_answers r
  · intro h
    have hresp : (handle_put_object server ctx).1 = respond_ok_or_500 (some r) := by
      rw [← h]
      rfl
    rw [hresp]
    have hst : r.status ≠ S3StatusEnum.S3_ERROR_NOT_FOUND ∧
        r.status ≠ S3StatusEnum.S3_ERROR_PERMISSION := by
      obtain ⟨conn, hc⟩ := pg_client_put_object_result _ _ _ _ _ r h
      rw [hc]
      exact put_object_public_status conn _ _ _
    exact respond_ok_or_500_answers r hst.1 hst.2
  · intro h
    have hresp : (handle_delete_object server url).1 = respond_ok_or_500 (some r) := by
      rw [← h]
      rfl
    rw [hresp]
    have hst : r.status ≠ S3StatusEnum.S3_ERROR_NOT_FOUND ∧
        r.status ≠ S3StatusEnum.S3_ERROR_PERMISSION := by
      obtain ⟨conn, hc⟩ := pg_client_delete_object_result _ _ _ r h
      rw [hc]
      exact delete_object_public_status conn _
    exact respond_ok_or_500_answers r hst.1 hst.2

theorem object_url_has_pfx (key : CString) :
    S3_PATH_OBJECT_PREFIX.isPrefixOf (ascii "/public/" ++ key) = true := by
  rw [List.isPrefixOf_iff_prefix]
  exact List.prefix_append _ _

theorem object_url_key (key : CString) :
    (ascii "/public/" ++ key).drop S3_PATH_OBJECT_PREFIX.length = key := by
  rw [show S3_PATH_OBJECT_PREFIX.length = (ascii "/public/").length from rfl]
  exact List.drop_left' rfl

theorem object_url_ne (key : CString) :
    ascii "/public/" ++ key ≠ S3_PATH_LIST_BUCKETS ∧
    ascii "/public/" ++ key ≠ S3_PATH_LIST_OBJECTS := by
  refine ⟨?_, ?_⟩ <;>
  · intro h
    have hl := congrArg List.length h
    rw [List.length_append] at hl
    have h1 : (ascii "/public/").length = 8 := rfl
    have h2 : S3_PATH_LIST_BUCKETS.length = 1 := rfl
    have h3 : S3_PATH_LIST_OBJECTS.length = 7 := rfl
    omega

/-- C15: a call of `request_handler` that finds the context built and no upload
data left routes the request.  GET `/` goes to `handle_list_buckets`, GET
`/public` to `handle_list_objects`; GET, PUT and DELETE of `/public/` followed
by a key go to the gateway's get, put and delete for bucket `public` and
exactly that key (put takes the URL from the context, which holds the URL of
the request); every other pair of method and URL is answered with 404 and body
`Not Found`, and the server, its connection included, is left untouched. -/
theorem request_routing (server : HttpServer) (connection : MHD_Connection)
    (headers : List (CString × CString)) (url method : CString) (ctx : RequestContext) :
    (method = ascii "GET" → url = ascii "/" →
      (request_handler server connection headers url method [] (some ctx)).response =
        some (handle_list_buckets server).1 ∧
      (request_handler server connection headers url method [] (some ctx)).server =
        (handle_list_buckets server).2) ∧
    (method = ascii "GET" → url = ascii "/public" →
      (request_handler server connection headers url method [] (some ctx)).response =
        (handle_list_objects server connection).1 ∧
      (request_handler server connection headers url method [] (some ctx)).server =
        (handle_list_objects server connection).2) ∧
    (∀ key, method = ascii "GET" → url = ascii "/public/" ++ key →
      (request_handler server connection headers url method [] (some ctx)).response =
        some (respond_get
          (pg_client_get_object server.pg_client (some (ascii "public")) (some key)).1) ∧
      (request_handler server connection headers url method [] (some ctx)).server =
        { server with pg_client :=
          (pg_client_get_object server.pg_client (some (ascii "public")) (some key)).2 }) ∧
    (∀ key, method = ascii "PUT" → url = ascii "/public/" ++ key → ctx.url = url →
      (request_handler server connection headers url method [] (some ctx)).response =
        some (respond_ok_or_500
          (pg_client_put_object server.pg_client (some (ascii "public")) (some key)
            (ctx.data.map (fun d => d.take ctx.size)) ctx.content_type).1) ∧
      (request_handler server connection headers url method [] (some ctx)).server =
        { server with pg_client :=
          (pg_client_put_object server.pg_client (some (ascii "public")) (some key)
            (ctx.data.map (fun d => d.take ctx.size)) ctx.content_type).2 }) ∧
    (∀ key, method = ascii "DELETE" → url = ascii "/public/" ++ key →
      (request_handler server connection headers url method [] (some ctx)).response =
        some (respond_ok_or_500
          (pg_client_delete_object server.pg_client (some (ascii "public")) (some key)).1) ∧
      (request_handler server connection headers url method [] (some ctx)).server =
        { server with pg_client :=
          (pg_client_delete_object server.pg_client (some (ascii "public")) (some key)).2 }) ∧
    (¬ (method = ascii "GET" ∧
          (url = ascii "/" ∨ url = ascii "/public" ∨
            ∃ key, url = ascii "/public/" ++ key)) →
      ¬ (method = ascii "PUT" ∧ ∃ key, url = ascii "/public/" ++ key) →
      ¬ (method = ascii "DELETE" ∧ ∃ key, url = ascii "/public/" ++ key) →
      (request_handler server connection headers url method [] (some ctx)).response =
        some { status_code := 404, body := ascii "Not Found", content_type := none } ∧
      (request_handler server connection headers url method [] (some ctx)).server = server) := by
  have g1 : ascii "GET" ≠ ascii "PUT" := by decide
  have g2 : ascii "DELETE" ≠ ascii "PUT" := by decide
  have g3 : ascii "DELETE" ≠ ascii "GET" := by decide
  have g4 : ascii "PUT" ≠ ascii "GET" := by decide
  have u1 : ascii "/public" ≠ S3_PATH_LIST_BUCKETS := by decide
  refine ⟨?_, ?_, ?_, ?_, ?_, ?_⟩
  · intro hm hu
    subst hm hu
    simp [request_handler, S3_PATH_LIST_BUCKETS]
  · intro hm hu
    subst hm hu
    simp [request_handler, u1, S3_PATH_LIST_OBJECTS]
  · intro key hm hu
    subst hm hu
    simp [request_handler, (object_url_ne key).1, (object_url_ne key).2, object_url_has_pfx,
      handle_get_object, object_url_key]
  · intro key hm hu hc
    subst hm hu
    simp [request_handler, g4, object_url_has_pfx, handle_put_object, hc, object_url_key]
  · intro key hm hu
    subst hm hu
    simp [request_handler, g2, g3, object_url_has_pfx, handle_delete_object, object_url_key]
  · intro hg hp hd
    have hpre : S3_PATH_OBJECT_PREFIX.isPrefixOf url = true →
        ∃ key, url = ascii "/public/" ++ key := by
      intro h
      rw [List.isPrefixOf_iff_prefix] at h
      obtain ⟨key, hk⟩ := h
      exact ⟨key, hk.symm⟩
    unfold request_handler
    simp only [List.length_nil, gt_iff_lt, Nat.lt_irrefl, and_false, if_false]
    rw [if_neg (fun h => hg ⟨h.1, Or.inl h.2⟩),
      if_neg (fun h => hg ⟨h.1, Or.inr (Or.inl h.2)⟩),
      if_neg (fun h => hg ⟨h.1, Or.inr (Or.inr (hpre h.2))⟩),
      if_neg (fun h => hp ⟨h.1, hpre h.2⟩), if_neg (fun h => hd ⟨h.1, hpre h.2⟩)]
    exact ⟨rfl, rfl⟩

/-- C15 on three requests: GET of `/public/a.txt` (the key is `a.txt`), POST of
`/public/a.txt`, and GET of `/other`. -/
theorem request_routing_witness :
    (request_handler stocked_server { pfx := none } [] (ascii "/public/" ++ ascii "a.txt")
        (ascii "GET") []
        (some { data := none, size := 0, capacity := 0, content_type := none,
                url := ascii "/public/a.txt", method := ascii "GET" })).response =
      some (respond_get
        (pg_client_get_object stocked_server.pg_client
          (some (ascii "public")) (some (ascii "a.txt"))).1) ∧
    (request_handler stocked_server { pfx := none } [] (ascii "/public/a.txt") (ascii "POST") []
        (some { data := none, size := 0, capacity := 0, content_type := none,
                url := ascii "/public/a.txt", method := ascii "POST" })).response =
      some { status_code := 404, body := ascii "Not Found", content_type := none } ∧
    (request_handler stocked_server { pfx := none } [] (ascii "/other") (ascii "GET") []
        (some { data := none, size := 0, capacity := 0, content_type := none,
                url := ascii "/other", method := ascii "GET" })).response =
      some { status_code := 404, body := ascii "Not Found", content_type := none } :=
  ⟨((request_routing _ _ _ _ _ _).2.2.1 (ascii "a.txt") rfl rfl).1,
   ((request_routing _ _ _ _ _ _).2.2.2.2.2 (fun h => absurd h.1 (by decide))
      (fun h => absurd h.1 (by decide)) (fun h => absurd h.1 (by decide))).1,
   ((request_routing _ _ _ _ _ _).2.2.2.2.2
      (by
        rintro ⟨_, h | h | ⟨key, h⟩⟩
        · exact absurd h (by decide)
        · exact absurd h (by decide)
        · have h2 : (ascii "/other").take 2 = [47, 112] :=
            (congrArg (List.take 2) h).trans rfl
          exact absurd h2 (by decide))
      (fun h => absurd h.1 (by decide)) (fun h => absurd h.1 (by decide))).1⟩

/-! ## The listing -/

theorem list_objects_loop_rows (res : PGresult) (rest pre : List Row) (buffer : List Byte)
    (buffer_size : Nat)
    (h : res.tuples = (pre ++ rest).map (fun r => [r.path, bigint_out r.size, r.last_modified])) :
    (list_objects_loop res rest.length pre.length buffer buffer_size).1 =
      buffer ++ (elements_from pre.length rest).flatten := by
  induction rest generalizing pre buffer buffer_size with
  | nil => simp [list_objects_loop, elements_from]
  | cons r rest ih =>
    have hg : res.tuples.getD pre.length [] = [r.path, bigint_out r.size, r.last_modified] := by
      rw [h, List.map_append, List.map_cons, List.getD_eq_getElem?_getD,
        List.getElem?_append_right (by simp)]
      simp
    have h2 : res.tuples =
        ((pre ++ [r]) ++ rest).map (fun r => [r.path, bigint_out r.size, r.last_modified]) := by
      rw [h]
      simp
    have ih2 := ih (pre ++ [r])
    simp only [List.length_append, List.length_singleton] at ih2
    simp only [List.length_cons, list_objects_loop, PQgetvalue, hg, elements_from,
      List.flatten_cons, element_of]
    rw [ih2 _ _ h2]
    simp [List.append_assoc]

theorem insert_by_path_length (r : Row) (rows : List Row) :
    (insert_by_path r rows).length = rows.length + 1 := by
  induction rows with
  | nil => rfl
  | cons x xs ih =>
    unfold insert_by_path
    split
    · rfl
    · simp [ih]

theorem order_by_path_length (rows : List Row) : (order_by_path rows).length = rows.length := by
  induction rows with
  | nil => rfl
  | cons x xs ih =>
    show (insert_by_path x (order_by_path xs)).length = _
    rw [insert_by_path_length, ih]
    rfl

theorem list_objects_on_willing_server (c : PGconn)
    (hs : c.status = ConnStatusType.CONNECTION_OK) (hr : ∀ n, c.rejects n = false) :
    s3_api_list_objects (some c) (some (ascii "public")) =
      ({ status := S3StatusEnum.S3_SUCCESS, content_type := some (ascii "application/json"),
         data := some (ascii "[" ++
           (elements_from 0 (order_by_path (c.objects.getD []))).flatten ++ ascii "]"),
         data_size := (ascii "[" ++
           (elements_from 0 (order_by_path (c.objects.getD []))).flatten ++ ascii "]").length,
         error_message := none },
       some { c with stmts := c.stmts + 3, schema := true,
                     objects := some (c.objects.getD []) }) := by
  unfold s3_api_list_objects
  simp only [if_false, ne_eq, not_true_eq_false]
  rw [ensure_s3_schema_ok c hs (hr _) (hr _)]
  simp only [if_false, ne_eq, not_true_eq_false, execute_query, PQstatus, PQexec, server_exec, hs,
    hr, Bool.false_eq_true, PQresultStatus, s3_result_create, PQntuples, List.length_map,
    order_by_path_length, and_false, reduceCtorEq, not_false_eq_true,
    and_true]
  by_cases h0 : (c.objects.getD []).length = 0
  · have hnil : c.objects.getD [] = [] := List.length_eq_zero.mp h0
    simp only [hnil, List.length_nil, if_true, order_by_path, List.foldr_nil, elements_from,
      List.flatten_nil, List.append_nil]
    rfl
  · simp only [h0, if_false]
    have hl := list_objects_loop_rows
      { resultStatus := ExecStatusType.PGRES_TUPLES_OK,
        tuples := (order_by_path (c.objects.getD [])).map
          (fun r => [r.path, bigint_out r.size, r.last_modified]),
        errMsg := [] }
      (order_by_path (c.objects.getD [])) [] (ascii "[") 1024 rfl
    rw [order_by_path_length] at hl
    simp only [List.length_nil] at hl
    rw [hl]

theorem obj_json_long_path (path size lastmod : CString) (h : 503 ≤ path.length) :
    obj_json 0 path size lastmod = ascii "\x7b\"Key\":\"" ++ path.take 503 := by
  unfold obj_json snprintf
  simp only [Nat.lt_irrefl, gt_iff_lt, if_false, List.nil_append, List.append_assoc]
  rw [show 512 - 1 = (ascii "\x7b\"Key\":\"").length + 503 from rfl, List.take_append,
    List.take_append_eq_append_take]
  have : 503 - path.length = 0 := by omega
  simp [this]

/-- C11 (what the code does instead): when the table holds a single row whose
path is 503 bytes long or longer, the payload of `s3_api_list_objects` is `[`,
the text `{"Key":"`, the first 503 bytes of the path, and `]`: the element is
cut at the 511 bytes of `obj_json`, so the rest of the path, the closing quote,
the size, the timestamp and the closing brace are missing. -/
theorem listing_cuts_long_path (c : PGconn) (row : Row)
    (hs : c.status = ConnStatusType.CONNECTION_OK) (hr : ∀ n, c.rejects n = false)
    (ho : c.objects = some [row]) (hp : 503 ≤ row.path.length) :
    (s3_api_list_objects (some c) (some (ascii "public"))).1.status = S3StatusEnum.S3_SUCCESS ∧
    (s3_api_list_objects (some c) (some (ascii "public"))).1.data =
      some (ascii "[" ++ (ascii "\x7b\"Key\":\"" ++ row.path.take 503) ++ ascii "]") := by
  rw [list_objects_on_willing_server c hs hr]
  refine ⟨rfl, ?_⟩
  simp only [ho, Option.getD_some, order_by_path, List.foldr_cons, List.foldr_nil, insert_by_path,
    elements_from, element_of, List.flatten_cons, List.flatten_nil, List.append_nil,
    obj_json_long_path _ _ _ hp]

/-- C11 at the failing input: the one stored key is 600 times the letter `a`;
the payload holds 503 of them and ends right after. -/
theorem listing_cuts_long_path_witness :
    (s3_api_list_objects (some long_key_conn) (some (ascii "public"))).1.status =
      S3StatusEnum.S3_SUCCESS ∧
    (s3_api_list_objects (some long_key_conn) (some (ascii "public"))).1.data =
      some (ascii "[" ++ (ascii "\x7b\"Key\":\"" ++ (List.replicate 600 (97 : UInt8)).take 503) ++
        ascii "]") :=
  listing_cuts_long_path long_key_conn
    { path := List.replicate 600 97, content := ascii "x", content_type := ascii "text/plain",
      size := 1, last_modified := ascii "2024-01-01T00:00:00.000Z" }
    rfl (fun _ => rfl) rfl
    (by
      show 503 ≤ (List.replicate 600 (97 : UInt8)).length
      rw [List.length_replicate]
      omega)

/-! ## `ORDER BY path` sorts -/

theorem insert_by_path_perm (r : Row) (rows : List Row) :
    (insert_by_path r rows).Perm (r :: rows) := by
  induction rows with
  | nil => exact List.Perm.refl _
  | cons x xs ih =>
    unfold insert_by_path
    split
    · exact List.Perm.refl _
    · exact (List.Perm.cons x ih).trans (List.Perm.swap r x xs)

theorem order_by_path_perm (rows : List Row) : (order_by_path rows).Perm rows := by
  induction rows with
  | nil => exact List.Perm.refl _
  | cons x xs ih =>
    show (insert_by_path x (order_by_path xs)).Perm (x :: xs)
    exact (insert_by_path_perm x _).trans (List.Perm.cons x ih)

theorem joined_from_succ (count : Nat) (objs : List CString) :
    joined_from (count + 1) objs = (objs.map (fun o => [44] ++ o)).flatten := by
  induction objs generalizing count with
  | nil => rfl
  | cons o os ih =>
    simp only [joined_from, List.map_cons, List.flatten_cons, ih, Nat.succ_pos, gt_iff_lt,
      Nat.lt_add_one_of_le, Nat.zero_le, if_true, List.append_assoc]

theorem comma_joined_cons (o : CString) (os : List CString) :
    comma_joined (o :: os) = o ++ (os.map (fun o => [44] ++ o)).flatten := by
  induction os generalizing o with
  | nil => simp [comma_joined]
  | cons p ps ih =>
    simp only [comma_joined, ih, List.map_cons, List.flatten_cons, List.append_assoc]

theorem joined_from_zero (objs : List CString) : joined_from 0 objs = comma_joined objs := by
  cases objs with
  | nil => rfl
  | cons o os =>
    rw [comma_joined_cons]
    simp only [joined_from, Nat.lt_irrefl, gt_iff_lt, if_false, List.nil_append, zero_add]
    rw [joined_from_succ 0 os]

theorem well_shaped_error (status : S3StatusEnum) (message : CString)
    (h : status ≠ S3StatusEnum.S3_SUCCESS) :
    well_shaped (s3_result_set_error s3_result_create status (some message)) := by
  simp [well_shaped, s3_result_set_error, s3_result_create, h]

theorem well_shaped_success (content_type : CString) (data : List Byte) (data_size : Nat) :
    well_shaped { s3_result_create with data := some data, data_size := data_size,
                                        content_type := some content_type } := by
  simp [well_shaped, s3_result_create]

/-- C28: every result that `s3_api_list_buckets`, `s3_api_list_objects`,
`s3_api_get_object`, `s3_api_put_object` and `s3_api_delete_object` return, for
every connection handle, server state and argument, has the shape of the result
envelope: Success exactly when data and content type are present, exactly when
no error message is present, and a failure carries a message and no payload. -/
theorem results_are_well_shaped (conn : Option PGconn) (bucket key content_type : Option CString)
    (data : Option (List Byte)) :
    well_shaped (s3_api_list_buckets conn).1 ∧
    well_shaped (s3_api_list_objects conn bucket).1 ∧
    well_shaped (s3_api_get_object conn bucket key).1 ∧
    well_shaped (s3_api_put_object conn bucket key data content_type).1 ∧
    well_shaped (s3_api_delete_object conn bucket key).1 := by
  refine ⟨?_, ?_, ?_, ?_, ?_⟩
  · unfold s3_api_list_buckets
    split
    · exact well_shaped_error _ _ (by decide)
    · exact well_shaped_success _ _ _
  · unfold s3_api_list_objects
    simp only
    repeat' split
    all_goals first
      | exact well_shaped_error _ _ (by decide)
      | exact well_shaped_success _ _ _
  · unfold s3_api_get_object
    simp only
    repeat' split
    all_goals first
      | exact well_shaped_error _ _ (by decide)
      | exact well_shaped_success _ _ _
  · unfold s3_api_put_object
    simp only
    repeat' split
    all_goals first
      | exact well_shaped_error _ _ (by decide)
      | exact well_shaped_success _ _ _
  · unfold s3_api_delete_object
    simp only
    repeat' split
    all_goals first
      | exact well_shaped_error _ _ (by decide)
      | exact well_shaped_success _ _ _

theorem list_objects_data_size (conn : Option PGconn) (bucket : Option CString) :
    (s3_api_list_objects conn bucket).1.data_size =
      ((s3_api_list_objects conn bucket).1.data.getD []).length := by
  unfold s3_api_list_objects
  simp only
  repeat' split
  all_goals rfl

/-- C22: an empty prefix means no filter.  For every server, `handle_list_objects`
called with the query argument present but empty does exactly what it does when
the argument is absent; and when the gateway's list operation succeeds, the
body is its payload, unchanged and of length data_size. -/
theorem empty_pfx_is_no_filter (server : HttpServer) :
    handle_list_objects server { pfx := some [] } = handle_list_objects server { pfx := none } ∧
    (∀ r, (pg_client_list_objects server.pg_client (some (ascii "public"))).1 = some r →
      r.status = S3StatusEnum.S3_SUCCESS →
      (handle_list_objects server { pfx := some [] }).1 =
        some { status_code := 200, body := r.data.getD [], content_type := r.content_type } ∧
      (r.data.getD []).length = r.data_size) := by
  refine ⟨?_, ?_⟩
  · unfold handle_list_objects
    simp only
    split
    · rfl
    · split
      · rfl
      · rename_i result _ _
        cases hd : result.data with
        | none => rfl
        | some json => simp
  · intro r hr hs
    obtain ⟨conn, hc⟩ := pg_client_list_objects_result _ _ r hr
    have hl : r.data_size = (r.data.getD []).length := by
      rw [hc]
      exact list_objects_data_size conn _
    refine ⟨?_, hl.symm⟩
    unfold handle_list_objects
    simp only [hr, hs, ne_eq, not_true_eq_false, if_false]
    cases hd : r.data with
    | none =>
      simp only [Option.getD_none, List.take_nil]
      rfl
    | some json =>
      rw [hd] at hl
      simp only [Option.getD_some] at hl
      simp only [not_true_eq_false, if_false, hl, List.take_length, Option.getD_some]
      rfl

theorem strrchr_none (s : CString) (c : Byte) (h : c ∉ s) : strrchr s c = none := by
  induction s with
  | nil => rfl
  | cons b s ih =>
    have hb : b ≠ c := fun e => h (by rw [e]; exact List.mem_cons_self _ _)
    have hs : c ∉ s := fun e => h (List.mem_cons_of_mem _ e)
    simp [strrchr, ih hs, hb]

theorem strrchr_last (stem ext : CString) (c : Byte) (h : c ∉ ext) :
    strrchr (stem ++ c :: ext) c = some (c :: ext) := by
  induction stem with
  | nil => simp [strrchr, strrchr_none ext c h]
  | cons b stem ih =>
    rw [List.cons_append, strrchr, ih]

/-- C21: the content type that the command `put` derives from the key is a
lookup in the static table on the text after the last `.` of the key, put in
lower case: for a key that ends in `.` and an extension without `.`, it is the
table's entry for the extension, or `application/octet-stream` when the table
has none; for a key without `.` it is `application/octet-stream`. -/
theorem cli_content_type_is_table_lookup :
    (∀ stem ext : CString, (46 : UInt8) ∉ ext →
      cli_content_type (stem ++ 46 :: ext) =
        (mime_table.lookup (ext.map tolower)).getD (ascii "application/octet-stream")) ∧
    (∀ key : CString, (46 : UInt8) ∉ key →
      cli_content_type key = ascii "application/octet-stream") := by
  refine ⟨?_, ?_⟩
  · intro stem ext h
    unfold cli_content_type
    rw [strrchr_last stem ext 46 h]
    simp only [List.drop_succ_cons, List.drop_zero, strcasecmp_eq, mime_table, List.lookup,
      show (ascii "txt").map tolower = ascii "txt" from rfl,
      show (ascii "html").map tolower = ascii "html" from rfl,
      show (ascii "htm").map tolower = ascii "htm" from rfl,
      show (ascii "css").map tolower = ascii "css" from rfl,
      show (ascii "js").map tolower = ascii "js" from rfl,
      show (ascii "json").map tolower = ascii "json" from rfl,
      show (ascii "xml").map tolower = ascii "xml" from rfl,
      show (ascii "png").map tolower = ascii "png" from rfl,
      show (ascii "jpg").map tolower = ascii "jpg" from rfl,
      show (ascii "jpeg").map tolower = ascii "jpeg" from rfl,
      show (ascii "gif").map tolower = ascii "gif" from rfl,
      show (ascii "pdf").map tolower = ascii "pdf" from rfl]
    generalize ext.map tolower = e
    cases h1 : e == ascii "txt" <;> simp only [Bool.false_eq_true, if_false, if_true,
      Option.getD_some]
    cases h2 : e == ascii "html" <;> simp only [Bool.false_eq_true, if_false, if_true,
      Option.getD_some, false_or, true_or]
    cases h3 : e == ascii "htm" <;> simp only [Bool.false_eq_true, if_false, if_true,
      Option.getD_some]
    cases h4 : e == ascii "css" <;> simp only [Bool.false_eq_true, if_false, if_true,
      Option.getD_some]
    cases h5 : e == ascii "js" <;> simp only [Bool.false_eq_true, if_false, if_true,
      Option.getD_some]
    cases h6 : e == ascii "json" <;> simp only [Bool.false_eq_true, if_false, if_true,
      Option.getD_some]
    cases h7 : e == ascii "xml" <;> simp only [Bool.false_eq_true, if_false, if_true,
      Option.getD_some]
    cases h8 : e == ascii "png" <;> simp only [Bool.false_eq_true, if_false, if_true,
      Option.getD_some]
    cases h9 : e == ascii "jpg" <;> simp only [Bool.false_eq_true, if_false, if_true,
      Option.getD_some, false_or, true_or]
    cases h10 : e == ascii "jpeg" <;> simp only [Bool.false_eq_true, if_false, if_true,
      Option.getD_some]
    cases h11 : e == ascii "gif" <;> simp only [Bool.false_eq_true, if_false, if_true,
      Option.getD_some]
    cases h12 : e == ascii "pdf" <;> simp only [Bool.false_eq_true, if_false, if_true,
      Option.getD_some, Option.getD_none]
  · intro key h
    unfold cli_content_type
    rw [strrchr_none key 46 h]

theorem main_put_uses_cli_content_type (getenv : CString → Option CString)
    (PQconnectdb : CString → PGconn) (prog key : CString) (stdin : List Byte)
    (hs : (PQconnectdb (build_conninfo getenv)).status = ConnStatusType.CONNECTION_OK)
    (hd : stdin ≠ []) :
    (main getenv PQconnectdb [prog, ascii "put", key] stdin).map (fun r => r.conn) =
      some (s3_api_put_object (some (PQconnectdb (build_conninfo getenv)))
        (some (ascii "public")) (some key) (some stdin) (some (cli_content_type key))).2 := by
  have hc := main_with_client getenv PQconnectdb hs
  have n7 : ascii "put" ≠ ascii "serve" := by decide
  have n8 : ascii "put" ≠ ascii "ls" := by decide
  have n9 : ascii "put" ≠ ascii "get" := by decide
  have hl : stdin.length ≠ 0 := fun h => hd (List.length_eq_zero.mp h)
  unfold main
  simp only [List.length_cons, List.length_nil, List.getD_cons_succ, List.getD_cons_zero, hc,
    n7, n8, n9, if_false, if_true, pg_client_put_object, hl]
  simp only [Nat.reduceAdd, Nat.reduceLT, Nat.lt_irrefl, zero_add, if_false, if_true]
  split <;> rfl

/-- C21 on keys with the extensions of the table in mixed case, with an unknown
extension, and without any `.`. -/
theorem cli_content_type_is_table_lookup_witness :
    cli_content_type (ascii "notes" ++ 46 :: ascii "TXT") = ascii "text/plain" ∧
    cli_content_type (ascii "index" ++ 46 :: ascii "Html") = ascii "text/html" ∧
    cli_content_type (ascii "a.b/photo" ++ 46 :: ascii "jpeg") = ascii "image/jpeg" ∧
    cli_content_type (ascii "archive.tar" ++ 46 :: ascii "gz") =
      ascii "application/octet-stream" ∧
    cli_content_type (ascii "README") = ascii "application/octet-stream" :=
  ⟨(cli_content_type_is_table_lookup.1 _ _ (by decide)).trans (by decide),
   (cli_content_type_is_table_lookup.1 _ _ (by decide)).trans (by decide),
   (cli_content_type_is_table_lookup.1 _ _ (by decide)).trans (by decide),
   (cli_content_type_is_table_lookup.1 _ _ (by decide)).trans (by decide),
   cli_content_type_is_table_lookup.2 _ (by decide)⟩

/-! ## Upload accumulation -/

theorem foldl_put_data_handler (headers : List (CString × CString)) (ctx : RequestContext) :
    (headers.foldl put_data_handler ctx).data = ctx.data ∧
    (headers.foldl put_data_handler ctx).size = ctx.size ∧
    (headers.foldl put_data_handler ctx).capacity = ctx.capacity ∧
    (headers.foldl put_data_handler ctx).url = ctx.url := by
  induction headers generalizing ctx with
  | nil => exact ⟨rfl, rfl, rfl, rfl⟩
  | cons h hs ih =>
    simp only [List.foldl_cons]
    have hstep : (put_data_handler ctx h).data = ctx.data ∧
        (put_data_handler ctx h).size = ctx.size ∧
        (put_data_handler ctx h).capacity = ctx.capacity ∧
        (put_data_handler ctx h).url = ctx.url := by
      unfold put_data_handler
      split <;> exact ⟨rfl, rfl, rfl, rfl⟩
    obtain ⟨a, b, c, d⟩ := ih (put_data_handler ctx h)
    exact ⟨a.trans hstep.1, b.trans hstep.2.1, c.trans hstep.2.2.1, d.trans hstep.2.2.2⟩

theorem request_handler_first (server : HttpServer) (connection : MHD_Connection)
    (headers : List (CString × CString)) (url : CString) :
    ∃ ctx0,
      (request_handler server connection headers url (ascii "PUT") [] none).con_cls =
        some ctx0 ∧
      ctx0.data = none ∧ ctx0.size = 0 ∧ ctx0.capacity = 0 ∧ ctx0.url = url := by
  obtain ⟨a, b, c, d⟩ := foldl_put_data_handler headers
    { data := none, size := 0, capacity := 0, content_type := none, url := url,
      method := ascii "PUT" }
  unfold request_handler
  simp only [if_true]
  split
  · exact ⟨_, rfl, a, b, c, d⟩
  · exact ⟨_, rfl, a, b, c, d⟩

theorem request_handler_chunk (server : HttpServer) (connection : MHD_Connection)
    (headers : List (CString × CString)) (url : CString) (chunk : List Byte)
    (ctx : RequestContext) (hc : chunk ≠ [])
    (hl : (ctx.data.getD []).length = ctx.size) (hcap : ctx.size ≤ ctx.capacity)
    (hb : 2 * (ctx.size + chunk.length) < 2 ^ 64) :
    ∃ ctx1,
      (request_handler server connection headers url (ascii "PUT") chunk (some ctx)).con_cls =
        some ctx1 ∧
      ctx1.data = some (ctx.data.getD [] ++ chunk) ∧
      ctx1.size = ctx.size + chunk.length ∧ ctx1.size ≤ ctx1.capacity ∧
      ctx1.url = ctx.url ∧ ctx1.content_type = ctx.content_type := by
  have hpos : chunk.length > 0 := List.length_pos.mpr hc
  unfold request_handler
  simp only [hpos, and_self, if_true]
  refine ⟨_, rfl, ?_, rfl, ?_, rfl, rfl⟩
  · simp only
    rw [← hl, List.take_length]
  · simp only
    split
    · split
      · rename_i h0
        rw [Nat.mod_eq_of_lt (by omega)]
        omega
      · rw [Nat.mod_eq_of_lt (by omega)]
        omega
    · omega

theorem deliver_chunks_accumulates (server : HttpServer) (connection : MHD_Connection)
    (headers : List (CString × CString)) (url : CString) (chunks : List (List Byte))
    (ctx : RequestContext) (hne : ∀ c ∈ chunks, c ≠ [])
    (hl : (ctx.data.getD []).length = ctx.size) (hcap : ctx.size ≤ ctx.capacity)
    (hb : 2 * (ctx.size + chunks.flatten.length) < 2 ^ 64) :
    ∃ ctx1,
      deliver_chunks server connection headers url chunks (some ctx) = some ctx1 ∧
      ctx1.data.getD [] = ctx.data.getD [] ++ chunks.flatten ∧
      (chunks ≠ [] → ctx1.data = some (ctx.data.getD [] ++ chunks.flatten)) ∧
      ctx1.size = ctx.size + chunks.flatten.length ∧ ctx1.size ≤ ctx1.capacity ∧
      ctx1.url = ctx.url ∧ ctx1.content_type = ctx.content_type := by
  induction chunks generalizing ctx with
  | nil => exact ⟨ctx, rfl, by simp, by simp, by simp, hcap, rfl, rfl⟩
  | cons chunk rest ih =>
    simp only [List.flatten_cons, List.length_append] at hb
    obtain ⟨c1, h1, hd1, hs1, hc1, hu1, ht1⟩ := request_handler_chunk server connection headers
      url chunk ctx (hne chunk (List.mem_cons_self _ _)) hl hcap (by omega)
    have hl1 : (c1.data.getD []).length = c1.size := by
      rw [hd1, hs1]
      simp [hl]
    obtain ⟨c2, h2, hd2, hn2, hs2, hc2, hu2, ht2⟩ := ih c1
      (fun c hc => hne c (List.mem_cons_of_mem _ hc)) hl1 hc1 (by rw [hs1]; omega)
    refine ⟨c2, ?_, ?_, ?_, ?_, hc2, hu2.trans hu1, ht2.trans ht1⟩
    · rw [deliver_chunks, h1, h2]
    · rw [hd2, hd1]
      simp
    · intro _
      by_cases hr : rest = []
      · subst hr
        simp only [deliver_chunks] at h2
        rw [← Option.some.inj h2, hd1]
        simp
      · rw [hn2 hr, hd1]
        simp
    · rw [hs2, hs1]
      simp only [List.flatten_cons, List.length_append]
      omega

/-- C23: when the body of a PUT request comes in non-empty chunks whose lengths
add up to less than 2 ^ 63 (buffer and chunk lie in one address space), the
context that the first call of `request_handler` builds and the calls for the
chunks fill holds size = the sum of the lengths, size <= capacity, and as the
first size bytes of data the chunks one after the other in the order of
delivery; `handle_put_object` hands exactly these bytes, under the key of the
URL, to the put operation (a NULL buffer when there was no chunk at all). -/
theorem upload_accumulates (server : HttpServer) (connection : MHD_Connection)
    (headers : List (CString × CString)) (url : CString) (chunks : List (List Byte))
    (hne : ∀ c ∈ chunks, c ≠ [])
    (hb : 2 * chunks.flatten.length < 2 ^ 64) :
    ∃ ctx,
      deliver_chunks server connection headers url chunks
        (request_handler server connection headers url (ascii "PUT") [] none).con_cls =
        some ctx ∧
      ctx.size = (chunks.map List.length).sum ∧ ctx.size ≤ ctx.capacity ∧
      (ctx.data.getD []).take ctx.size = chunks.flatten ∧
      (ctx.data.isSome ↔ chunks ≠ []) ∧
      (handle_put_object server ctx).1 =
        respond_ok_or_500 (pg_client_put_object server.pg_client (some (ascii "public"))
          (some (url.drop 8))
          (if chunks = [] then none else some chunks.flatten) ctx.content_type).1 := by
  obtain ⟨ctx0, h0, hd0, hs0, hc0, hu0⟩ := request_handler_first server connection headers url
  obtain ⟨ctx, h1, hg1, hd1, hs1, hc1, hu1, _⟩ := deliver_chunks_accumulates server connection
    headers url chunks ctx0 hne (by rw [hd0, hs0]; rfl) (by omega) (by rw [hs0]; omega)
  rw [hd0] at hd1 hg1
  simp only [Option.getD_none, List.nil_append] at hd1 hg1
  have hsum : chunks.flatten.length = (chunks.map List.length).sum := List.length_flatten _
  have hsize : ctx.size = chunks.flatten.length := by rw [hs1, hs0]; omega
  have hsome : ctx.data.isSome ↔ chunks ≠ [] := by
    constructor
    · intro hi hnil
      subst hnil
      simp only [deliver_chunks] at h1
      rw [← Option.some.inj h1, hd0] at hi
      exact absurd hi (by decide)
    · intro hn
      rw [hd1 hn]
      rfl
  have htake : ctx.data.map (fun d => d.take ctx.size) =
      (if chunks = [] then none else some chunks.flatten) := by
    by_cases hn : chunks = []
    · subst hn
      simp only [deliver_chunks] at h1
      rw [← Option.some.inj h1, hd0]
      rfl
    · rw [hd1 hn, hsize, if_neg hn]
      simp
  refine ⟨ctx, by rw [h0, h1], by rw [hsize, hsum], hc1, ?_, hsome, ?_⟩
  · rw [hg1, hsize, List.take_length]
  · unfold handle_put_object
    simp only [htake, hu1, hu0]
    rfl

/-- Witness for C23: the body "abc" delivered as "ab" then "c" for
PUT /public/k. -/
theorem upload_accumulates_witness :
    (∀ c ∈ [ascii "ab", ascii "c"], c ≠ []) ∧
    2 * [ascii "ab", ascii "c"].flatten.length < 2 ^ 64 ∧
    ∃ ctx,
      deliver_chunks stocked_server { pfx := none } [] (ascii "/public/k")
        [ascii "ab", ascii "c"]
        (request_handler stocked_server { pfx := none } [] (ascii "/public/k")
          (ascii "PUT") [] none).con_cls = some ctx ∧
      ctx.size = ([ascii "ab", ascii "c"].map List.length).sum ∧ ctx.size ≤ ctx.capacity ∧
      (ctx.data.getD []).take ctx.size = [ascii "ab", ascii "c"].flatten ∧
      (ctx.data.isSome ↔ [ascii "ab", ascii "c"] ≠ []) ∧
      (handle_put_object stocked_server ctx).1 =
        respond_ok_or_500 (pg_client_put_object stocked_server.pg_client
          (some (ascii "public")) (some ((ascii "/public/k").drop 8))
          (if [ascii "ab", ascii "c"] = [] then none
           else some [ascii "ab", ascii "c"].flatten) ctx.content_type).1 :=
  ⟨by decide, by decide,
    upload_accumulates stocked_server { pfx := none } [] (ascii "/public/k")
      [ascii "ab", ascii "c"] (by decide) (by decide)⟩


/-! ## The growing buffer of the listing -/

theorem obj_json_length (i : Nat) (path size lastmod : CString) :
    (obj_json i path size lastmod).length ≤ 511 := by
  unfold obj_json snprintf
  exact (List.length_take_le _ _)

theorem list_objects_loop_checked_ok (res : PGresult) (n i : Nat) (buffer : List Byte)
    (buffer_size : Nat) (h2 : buffer.length + 2 ≤ buffer_size) (hmin : 1024 ≤ buffer_size)
    (hmax : buffer_size ≤ 2 * (buffer.length + 513))
    (hb : buffer.length + 511 * n + 513 < 2 ^ 63) :
    ∃ b s,
      list_objects_loop_checked res n i buffer buffer_size = some (b, s) ∧
      list_objects_loop res n i buffer buffer_size = (b, s) ∧ b.length + 2 ≤ s := by
  induction n generalizing i buffer buffer_size with
  | zero => exact ⟨buffer, buffer_size, rfl, rfl, h2⟩
  | succ n ih =>
    have hlen := obj_json_length i (PQgetvalue res i 0) (PQgetvalue res i 1) (PQgetvalue res i 2)
    simp only [list_objects_loop_checked, list_objects_loop]
    by_cases hgrow : buffer.length +
        (obj_json i (PQgetvalue res i 0) (PQgetvalue res i 1) (PQgetvalue res i 2)).length + 2 >
        buffer_size
    · simp only [hgrow, if_true]
      have hmod : buffer_size * 2 % 2 ^ 64 = buffer_size * 2 := Nat.mod_eq_of_lt (by omega)
      rw [hmod]
      rw [if_pos (by omega)]
      exact ih (i + 1) _ _ (by rw [List.length_append]; omega) (by omega)
        (by rw [List.length_append]; omega) (by rw [List.length_append]; omega)
    · simp only [hgrow, if_false]
      rw [if_pos (by omega)]
      exact ih (i + 1) _ _ (by rw [List.length_append]; omega) (by omega)
        (by rw [List.length_append]; omega) (by rw [List.length_append]; omega)

/-- C26: for every answer of the server (the row count is an `int`), no
`strcpy` of `s3_api_list_objects` runs over the buffer: a formatted element is
at most 511 bytes long, at every append the position plus the length of the
element plus its NUL is at most the buffer size of the moment (the checked
loop never stops and gives what the loop gives), and after the loop the
closing bracket and its NUL fit as well. -/
theorem list_buffer_is_never_overrun (res : PGresult) (hrows : PQntuples res < 2 ^ 31) :
    (∀ i path size lastmod, (obj_json i path size lastmod).length ≤ 511) ∧
    ∃ buffer buffer_size,
      list_objects_loop_checked res (PQntuples res) 0 (ascii "[") 1024 =
        some (buffer, buffer_size) ∧
      list_objects_loop res (PQntuples res) 0 (ascii "[") 1024 = (buffer, buffer_size) ∧
      buffer.length + (ascii "]").length + 1 ≤ buffer_size := by
  refine ⟨obj_json_length, ?_⟩
  have hone : (ascii "[").length = 1 := rfl
  exact list_objects_loop_checked_ok res (PQntuples res) 0 (ascii "[") 1024
    (by rw [hone]; omega) (by omega) (by rw [hone]; omega) (by rw [hone]; omega)

/-- Witness for C26: an answer of three rows, two of them with keys of 700
bytes. -/
theorem list_buffer_is_never_overrun_witness :
    PQntuples three_row_result < 2 ^ 31 ∧
    (∀ i path size lastmod, (obj_json i path size lastmod).length ≤ 511) ∧
    ∃ buffer buffer_size,
      list_objects_loop_checked three_row_result (PQntuples three_row_result) 0 (ascii "[") 1024 =
        some (buffer, buffer_size) ∧
      list_objects_loop three_row_result (PQntuples three_row_result) 0 (ascii "[") 1024 =
        (buffer, buffer_size) ∧
      buffer.length + (ascii "]").length + 1 ≤ buffer_size :=
  ⟨by decide, list_buffer_is_never_overrun three_row_result (by decide)⟩


/-! ## The payload of the listing -/

theorem obj_json_eq (i : Nat) (path size lastmod : CString) :
    obj_json i path size lastmod =
      ((if i > 0 then ascii "," else []) ++ json_element path size lastmod).take 511 := by
  unfold obj_json snprintf json_element
  simp only [List.append_assoc]

theorem elements_from_eq_formatted (i : Nat) (rows : List Row)
    (h : ∀ e ∈ formatted_from i rows, e.length ≤ 511) :
    elements_from i rows = formatted_from i rows := by
  induction rows generalizing i with
  | nil => rfl
  | cons r rs ih =>
    simp only [formatted_from, List.mem_cons, forall_eq_or_imp] at h
    simp only [elements_from, formatted_from, element_of]
    rw [ih (i + 1) h.2, obj_json_eq]
    exact congrArg (fun x => x :: formatted_from (i + 1) rs) (List.take_of_length_le h.1)

theorem formatted_from_flatten (i : Nat) (rows : List Row) :
    (formatted_from i rows).flatten = joined_from i (rows.map row_element) := by
  induction rows generalizing i with
  | nil => rfl
  | cons r rs ih =>
    simp only [formatted_from, List.flatten_cons, List.map_cons, joined_from, ih]
    rfl

theorem payload_of_fitting_rows (rows : List Row)
    (h : ∀ e ∈ formatted_from 0 rows, e.length ≤ 511) :
    ascii "[" ++ (elements_from 0 rows).flatten ++ ascii "]" =
      ascii "[" ++ comma_joined (rows.map row_element) ++ ascii "]" := by
  rw [elements_from_eq_formatted 0 rows h, formatted_from_flatten, joined_from_zero]

/-- C25: on a willing server, when every formatted element (with its leading
comma, if it has one) is at most 511 bytes long, the payload of
`s3_api_list_objects` is "[", the elements
{"Key":"path","Size":size,"LastModified":"timestamp"} of the rows in the order
of the answer, joined by commas, with path, size and timestamp put in as they
are, and "]"; `data_size` is the length of that text; without rows the payload
is [] and `data_size` is 2. -/
theorem listing_payload_is_joined_elements (c : PGconn)
    (hs : c.status = ConnStatusType.CONNECTION_OK) (hr : ∀ n, c.rejects n = false)
    (hlen : ∀ e ∈ formatted_from 0 (order_by_path (c.objects.getD [])), e.length ≤ 511) :
    (s3_api_list_objects (some c) (some (ascii "public"))).1.status =
      S3StatusEnum.S3_SUCCESS ∧
    (s3_api_list_objects (some c) (some (ascii "public"))).1.data =
      some (ascii "[" ++ comma_joined ((order_by_path (c.objects.getD [])).map row_element) ++
        ascii "]") ∧
    (s3_api_list_objects (some c) (some (ascii "public"))).1.data_size =
      (ascii "[" ++ comma_joined ((order_by_path (c.objects.getD [])).map row_element) ++
        ascii "]").length ∧
    (∀ r, row_element r = ascii "\x7b\"Key\":\"" ++ r.path ++ ascii "\",\"Size\":" ++
      bigint_out r.size ++ ascii ",\"LastModified\":\"" ++ r.last_modified ++ ascii "\"\x7d") ∧
    (c.objects.getD [] = [] →
      (s3_api_list_objects (some c) (some (ascii "public"))).1.data = some (ascii "[]") ∧
      (s3_api_list_objects (some c) (some (ascii "public"))).1.data_size = 2) := by
  rw [list_objects_on_willing_server c hs hr]
  rw [payload_of_fitting_rows _ hlen]
  refine ⟨rfl, rfl, rfl, fun _ => rfl, ?_⟩
  intro h0
  rw [h0]
  exact ⟨rfl, rfl⟩

/-- Witness for C25: the store that holds `b/1` and `a/1`. -/
theorem listing_payload_is_joined_elements_witness :
    two_key_conn.status = ConnStatusType.CONNECTION_OK ∧
    (∀ n, two_key_conn.rejects n = false) ∧
    (∀ e ∈ formatted_from 0 (order_by_path (two_key_conn.objects.getD [])), e.length ≤ 511) ∧
    (s3_api_list_objects (some two_key_conn) (some (ascii "public"))).1.data =
      some (ascii ("[\x7b\"Key\":\"a/1\",\"Size\":1,\"LastModified\":\"2024-01-01T00:00:00.000Z\"\x7d," ++
        "\x7b\"Key\":\"b/1\",\"Size\":1,\"LastModified\":\"2024-01-01T00:00:00.000Z\"\x7d]")) :=
  ⟨rfl, fun _ => rfl, by decide,
    (listing_payload_is_joined_elements two_key_conn rfl (fun _ => rfl) (by decide)).2.1.trans
      (by decide)⟩


/-! ## The filter on a listing of plain keys -/

theorem strchr_skip (a b : CString) (c : Byte) (h : c ∉ a) :
    strchr (a ++ b) c = strchr b c := by
  induction a with
  | nil => rfl
  | cons x a ih =>
    have hx : x ≠ c := fun e => h (by rw [e]; exact List.mem_cons_self _ _)
    have ha : c ∉ a := fun e => h (List.mem_cons_of_mem _ e)
    rw [List.cons_append, strchr, if_neg hx, ih ha]

theorem strchr_cons_ne (x : Byte) (s : CString) (c : Byte) (h : x ≠ c) :
    strchr (x :: s) c = strchr s c := by
  rw [strchr, if_neg h]

theorem strchr_cons_self (s : CString) (c : Byte) : strchr (c :: s) c = some (c :: s) := by
  rw [strchr, if_pos rfl]

theorem strstr_self (pat rest : CString) (h : pat ≠ []) :
    strstr (pat ++ rest) pat = some (pat ++ rest) := by
  cases pat with
  | nil => exact absurd rfl h
  | cons b p =>
    rw [List.cons_append, strstr, if_pos]
    rw [← List.cons_append]
    exact List.isPrefixOf_iff_prefix.mpr (List.prefix_append _ _)

theorem plain_not_mem (s : CString) (h : plain s = true) :
    (34 : Byte) ∉ s ∧ (123 : Byte) ∉ s ∧ (125 : Byte) ∉ s := by
  unfold plain at h
  rw [List.all_eq_true] at h
  exact ⟨fun m => absurd (h _ m) (by decide), fun m => absurd (h _ m) (by decide),
    fun m => absurd (h _ m) (by decide)⟩

theorem json_element_shape (path size lastmod rest : CString) :
    json_element path size lastmod ++ rest =
      123 :: (ascii "\"Key\":\"" ++ (path ++ (34 :: (ascii ",\"Size\":" ++ (size ++
        (ascii ",\"LastModified\":\"" ++ (lastmod ++ (34 :: 125 :: rest)))))))) := by
  unfold json_element
  simp only [List.append_assoc]
  rfl

theorem take_pfx_iff (pfx path tail : CString) :
    (path.length ≥ pfx.length ∧ (path ++ tail).take pfx.length = pfx) ↔
      pfx.isPrefixOf path = true := by
  rw [List.isPrefixOf_iff_prefix]
  constructor
  · rintro ⟨hl, ht⟩
    rw [List.take_append_of_le_length hl] at ht
    rw [← ht]
    exact List.take_prefix _ _
  · rintro ⟨t, rfl⟩
    refine ⟨by simp, ?_⟩
    rw [List.append_assoc, List.take_left]

theorem filter_loop_element (pfx : CString) (fuel : Nat) (path size lastmod rest : CString)
    (filtered : List Byte) (count : Nat)
    (hp : plain path = true) (hz : plain size = true) (hl : plain lastmod = true) :
    filter_loop pfx (fuel + 1) (some (json_element path size lastmod ++ rest)) filtered count =
      filter_loop pfx fuel (strchr rest 123)
        (if pfx.isPrefixOf path = true then
          (if count > 0 then filtered ++ [44] else filtered) ++ json_element path size lastmod
         else filtered)
        (if pfx.isPrefixOf path = true then count + 1 else count) := by
  obtain ⟨hp34, _, hp125⟩ := plain_not_mem path hp
  obtain ⟨_, _, hz125⟩ := plain_not_mem size hz
  obtain ⟨_, _, hl125⟩ := plain_not_mem lastmod hl
  have hend : strchr (json_element path size lastmod ++ rest) 125 = some (125 :: rest) := by
    rw [json_element_shape, strchr_cons_ne _ _ _ (by decide), strchr_skip _ _ _ (by decide),
      strchr_skip _ _ _ hp125, strchr_cons_ne _ _ _ (by decide), strchr_skip _ _ _ (by decide),
      strchr_skip _ _ _ hz125, strchr_skip _ _ _ (by decide), strchr_skip _ _ _ hl125,
      strchr_cons_ne _ _ _ (by decide), strchr_cons_self]
  have hkey : strstr (json_element path size lastmod ++ rest) (ascii "\"Key\":\"") =
      some (ascii "\"Key\":\"" ++ (path ++ (34 :: (ascii ",\"Size\":" ++ (size ++
        (ascii ",\"LastModified\":\"" ++ (lastmod ++ (34 :: 125 :: rest)))))))) := by
    rw [json_element_shape, strstr, if_neg (by
      rw [Bool.not_eq_true]
      rfl), strstr_self _ _ (by decide)]
  have hquote : strchr (path ++ (34 :: (ascii ",\"Size\":" ++ (size ++
        (ascii ",\"LastModified\":\"" ++ (lastmod ++ (34 :: 125 :: rest))))))) 34 =
      some (34 :: (ascii ",\"Size\":" ++ (size ++
        (ascii ",\"LastModified\":\"" ++ (lastmod ++ (34 :: 125 :: rest)))))) := by
    rw [strchr_skip _ _ _ hp34, strchr_cons_self]
  have hdrop : (ascii "\"Key\":\"" ++ (path ++ (34 :: (ascii ",\"Size\":" ++ (size ++
        (ascii ",\"LastModified\":\"" ++ (lastmod ++ (34 :: 125 :: rest)))))))).drop 7 =
      path ++ (34 :: (ascii ",\"Size\":" ++ (size ++
        (ascii ",\"LastModified\":\"" ++ (lastmod ++ (34 :: 125 :: rest)))))) :=
    List.drop_left' rfl
  have hK : (ascii "\"Key\":\"").length = 7 := rfl
  have hlen : (json_element path size lastmod ++ rest).length =
      (json_element path size lastmod).length + rest.length := List.length_append _ _
  have htake : (json_element path size lastmod ++ rest).take
      ((json_element path size lastmod ++ rest).length - (125 :: rest).length + 1) =
      json_element path size lastmod := by
    have h1 : 1 ≤ (json_element path size lastmod).length := by
      have := congrArg List.length (json_element_shape path size lastmod [])
      simp only [List.append_nil, List.length_cons] at this
      omega
    rw [hlen, List.length_cons]
    exact List.take_left' (by omega)
  rw [filter_loop]
  simp only [hend, hkey, hdrop, hquote]
  rw [if_neg (by simp only [List.length_append, List.length_cons, hK]; omega),
    if_neg (by simp only [List.length_append, List.length_cons]; omega)]
  have hkl : (path ++ (34 :: (ascii ",\"Size\":" ++ (size ++
        (ascii ",\"LastModified\":\"" ++ (lastmod ++ (34 :: 125 :: rest))))))).length -
      (34 :: (ascii ",\"Size\":" ++ (size ++
        (ascii ",\"LastModified\":\"" ++ (lastmod ++ (34 :: 125 :: rest)))))).length =
      path.length := by
    rw [List.length_append]
    omega
  simp only [hkl, take_pfx_iff, htake, strchr_cons_ne 125 rest 123 (by decide)]
  split <;> rfl

theorem json_element_head (path size lastmod rest : CString) :
    strchr (json_element path size lastmod ++ rest) 123 =
      some (json_element path size lastmod ++ rest) := by
  rw [json_element_shape, strchr_cons_self]

theorem strchr_listing_tail_cons (r : Row) (rs : List Row) :
    strchr (listing_tail (r :: rs)) 123 = some (row_element r ++ listing_tail rs) := by
  show strchr (44 :: (row_element r ++ listing_tail rs)) 123 = _
  rw [strchr_cons_ne _ _ _ (by decide)]
  exact json_element_head _ _ _ _

theorem filter_loop_listing (pfx : CString) (rows : List Row) (fuel : Nat)
    (filtered : List Byte) (count : Nat)
    (hplain : ∀ r ∈ rows, plain r.path = true ∧ plain (bigint_out r.size) = true ∧
      plain r.last_modified = true)
    (hfuel : rows.length ≤ fuel) :
    filter_loop pfx fuel (strchr (listing_tail rows) 123) filtered count =
      some (filtered ++
          joined_from count ((rows.filter (fun r => pfx.isPrefixOf r.path)).map row_element),
        count + (rows.filter (fun r => pfx.isPrefixOf r.path)).length) := by
  induction rows generalizing fuel filtered count with
  | nil =>
    have h0 : strchr (listing_tail []) 123 = none := by decide
    rw [h0]
    cases fuel <;> simp [filter_loop, joined_from]
  | cons r rs ih =>
    obtain ⟨f, rfl⟩ : ∃ f, fuel = f + 1 := ⟨fuel - 1, by simp only [List.length_cons] at hfuel; omega⟩
    obtain ⟨h1, h2, h3⟩ := hplain r (List.mem_cons_self _ _)
    rw [strchr_listing_tail_cons, row_element, filter_loop_element _ _ _ _ _ _ _ _ h1 h2 h3,
      ih _ _ _ (fun x hx => hplain x (List.mem_cons_of_mem _ hx))
        (by simp only [List.length_cons] at hfuel; omega)]
    by_cases hm : pfx.isPrefixOf r.path = true
    · simp only [hm, if_true, List.filter_cons_of_pos, List.map_cons, joined_from,
        List.length_cons, row_element]
      by_cases hc : count > 0
      · simp only [hc, if_true, List.append_assoc]
        rw [Nat.add_assoc, Nat.add_comm 1]
      · simp only [hc, if_false, List.append_assoc, List.nil_append]
        rw [Nat.add_assoc, Nat.add_comm 1]
    · simp only [hm, if_false, Bool.false_eq_true, List.filter_cons_of_neg, not_false_eq_true]

theorem comma_joined_tail (r : Row) (rs : List Row) :
    comma_joined ((r :: rs).map row_element) ++ ascii "]" = row_element r ++ listing_tail rs := by
  induction rs generalizing r with
  | nil => rfl
  | cons r2 rs ih =>
    have h := ih r2
    simp only [List.map_cons] at h
    simp only [List.map_cons, comma_joined, List.append_assoc, h]
    rfl

theorem listing_tail_length (rows : List Row) : rows.length + 1 ≤ (listing_tail rows).length := by
  induction rows with
  | nil => exact Nat.le_refl _
  | cons r rs ih =>
    show _ ≤ (44 :: (row_element r ++ listing_tail rs)).length
    simp only [List.length_cons, List.length_append]
    omega

theorem filter_on_plain_listing (pfx : CString) (rows : List Row)
    (hplain : ∀ r ∈ rows, plain r.path = true ∧ plain (bigint_out r.size) = true ∧
      plain r.last_modified = true) :
    filter_by_pfx pfx (ascii "[" ++ comma_joined (rows.map row_element) ++ ascii "]") =
      some (ascii "[" ++
        comma_joined ((rows.filter (fun r => pfx.isPrefixOf r.path)).map row_element) ++
        ascii "]") := by
  have hstart : strchr (ascii "[" ++ comma_joined (rows.map row_element) ++ ascii "]") 123 =
      strchr (listing_tail rows) 123 := by
    cases rows with
    | nil => rfl
    | cons r rs =>
      rw [List.append_assoc, comma_joined_tail, strchr_listing_tail_cons]
      show strchr (91 :: (row_element r ++ listing_tail rs)) 123 = _
      rw [strchr_cons_ne _ _ _ (by decide)]
      exact json_element_head _ _ _ _
  have hfuel : rows.length ≤
      (ascii "[" ++ comma_joined (rows.map row_element) ++ ascii "]").length + 1 := by
    cases rows with
    | nil => simp
    | cons r rs =>
      rw [List.append_assoc, comma_joined_tail]
      have := listing_tail_length rs
      simp only [List.length_append, List.length_cons]
      omega
  unfold filter_by_pfx
  rw [hstart, filter_loop_listing pfx rows _ _ _ hplain hfuel, joined_from_zero]
  rfl

theorem handle_list_objects_on_plain_listing (c : PGconn) (conninfo p : CString) (port : Nat)
    (hs : c.status = ConnStatusType.CONNECTION_OK) (hr : ∀ n, c.rejects n = false)
    (hp : p ≠ [])
    (hplain : ∀ r ∈ c.objects.getD [], plain r.path = true ∧
      plain (bigint_out r.size) = true ∧ plain r.last_modified = true)
    (hlen : ∀ e ∈ formatted_from 0 (order_by_path (c.objects.getD [])), e.length ≤ 511) :
    (handle_list_objects
        { port := port, pg_client := some { conninfo := conninfo, conn := some c } }
        { pfx := some p }).1 =
      some { status_code := 200,
             body := ascii "[" ++ comma_joined (((order_by_path (c.objects.getD [])).filter
               (fun r => p.isPrefixOf r.path)).map row_element) ++ ascii "]",
             content_type := some (ascii "application/json") } := by
  have hl := list_objects_on_willing_server c hs hr
  rw [payload_of_fitting_rows _ hlen] at hl
  have hf := filter_on_plain_listing p (order_by_path (c.objects.getD []))
    (fun r hm => hplain r ((order_by_path_perm _).mem_iff.mp hm))
  unfold handle_list_objects pg_client_list_objects
  simp only [hl, ne_eq, not_true_eq_false, if_false, hp, not_false_eq_true, if_true, hf,
    Option.map_some']
  rfl


set_option maxRecDepth 100000 in
/-- C24 as stated fails at its bound.  The store holds `a/1` and a key of 450
bytes that starts with `a/`; paths, sizes and timestamps are plain, and both
listing elements are shorter than 512 bytes (64 and 511 bytes).  With its
leading comma the second element is 512 bytes long, so `obj_json [512]` loses
its closing brace, and the body for the prefix `a/` holds the element of `a/1`
only. -/
theorem pfx_filter_drops_element_of_511_bytes :
    (∀ r ∈ boundary_conn.objects.getD [], plain r.path = true ∧
      plain (bigint_out r.size) = true ∧ plain r.last_modified = true) ∧
    (∀ r ∈ boundary_conn.objects.getD [], (row_element r).length < 512) ∧
    (∀ r ∈ boundary_conn.objects.getD [], (ascii "a/").isPrefixOf r.path = true) ∧
    (handle_list_objects
        { port := 9000, pg_client := some { conninfo := [], conn := some boundary_conn } }
        { pfx := some (ascii "a/") }).1 =
      some { status_code := 200,
             body :=
               ascii "[\x7b\"Key\":\"a/1\",\"Size\":1,\"LastModified\":\"2024-01-01T00:00:00.000Z\"\x7d]",
             content_type := some (ascii "application/json") } ∧
    (handle_list_objects
        { port := 9000, pg_client := some { conninfo := [], conn := some boundary_conn } }
        { pfx := some (ascii "a/") }).1 ≠
      some { status_code := 200,
             body := ascii "[" ++ comma_joined (((order_by_path
               (boundary_conn.objects.getD [])).filter
                 (fun r => (ascii "a/").isPrefixOf r.path)).map row_element) ++ ascii "]",
             content_type := some (ascii "application/json") } := by
  decide

/-- C24, amended: on a willing server whose rows have paths, sizes and
timestamps without the characters ", { and } and whose formatted elements,
each with the leading comma that every element but the first has, are at most
511 bytes long, the unfiltered payload is "[", the elements of the rows
joined by commas, and "]", and for a non-empty prefix the body that
`handle_list_objects` sends is "[", the elements of exactly those rows whose
path starts with the prefix, joined by commas, and "]"; these are elements of
the payload, unchanged and in the order they have there; when no path starts
with the prefix the body is []. -/
theorem pfx_filter_keeps_matching_elements (c : PGconn) (conninfo p : CString) (port : Nat)
    (hs : c.status = ConnStatusType.CONNECTION_OK) (hr : ∀ n, c.rejects n = false)
    (hp : p ≠ [])
    (hplain : ∀ r ∈ c.objects.getD [], plain r.path = true ∧
      plain (bigint_out r.size) = true ∧ plain r.last_modified = true)
    (hlen : ∀ e ∈ formatted_from 0 (order_by_path (c.objects.getD [])), e.length ≤ 511) :
    (s3_api_list_objects (some c) (some (ascii "public"))).1.data =
      some (ascii "[" ++ comma_joined ((order_by_path (c.objects.getD [])).map row_element) ++
        ascii "]") ∧
    (handle_list_objects
        { port := port, pg_client := some { conninfo := conninfo, conn := some c } }
        { pfx := some p }).1 =
      some { status_code := 200,
             body := ascii "[" ++ comma_joined (((order_by_path (c.objects.getD [])).filter
               (fun r => p.isPrefixOf r.path)).map row_element) ++ ascii "]",
             content_type := some (ascii "application/json") } ∧
    (((order_by_path (c.objects.getD [])).filter
        (fun r => p.isPrefixOf r.path)).map row_element).Sublist
      ((order_by_path (c.objects.getD [])).map row_element) ∧
    ((∀ r ∈ c.objects.getD [], p.isPrefixOf r.path = false) →
      (handle_list_objects
          { port := port, pg_client := some { conninfo := conninfo, conn := some c } }
          { pfx := some p }).1 =
        some { status_code := 200, body := ascii "[]",
               content_type := some (ascii "application/json") }) := by
  have hl := list_objects_on_willing_server c hs hr
  rw [payload_of_fitting_rows _ hlen] at hl
  have hh := handle_list_objects_on_plain_listing c conninfo p port hs hr hp hplain hlen
  refine ⟨by rw [hl], hh, List.Sublist.map _ (List.filter_sublist _), ?_⟩
  intro hnone
  have hnil : (order_by_path (c.objects.getD [])).filter (fun r => p.isPrefixOf r.path) = [] := by
    rw [List.filter_eq_nil_iff]
    intro r hm
    rw [hnone r ((order_by_path_perm _).mem_iff.mp hm)]
    decide
  rw [hh, hnil]
  rfl

set_option maxRecDepth 20000 in
/-- Witness for C24, amended: the keys `a/1`, `a/2` and `b/1` with the prefix `a/` give
the elements of `a/1` and `a/2`, in that order. -/
theorem pfx_filter_keeps_matching_elements_witness :
    three_key_conn.status = ConnStatusType.CONNECTION_OK ∧
    (∀ n, three_key_conn.rejects n = false) ∧
    ascii "a/" ≠ [] ∧
    (∀ r ∈ three_key_conn.objects.getD [], plain r.path = true ∧
      plain (bigint_out r.size) = true ∧ plain r.last_modified = true) ∧
    (∀ e ∈ formatted_from 0 (order_by_path (three_key_conn.objects.getD [])), e.length ≤ 511) ∧
    (handle_list_objects
        { port := 9000, pg_client := some { conninfo := [], conn := some three_key_conn } }
        { pfx := some (ascii "a/") }).1 =
      some { status_code := 200,
             body :=
               ascii "[\x7b\"Key\":\"a/1\",\"Size\":1,\"LastModified\":\"2024-01-01T00:00:00.000Z\"\x7d," ++
               ascii "\x7b\"Key\":\"a/2\",\"Size\":2,\"LastModified\":\"2024-01-01T00:00:00.000Z\"\x7d]",
             content_type := some (ascii "application/json") } :=
  ⟨rfl, fun _ => rfl, by decide, by decide, by decide,
    (pfx_filter_keeps_matching_elements three_key_conn [] (ascii "a/") 9000 rfl (fun _ => rfl)
      (by decide) (by decide) (by decide)).2.1.trans (by decide)⟩

/-! ## The terminating NUL of the filtered body -/

/-- C27: the filter allocates `data_size` bytes and writes the body and then
a terminating NUL, which so falls on the index that is the length of the body.
On a willing server with plain rows, when every stored path starts with the
non-empty prefix (also when the store is empty), the body is as long as the
payload: the closing bracket is the last byte of the buffer and the NUL is
written at index `data_size`, one past its end. -/
theorem filter_nul_lands_past_buffer (c : PGconn) (conninfo p : CString) (port : Nat)
    (hs : c.status = ConnStatusType.CONNECTION_OK) (hr : ∀ n, c.rejects n = false)
    (hp : p ≠ [])
    (hplain : ∀ r ∈ c.objects.getD [], plain r.path = true ∧
      plain (bigint_out r.size) = true ∧ plain r.last_modified = true)
    (hlen : ∀ e ∈ formatted_from 0 (order_by_path (c.objects.getD [])), e.length ≤ 511)
    (hall : ∀ r ∈ c.objects.getD [], p.isPrefixOf r.path = true) :
    ∃ body,
      (handle_list_objects
          { port := port, pg_client := some { conninfo := conninfo, conn := some c } }
          { pfx := some p }).1 =
        some { status_code := 200, body := body,
               content_type := some (ascii "application/json") } ∧
      filter_by_pfx p
        ((s3_api_list_objects (some c) (some (ascii "public"))).1.data.getD []) = some body ∧
      body.length = (s3_api_list_objects (some c) (some (ascii "public"))).1.data_size := by
  have hl := list_objects_on_willing_server c hs hr
  rw [payload_of_fitting_rows _ hlen] at hl
  have hh := handle_list_objects_on_plain_listing c conninfo p port hs hr hp hplain hlen
  have hf := filter_on_plain_listing p (order_by_path (c.objects.getD []))
    (fun r hm => hplain r ((order_by_path_perm _).mem_iff.mp hm))
  have hid : (order_by_path (c.objects.getD [])).filter (fun r => p.isPrefixOf r.path) =
      order_by_path (c.objects.getD []) := by
    rw [List.filter_eq_self]
    intro r hm
    exact hall r ((order_by_path_perm _).mem_iff.mp hm)
  rw [hid] at hh hf
  refine ⟨_, hh, ?_, ?_⟩
  · rw [hl]
    exact hf
  · rw [hl]

set_option maxRecDepth 20000 in
/-- Witness for C27: the store that holds `a.txt`, listed with the prefix `a`:
the payload and the body are both 68 bytes long. -/
theorem filter_nul_lands_past_buffer_witness :
    stocked_conn.status = ConnStatusType.CONNECTION_OK ∧
    (∀ n, stocked_conn.rejects n = false) ∧
    ascii "a" ≠ [] ∧
    (∀ r ∈ stocked_conn.objects.getD [], plain r.path = true ∧
      plain (bigint_out r.size) = true ∧ plain r.last_modified = true) ∧
    (∀ e ∈ formatted_from 0 (order_by_path (stocked_conn.objects.getD [])), e.length ≤ 511) ∧
    (∀ r ∈ stocked_conn.objects.getD [], (ascii "a").isPrefixOf r.path = true) ∧
    (s3_api_list_objects (some stocked_conn) (some (ascii "public"))).1.data_size = 68 ∧
    ∃ body,
      (handle_list_objects
          { port := 9000, pg_client := some { conninfo := [], conn := some stocked_conn } }
          { pfx := some (ascii "a") }).1 =
        some { status_code := 200, body := body,
               content_type := some (ascii "application/json") } ∧
      filter_by_pfx (ascii "a")
        ((s3_api_list_objects (some stocked_conn) (some (ascii "public"))).1.data.getD []) =
        some body ∧
      body.length =
        (s3_api_list_objects (some stocked_conn) (some (ascii "public"))).1.data_size :=
  ⟨rfl, fun _ => rfl, by decide, by decide, by decide, by decide, by decide,
    filter_nul_lands_past_buffer stocked_conn [] (ascii "a") 9000 rfl (fun _ => rfl)
      (by decide) (by decide) (by decide) (by decide)⟩

end Pgs3
